import Mathlib

/-!
Verification of the GS1 barcode engine AI parser, validator and
extracted-AI core.  The definitions below are a shallow embedding of the
C sources (`src/c-lib/gs1encoders.h`): C strings become `List Char`
values (the inputs are NUL-terminated C strings, so interior NUL bytes
cannot occur in them), the mutable encoder context becomes an explicitly
passed record, and fallible operations return `Except`/`Bool` results.
-/

namespace GS1

/-- Character-set classes of AI components (source `enum cset` values
`cset_none = 0`, `cset_N`, `cset_X`, `cset_C`; the enum itself is declared
outside the provided sources and is modelled from the spec's CSET
enumeration and the uses in the code). -/
inductive Cset where
  | none
  | N
  | X
  | C
deriving DecidableEq

/-- Identifiers for the additional per-component linter functions.  Only
`lint_csum` ever occurs in the AI table (`linters[0] = lint_csum`); an
absent linter is a null pointer, modelled by omission from the list. -/
inductive Linter where
  | csum
deriving DecidableEq

/-- One component of an AI definition (source `struct aiComponent`,
declared outside the provided sources).  Modelled from the spec: "AI
Component: { cset: CSET, min: u8, max: u8, linters: ordered list of
Linter (possibly empty) }". -/
structure AIComponent where
  cset : Cset
  min : Nat
  max : Nat
  linters : List Linter
deriving DecidableEq

/-- An AI definition (source `struct aiEntry`, declared outside the
provided sources).  Modelled from the spec: "AI Definition: { ai: 2-4
digit string, fnc1Required: bool, components: fixed-capacity ordered
list of AI Component (capacity 5), title }".  The key is kept as a
character list; `parts` always holds exactly five components, padded
with `cset = none` sentinels exactly as the source's `AI(...)` macro
does. -/
structure AIEntry where
  ai : List Char
  fnc1 : Bool
  parts : List AIComponent
  title : String
deriving DecidableEq

/-- Render an AI key for an error message (the C code prints `entry->ai`
with `%s`). -/
def aiStr (e : AIEntry) : String := String.mk e.ai

/-- An extracted AI: the source stores an `aiEntry` pointer, a pointer to
the start of the value inside the element string and the value length;
here the designated slice itself is stored. -/
structure ExtractedAI where
  aiEntry : AIEntry
  value : List Char
deriving DecidableEq

/-- The encoder context state relevant to the parser core (source
`struct gs1_encoder`, declared outside the provided sources).  Modelled
from the spec: the error message buffer, the error flag and the
extracted-AI list; `numAIs` is `aiData.length`, capacity `MAX_AIS`. -/
structure GS1Encoder where
  errMsg : String
  errFlag : Bool
  aiData : List ExtractedAI
deriving DecidableEq

/-- Modelled from the spec: compile-time maximum length of the element
string buffer (`MAX_DATA` is defined outside the provided sources, the
spec only names the bound).  Any sufficiently large value works; the
parsers fail when a write would exceed it. -/
def MAX_DATA : Nat := 8191

/-- Modelled from the spec: maximum decoded AI value length
(`MAX_AI_LEN` is defined outside the provided sources).  The value 90 is
the one consistent with the AI table, whose largest component is
`X,1,90` and whose components must fit `char compval[MAX_AI_LEN+1]`. -/
def MAX_AI_LEN : Nat := 90

/-- Modelled from the spec: capacity of the extracted-AI list
(`MAX_AIS` is defined outside the provided sources). -/
def MAX_AIS : Nat := 64

/-- Record an error in the context: the C code does
`sprintf(ctx->errMsg, ...); ctx->errFlag = true;`. -/
def setErr (ctx : GS1Encoder) (m : String) : GS1Encoder :=
  { ctx with errMsg := m, errFlag := true }

/-- `gs1_allDigits(str, len)`: when `len` is zero the C code substitutes
`strlen(str)`; it then checks that the first `len` bytes are ASCII
digits. -/
def gs1_allDigits (str : List Char) (len : Nat) : Bool :=
  let l := if len == 0 then str.length else len
  (str.take l).all (fun c => 48 ≤ c.toNat && c.toNat ≤ 57)

/-- The C `while` loop of `gs1_validateParity`: it walks every character
except the last, accumulating `weight * (*str - '0')` and flipping the
weight via `weight = 4 - weight`.  Characters are bytes; the arithmetic
is C `int` arithmetic, modelled with `Int`. -/
def parityLoop (parity weight : Int) : List Char → Int
  | [] => parity
  | [_] => parity
  | c :: rest => parityLoop (parity + weight * ((c.toNat : Int) - 48)) (4 - weight) rest

/-- `gs1_validateParity(str)`: the initial weight is 3 for even-length
strings and 1 for odd ones; the final parity is `(10 - parity % 10) % 10`
(C `%` is truncated, `Int.tmod`).  On mismatch the final byte is
overwritten with the recomputed digit and `false` is returned; the pair
returned here is (result, final buffer contents).  The source asserts the
input is non-empty; the empty case here is dead code. -/
def gs1_validateParity (str : List Char) : Bool × List Char :=
  let weight : Int := if str.length % 2 == 0 then 3 else 1
  let parity := parityLoop 0 weight str
  let parity := (10 - parity.tmod 10).tmod 10
  match str.getLast? with
  | Option.none => (true, str)
  | Option.some last =>
      if parity + 48 == (last.toNat : Int) then (true, str)
      else (false, str.dropLast ++ [Char.ofNat (parity + 48).toNat])

/-- The 82-character set valid within type "X" AIs (source `cset82`
string; `\x27` is the apostrophe). -/
def cset82 : List Char :=
  String.data "!\"%&\x27()*+,-./0123456789:;<=>?ABCDEFGHIJKLMNOPQRSTUVWXYZ_abcdefghijklmnopqrstuvwxyz"

/-- Characters permissible in URIs (source `uriCharacters`). -/
def uriCharacters : List Char :=
  String.data "ABCDEFGHIJKLMNOPQRSTUVWXYZabcdefghijklmnopqrstuvwxyz0123456789-._~:/?#[]@!$&\x27()*+,;=%"

/-- AI prefixes defined as not requiring termination by FNC1 (source
`fixedAIprefixes`; "23" is commented out there). -/
def fixedAIprefixes : List (List Char) :=
  (["00", "01", "02",
    "03", "04",
    "11", "12", "13", "14", "15", "16", "17", "18", "19",
    "20",
    "31", "32", "33", "34", "35", "36",
    "41"]).map String.data

/-- `lint_cset82` / `lint_csetNumeric` / `lint_csum` (the source linter
functions); each checks one component value and reports an error message
into the context.  `lint_csum` calls `gs1_validateParity` on the local
component copy and ignores the (possibly rewritten) buffer. -/
def runLinter : Linter → GS1Encoder → AIEntry → List Char → GS1Encoder × Bool
  | Linter.csum, ctx, entry, val =>
      if (gs1_validateParity val).1 then (ctx, true)
      else (setErr ctx ("AI (" ++ aiStr entry ++ "): Incorrect check digit"), false)

/-- `lint_cset82`: fails unless every character of the value is in
`cset82` (C: `strspn(val, cset82) != strlen(val)`). -/
def lint_cset82 (ctx : GS1Encoder) (entry : AIEntry) (val : List Char) :
    GS1Encoder × Bool :=
  if val.all (fun c => cset82.contains c) then (ctx, true)
  else (setErr ctx ("AI (" ++ aiStr entry ++ "): Incorrect CSET 82 character"), false)

/-- `lint_csetNumeric`: fails unless `gs1_allDigits(val, 0)`. -/
def lint_csetNumeric (ctx : GS1Encoder) (entry : AIEntry) (val : List Char) :
    GS1Encoder × Bool :=
  if gs1_allDigits val 0 then (ctx, true)
  else (setErr ctx ("AI (" ++ aiStr entry ++ "): Illegal non-digit character"), false)

end GS1

namespace GS1

/-- Source macro `#define NO_FNC1 false`-equivalent (`.fnc1` field value). -/
def NO_FNC1 : Bool := false

/-- Source macro `#define FNC1 true`-equivalent. -/
def FNC1 : Bool := true

/-- Build one `aiComponent` as the source `AI(...)` macro does:
`{ .cset = cset_c, .min = mn, .max = mx, .linters[0] = lint_l }`. -/
def P (c : Cset) (mn mx : Nat) (l : List Linter) : AIComponent :=
  { cset := c, min := mn, max := mx, linters := l }

/-- The all-zero padding component produced by the source `__` macro
(`cset_0 = cset_none`, min = max = 0, no linter). -/
def C0 : AIComponent := { cset := Cset.none, min := 0, max := 0, linters := [] }

/-- Build one `aiEntry` as the source `AI(...)` macro does. -/
def AI (a : String) (f : Bool) (p1 p2 p3 p4 p5 : AIComponent) (t : String) : AIEntry :=
  { ai := a.data, fnc1 := f, parts := [p1, p2, p3, p4, p5], title := t }

/-- The static AI registry (source `ai_table`), transcribed verbatim. -/
def ai_table : List AIEntry := [
  AI "00" NO_FNC1 (P .N 18 18 [.csum]) C0 C0 C0 C0 "SSCC",
  AI "01" NO_FNC1 (P .N 14 14 [.csum]) C0 C0 C0 C0 "GTIN",
  AI "02" NO_FNC1 (P .N 14 14 [.csum]) C0 C0 C0 C0 "CONTENT",
  AI "10" FNC1 (P .X 1 20 []) C0 C0 C0 C0 "BATCH/LOT",
  AI "11" NO_FNC1 (P .N 6 6 []) C0 C0 C0 C0 "PROD DATE",
  AI "12" NO_FNC1 (P .N 6 6 []) C0 C0 C0 C0 "DUE DATE",
  AI "13" NO_FNC1 (P .N 6 6 []) C0 C0 C0 C0 "PACK DATE",
  AI "15" NO_FNC1 (P .N 6 6 []) C0 C0 C0 C0 "BEST BEFORE or BEST BY",
  AI "16" NO_FNC1 (P .N 6 6 []) C0 C0 C0 C0 "SELL BY",
  AI "17" NO_FNC1 (P .N 6 6 []) C0 C0 C0 C0 "USE BY or EXPIRY",
  AI "20" NO_FNC1 (P .N 2 2 []) C0 C0 C0 C0 "VARIANT",
  AI "21" FNC1 (P .X 1 20 []) C0 C0 C0 C0 "SERIAL",
  AI "22" FNC1 (P .X 1 20 []) C0 C0 C0 C0 "CPV",
  AI "235" FNC1 (P .X 1 28 []) C0 C0 C0 C0 "TPX",
  AI "240" FNC1 (P .X 1 30 []) C0 C0 C0 C0 "ADDITIONAL ID",
  AI "241" FNC1 (P .X 1 30 []) C0 C0 C0 C0 "CUST. PART NO.",
  AI "242" FNC1 (P .N 1 6 []) C0 C0 C0 C0 "MTO VARIANT",
  AI "243" FNC1 (P .X 1 20 []) C0 C0 C0 C0 "PCN",
  AI "250" FNC1 (P .X 1 30 []) C0 C0 C0 C0 "SECONDARY SERIAL",
  AI "251" FNC1 (P .X 1 30 []) C0 C0 C0 C0 "REF. TO SOURCE",
  AI "253" FNC1 (P .N 13 13 [.csum]) (P .X 0 17 []) C0 C0 C0 "GDTI",
  AI "254" FNC1 (P .X 1 20 []) C0 C0 C0 C0 "GLN EXTENSION COMPONENT",
  AI "255" FNC1 (P .N 13 13 [.csum]) (P .N 0 12 []) C0 C0 C0 "GCN",
  AI "30" FNC1 (P .N 1 8 []) C0 C0 C0 C0 "VAR. COUNT",
  AI "3100" NO_FNC1 (P .N 6 6 []) C0 C0 C0 C0 "NET WEIGHT (kg)",
  AI "3101" NO_FNC1 (P .N 6 6 []) C0 C0 C0 C0 "NET WEIGHT (kg)",
  AI "3102" NO_FNC1 (P .N 6 6 []) C0 C0 C0 C0 "NET WEIGHT (kg)",
  AI "3103" NO_FNC1 (P .N 6 6 []) C0 C0 C0 C0 "NET WEIGHT (kg)",
  AI "3104" NO_FNC1 (P .N 6 6 []) C0 C0 C0 C0 "NET WEIGHT (kg)",
  AI "3105" NO_FNC1 (P .N 6 6 []) C0 C0 C0 C0 "NET WEIGHT (kg)",
  AI "3110" NO_FNC1 (P .N 6 6 []) C0 C0 C0 C0 "LENGTH (m)",
  AI "3111" NO_FNC1 (P .N 6 6 []) C0 C0 C0 C0 "LENGTH (m)",
  AI "3112" NO_FNC1 (P .N 6 6 []) C0 C0 C0 C0 "LENGTH (m)",
  AI "3113" NO_FNC1 (P .N 6 6 []) C0 C0 C0 C0 "LENGTH (m)",
  AI "3114" NO_FNC1 (P .N 6 6 []) C0 C0 C0 C0 "LENGTH (m)",
  AI "3115" NO_FNC1 (P .N 6 6 []) C0 C0 C0 C0 "LENGTH (m)",
  AI "3120" NO_FNC1 (P .N 6 6 []) C0 C0 C0 C0 "WIDTH (m)",
  AI "3121" NO_FNC1 (P .N 6 6 []) C0 C0 C0 C0 "WIDTH (m)",
  AI "3122" NO_FNC1 (P .N 6 6 []) C0 C0 C0 C0 "WIDTH (m)",
  AI "3123" NO_FNC1 (P .N 6 6 []) C0 C0 C0 C0 "WIDTH (m)",
  AI "3124" NO_FNC1 (P .N 6 6 []) C0 C0 C0 C0 "WIDTH (m)",
  AI "3125" NO_FNC1 (P .N 6 6 []) C0 C0 C0 C0 "WIDTH (m)",
  AI "3130" NO_FNC1 (P .N 6 6 []) C0 C0 C0 C0 "HEIGHT (m)",
  AI "3131" NO_FNC1 (P .N 6 6 []) C0 C0 C0 C0 "HEIGHT (m)",
  AI "3132" NO_FNC1 (P .N 6 6 []) C0 C0 C0 C0 "HEIGHT (m)",
  AI "3133" NO_FNC1 (P .N 6 6 []) C0 C0 C0 C0 "HEIGHT (m)",
  AI "3134" NO_FNC1 (P .N 6 6 []) C0 C0 C0 C0 "HEIGHT (m)",
  AI "3135" NO_FNC1 (P .N 6 6 []) C0 C0 C0 C0 "HEIGHT (m)",
  AI "3140" NO_FNC1 (P .N 6 6 []) C0 C0 C0 C0 "AREA (m^2)",
  AI "3141" NO_FNC1 (P .N 6 6 []) C0 C0 C0 C0 "AREA (m^2)",
  AI "3142" NO_FNC1 (P .N 6 6 []) C0 C0 C0 C0 "AREA (m^2)",
  AI "3143" NO_FNC1 (P .N 6 6 []) C0 C0 C0 C0 "AREA (m^2)",
  AI "3144" NO_FNC1 (P .N 6 6 []) C0 C0 C0 C0 "AREA (m^2)",
  AI "3145" NO_FNC1 (P .N 6 6 []) C0 C0 C0 C0 "AREA (m^2)",
  AI "3150" NO_FNC1 (P .N 6 6 []) C0 C0 C0 C0 "NET VOLUME (l)",
  AI "3151" NO_FNC1 (P .N 6 6 []) C0 C0 C0 C0 "NET VOLUME (l)",
  AI "3152" NO_FNC1 (P .N 6 6 []) C0 C0 C0 C0 "NET VOLUME (l)",
  AI "3153" NO_FNC1 (P .N 6 6 []) C0 C0 C0 C0 "NET VOLUME (l)",
  AI "3154" NO_FNC1 (P .N 6 6 []) C0 C0 C0 C0 "NET VOLUME (l)",
  AI "3155" NO_FNC1 (P .N 6 6 []) C0 C0 C0 C0 "NET VOLUME (l)",
  AI "3160" NO_FNC1 (P .N 6 6 []) C0 C0 C0 C0 "NET VOLUME (m^3)",
  AI "3161" NO_FNC1 (P .N 6 6 []) C0 C0 C0 C0 "NET VOLUME (m^3)",
  AI "3162" NO_FNC1 (P .N 6 6 []) C0 C0 C0 C0 "NET VOLUME (m^3)",
  AI "3163" NO_FNC1 (P .N 6 6 []) C0 C0 C0 C0 "NET VOLUME (m^3)",
  AI "3164" NO_FNC1 (P .N 6 6 []) C0 C0 C0 C0 "NET VOLUME (m^3)",
  AI "3165" NO_FNC1 (P .N 6 6 []) C0 C0 C0 C0 "NET VOLUME (m^3)",
  AI "3200" NO_FNC1 (P .N 6 6 []) C0 C0 C0 C0 "NET WEIGHT (lb)",
  AI "3201" NO_FNC1 (P .N 6 6 []) C0 C0 C0 C0 "NET WEIGHT (lb)",
  AI "3202" NO_FNC1 (P .N 6 6 []) C0 C0 C0 C0 "NET WEIGHT (lb)",
  AI "3203" NO_FNC1 (P .N 6 6 []) C0 C0 C0 C0 "NET WEIGHT (lb)",
  AI "3204" NO_FNC1 (P .N 6 6 []) C0 C0 C0 C0 "NET WEIGHT (lb)",
  AI "3205" NO_FNC1 (P .N 6 6 []) C0 C0 C0 C0 "NET WEIGHT (lb)",
  AI "3210" NO_FNC1 (P .N 6 6 []) C0 C0 C0 C0 "LENGTH (i)",
  AI "3211" NO_FNC1 (P .N 6 6 []) C0 C0 C0 C0 "LENGTH (i)",
  AI "3212" NO_FNC1 (P .N 6 6 []) C0 C0 C0 C0 "LENGTH (i)",
  AI "3213" NO_FNC1 (P .N 6 6 []) C0 C0 C0 C0 "LENGTH (i)",
  AI "3214" NO_FNC1 (P .N 6 6 []) C0 C0 C0 C0 "LENGTH (i)",
  AI "3215" NO_FNC1 (P .N 6 6 []) C0 C0 C0 C0 "LENGTH (i)",
  AI "3220" NO_FNC1 (P .N 6 6 []) C0 C0 C0 C0 "LENGTH (f)",
  AI "3221" NO_FNC1 (P .N 6 6 []) C0 C0 C0 C0 "LENGTH (f)",
  AI "3222" NO_FNC1 (P .N 6 6 []) C0 C0 C0 C0 "LENGTH (f)",
  AI "3223" NO_FNC1 (P .N 6 6 []) C0 C0 C0 C0 "LENGTH (f)",
  AI "3224" NO_FNC1 (P .N 6 6 []) C0 C0 C0 C0 "LENGTH (f)",
  AI "3225" NO_FNC1 (P .N 6 6 []) C0 C0 C0 C0 "LENGTH (f)",
  AI "3230" NO_FNC1 (P .N 6 6 []) C0 C0 C0 C0 "LENGTH (y)",
  AI "3231" NO_FNC1 (P .N 6 6 []) C0 C0 C0 C0 "LENGTH (y)",
  AI "3232" NO_FNC1 (P .N 6 6 []) C0 C0 C0 C0 "LENGTH (y)",
  AI "3233" NO_FNC1 (P .N 6 6 []) C0 C0 C0 C0 "LENGTH (y)",
  AI "3234" NO_FNC1 (P .N 6 6 []) C0 C0 C0 C0 "LENGTH (y)",
  AI "3235" NO_FNC1 (P .N 6 6 []) C0 C0 C0 C0 "LENGTH (y)",
  AI "3240" NO_FNC1 (P .N 6 6 []) C0 C0 C0 C0 "WIDTH (i)",
  AI "3241" NO_FNC1 (P .N 6 6 []) C0 C0 C0 C0 "WIDTH (i)",
  AI "3242" NO_FNC1 (P .N 6 6 []) C0 C0 C0 C0 "WIDTH (i)",
  AI "3243" NO_FNC1 (P .N 6 6 []) C0 C0 C0 C0 "WIDTH (i)",
  AI "3244" NO_FNC1 (P .N 6 6 []) C0 C0 C0 C0 "WIDTH (i)",
  AI "3245" NO_FNC1 (P .N 6 6 []) C0 C0 C0 C0 "WIDTH (i)",
  AI "3250" NO_FNC1 (P .N 6 6 []) C0 C0 C0 C0 "WIDTH (f)",
  AI "3251" NO_FNC1 (P .N 6 6 []) C0 C0 C0 C0 "WIDTH (f)",
  AI "3252" NO_FNC1 (P .N 6 6 []) C0 C0 C0 C0 "WIDTH (f)",
  AI "3253" NO_FNC1 (P .N 6 6 []) C0 C0 C0 C0 "WIDTH (f)",
  AI "3254" NO_FNC1 (P .N 6 6 []) C0 C0 C0 C0 "WIDTH (f)",
  AI "3255" NO_FNC1 (P .N 6 6 []) C0 C0 C0 C0 "WIDTH (f)",
  AI "3260" NO_FNC1 (P .N 6 6 []) C0 C0 C0 C0 "WIDTH (y)",
  AI "3261" NO_FNC1 (P .N 6 6 []) C0 C0 C0 C0 "WIDTH (y)",
  AI "3262" NO_FNC1 (P .N 6 6 []) C0 C0 C0 C0 "WIDTH (y)",
  AI "3263" NO_FNC1 (P .N 6 6 []) C0 C0 C0 C0 "WIDTH (y)",
  AI "3264" NO_FNC1 (P .N 6 6 []) C0 C0 C0 C0 "WIDTH (y)",
  AI "3265" NO_FNC1 (P .N 6 6 []) C0 C0 C0 C0 "WIDTH (y)",
  AI "3270" NO_FNC1 (P .N 6 6 []) C0 C0 C0 C0 "HEIGHT (i)",
  AI "3271" NO_FNC1 (P .N 6 6 []) C0 C0 C0 C0 "HEIGHT (i)",
  AI "3272" NO_FNC1 (P .N 6 6 []) C0 C0 C0 C0 "HEIGHT (i)",
  AI "3273" NO_FNC1 (P .N 6 6 []) C0 C0 C0 C0 "HEIGHT (i)",
  AI "3274" NO_FNC1 (P .N 6 6 []) C0 C0 C0 C0 "HEIGHT (i)",
  AI "3275" NO_FNC1 (P .N 6 6 []) C0 C0 C0 C0 "HEIGHT (i)",
  AI "3280" NO_FNC1 (P .N 6 6 []) C0 C0 C0 C0 "HEIGHT (f)",
  AI "3281" NO_FNC1 (P .N 6 6 []) C0 C0 C0 C0 "HEIGHT (f)",
  AI "3282" NO_FNC1 (P .N 6 6 []) C0 C0 C0 C0 "HEIGHT (f)",
  AI "3283" NO_FNC1 (P .N 6 6 []) C0 C0 C0 C0 "HEIGHT (f)",
  AI "3284" NO_FNC1 (P .N 6 6 []) C0 C0 C0 C0 "HEIGHT (f)",
  AI "3285" NO_FNC1 (P .N 6 6 []) C0 C0 C0 C0 "HEIGHT (f)",
  AI "3290" NO_FNC1 (P .N 6 6 []) C0 C0 C0 C0 "HEIGHT (y)",
  AI "3291" NO_FNC1 (P .N 6 6 []) C0 C0 C0 C0 "HEIGHT (y)",
  AI "3292" NO_FNC1 (P .N 6 6 []) C0 C0 C0 C0 "HEIGHT (y)",
  AI "3293" NO_FNC1 (P .N 6 6 []) C0 C0 C0 C0 "HEIGHT (y)",
  AI "3294" NO_FNC1 (P .N 6 6 []) C0 C0 C0 C0 "HEIGHT (y)",
  AI "3295" NO_FNC1 (P .N 6 6 []) C0 C0 C0 C0 "HEIGHT (y)",
  AI "3300" NO_FNC1 (P .N 6 6 []) C0 C0 C0 C0 "GROSS WEIGHT (kg)",
  AI "3301" NO_FNC1 (P .N 6 6 []) C0 C0 C0 C0 "GROSS WEIGHT (kg)",
  AI "3302" NO_FNC1 (P .N 6 6 []) C0 C0 C0 C0 "GROSS WEIGHT (kg)",
  AI "3303" NO_FNC1 (P .N 6 6 []) C0 C0 C0 C0 "GROSS WEIGHT (kg)",
  AI "3304" NO_FNC1 (P .N 6 6 []) C0 C0 C0 C0 "GROSS WEIGHT (kg)",
  AI "3305" NO_FNC1 (P .N 6 6 []) C0 C0 C0 C0 "GROSS WEIGHT (kg)",
  AI "3310" NO_FNC1 (P .N 6 6 []) C0 C0 C0 C0 "LENGTH (m), log",
  AI "3311" NO_FNC1 (P .N 6 6 []) C0 C0 C0 C0 "LENGTH (m), log",
  AI "3312" NO_FNC1 (P .N 6 6 []) C0 C0 C0 C0 "LENGTH (m), log",
  AI "3313" NO_FNC1 (P .N 6 6 []) C0 C0 C0 C0 "LENGTH (m), log",
  AI "3314" NO_FNC1 (P .N 6 6 []) C0 C0 C0 C0 "LENGTH (m), log",
  AI "3315" NO_FNC1 (P .N 6 6 []) C0 C0 C0 C0 "LENGTH (m), log",
  AI "3320" NO_FNC1 (P .N 6 6 []) C0 C0 C0 C0 "WIDTH (m), log",
  AI "3321" NO_FNC1 (P .N 6 6 []) C0 C0 C0 C0 "WIDTH (m), log",
  AI "3322" NO_FNC1 (P .N 6 6 []) C0 C0 C0 C0 "WIDTH (m), log",
  AI "3323" NO_FNC1 (P .N 6 6 []) C0 C0 C0 C0 "WIDTH (m), log",
  AI "3324" NO_FNC1 (P .N 6 6 []) C0 C0 C0 C0 "WIDTH (m), log",
  AI "3325" NO_FNC1 (P .N 6 6 []) C0 C0 C0 C0 "WIDTH (m), log",
  AI "3330" NO_FNC1 (P .N 6 6 []) C0 C0 C0 C0 "HEIGHT (m), log",
  AI "3331" NO_FNC1 (P .N 6 6 []) C0 C0 C0 C0 "HEIGHT (m), log",
  AI "3332" NO_FNC1 (P .N 6 6 []) C0 C0 C0 C0 "HEIGHT (m), log",
  AI "3333" NO_FNC1 (P .N 6 6 []) C0 C0 C0 C0 "HEIGHT (m), log",
  AI "3334" NO_FNC1 (P .N 6 6 []) C0 C0 C0 C0 "HEIGHT (m), log",
  AI "3335" NO_FNC1 (P .N 6 6 []) C0 C0 C0 C0 "HEIGHT (m), log",
  AI "3340" NO_FNC1 (P .N 6 6 []) C0 C0 C0 C0 "AREA (m^2), log",
  AI "3341" NO_FNC1 (P .N 6 6 []) C0 C0 C0 C0 "AREA (m^2), log",
  AI "3342" NO_FNC1 (P .N 6 6 []) C0 C0 C0 C0 "AREA (m^2), log",
  AI "3343" NO_FNC1 (P .N 6 6 []) C0 C0 C0 C0 "AREA (m^2), log",
  AI "3344" NO_FNC1 (P .N 6 6 []) C0 C0 C0 C0 "AREA (m^2), log",
  AI "3345" NO_FNC1 (P .N 6 6 []) C0 C0 C0 C0 "AREA (m^2), log",
  AI "3350" NO_FNC1 (P .N 6 6 []) C0 C0 C0 C0 "VOLUME (l), log",
  AI "3351" NO_FNC1 (P .N 6 6 []) C0 C0 C0 C0 "VOLUME (l), log",
  AI "3352" NO_FNC1 (P .N 6 6 []) C0 C0 C0 C0 "VOLUME (l), log",
  AI "3353" NO_FNC1 (P .N 6 6 []) C0 C0 C0 C0 "VOLUME (l), log",
  AI "3354" NO_FNC1 (P .N 6 6 []) C0 C0 C0 C0 "VOLUME (l), log",
  AI "3355" NO_FNC1 (P .N 6 6 []) C0 C0 C0 C0 "VOLUME (l), log",
  AI "3360" NO_FNC1 (P .N 6 6 []) C0 C0 C0 C0 "VOLUME (m^3), log",
  AI "3361" NO_FNC1 (P .N 6 6 []) C0 C0 C0 C0 "VOLUME (m^3), log",
  AI "3362" NO_FNC1 (P .N 6 6 []) C0 C0 C0 C0 "VOLUME (m^3), log",
  AI "3363" NO_FNC1 (P .N 6 6 []) C0 C0 C0 C0 "VOLUME (m^3), log",
  AI "3364" NO_FNC1 (P .N 6 6 []) C0 C0 C0 C0 "VOLUME (m^3), log",
  AI "3365" NO_FNC1 (P .N 6 6 []) C0 C0 C0 C0 "VOLUME (m^3), log",
  AI "3370" NO_FNC1 (P .N 6 6 []) C0 C0 C0 C0 "KG PER m^2",
  AI "3371" NO_FNC1 (P .N 6 6 []) C0 C0 C0 C0 "KG PER m^2",
  AI "3372" NO_FNC1 (P .N 6 6 []) C0 C0 C0 C0 "KG PER m^2",
  AI "3373" NO_FNC1 (P .N 6 6 []) C0 C0 C0 C0 "KG PER m^2",
  AI "3374" NO_FNC1 (P .N 6 6 []) C0 C0 C0 C0 "KG PER m^2",
  AI "3375" NO_FNC1 (P .N 6 6 []) C0 C0 C0 C0 "KG PER m^2",
  AI "3400" NO_FNC1 (P .N 6 6 []) C0 C0 C0 C0 "GROSS WEIGHT (lb)",
  AI "3401" NO_FNC1 (P .N 6 6 []) C0 C0 C0 C0 "GROSS WEIGHT (lb)",
  AI "3402" NO_FNC1 (P .N 6 6 []) C0 C0 C0 C0 "GROSS WEIGHT (lb)",
  AI "3403" NO_FNC1 (P .N 6 6 []) C0 C0 C0 C0 "GROSS WEIGHT (lb)",
  AI "3404" NO_FNC1 (P .N 6 6 []) C0 C0 C0 C0 "GROSS WEIGHT (lb)",
  AI "3405" NO_FNC1 (P .N 6 6 []) C0 C0 C0 C0 "GROSS WEIGHT (lb)",
  AI "3410" NO_FNC1 (P .N 6 6 []) C0 C0 C0 C0 "LENGTH (i), log",
  AI "3411" NO_FNC1 (P .N 6 6 []) C0 C0 C0 C0 "LENGTH (i), log",
  AI "3412" NO_FNC1 (P .N 6 6 []) C0 C0 C0 C0 "LENGTH (i), log",
  AI "3413" NO_FNC1 (P .N 6 6 []) C0 C0 C0 C0 "LENGTH (i), log",
  AI "3414" NO_FNC1 (P .N 6 6 []) C0 C0 C0 C0 "LENGTH (i), log",
  AI "3415" NO_FNC1 (P .N 6 6 []) C0 C0 C0 C0 "LENGTH (i), log",
  AI "3420" NO_FNC1 (P .N 6 6 []) C0 C0 C0 C0 "LENGTH (f), log",
  AI "3421" NO_FNC1 (P .N 6 6 []) C0 C0 C0 C0 "LENGTH (f), log",
  AI "3422" NO_FNC1 (P .N 6 6 []) C0 C0 C0 C0 "LENGTH (f), log",
  AI "3423" NO_FNC1 (P .N 6 6 []) C0 C0 C0 C0 "LENGTH (f), log",
  AI "3424" NO_FNC1 (P .N 6 6 []) C0 C0 C0 C0 "LENGTH (f), log",
  AI "3425" NO_FNC1 (P .N 6 6 []) C0 C0 C0 C0 "LENGTH (f), log",
  AI "3430" NO_FNC1 (P .N 6 6 []) C0 C0 C0 C0 "LENGTH (y), log",
  AI "3431" NO_FNC1 (P .N 6 6 []) C0 C0 C0 C0 "LENGTH (y), log",
  AI "3432" NO_FNC1 (P .N 6 6 []) C0 C0 C0 C0 "LENGTH (y), log",
  AI "3433" NO_FNC1 (P .N 6 6 []) C0 C0 C0 C0 "LENGTH (y), log",
  AI "3434" NO_FNC1 (P .N 6 6 []) C0 C0 C0 C0 "LENGTH (y), log",
  AI "3435" NO_FNC1 (P .N 6 6 []) C0 C0 C0 C0 "LENGTH (y), log",
  AI "3440" NO_FNC1 (P .N 6 6 []) C0 C0 C0 C0 "WIDTH (i), log",
  AI "3441" NO_FNC1 (P .N 6 6 []) C0 C0 C0 C0 "WIDTH (i), log",
  AI "3442" NO_FNC1 (P .N 6 6 []) C0 C0 C0 C0 "WIDTH (i), log",
  AI "3443" NO_FNC1 (P .N 6 6 []) C0 C0 C0 C0 "WIDTH (i), log",
  AI "3444" NO_FNC1 (P .N 6 6 []) C0 C0 C0 C0 "WIDTH (i), log",
  AI "3445" NO_FNC1 (P .N 6 6 []) C0 C0 C0 C0 "WIDTH (i), log",
  AI "3450" NO_FNC1 (P .N 6 6 []) C0 C0 C0 C0 "WIDTH (f), log",
  AI "3451" NO_FNC1 (P .N 6 6 []) C0 C0 C0 C0 "WIDTH (f), log",
  AI "3452" NO_FNC1 (P .N 6 6 []) C0 C0 C0 C0 "WIDTH (f), log",
  AI "3453" NO_FNC1 (P .N 6 6 []) C0 C0 C0 C0 "WIDTH (f), log",
  AI "3454" NO_FNC1 (P .N 6 6 []) C0 C0 C0 C0 "WIDTH (f), log",
  AI "3455" NO_FNC1 (P .N 6 6 []) C0 C0 C0 C0 "WIDTH (f), log",
  AI "3460" NO_FNC1 (P .N 6 6 []) C0 C0 C0 C0 "WIDTH (y), log",
  AI "3461" NO_FNC1 (P .N 6 6 []) C0 C0 C0 C0 "WIDTH (y), log",
  AI "3462" NO_FNC1 (P .N 6 6 []) C0 C0 C0 C0 "WIDTH (y), log",
  AI "3463" NO_FNC1 (P .N 6 6 []) C0 C0 C0 C0 "WIDTH (y), log",
  AI "3464" NO_FNC1 (P .N 6 6 []) C0 C0 C0 C0 "WIDTH (y), log",
  AI "3465" NO_FNC1 (P .N 6 6 []) C0 C0 C0 C0 "WIDTH (y), log",
  AI "3470" NO_FNC1 (P .N 6 6 []) C0 C0 C0 C0 "HEIGHT (i), log",
  AI "3471" NO_FNC1 (P .N 6 6 []) C0 C0 C0 C0 "HEIGHT (i), log",
  AI "3472" NO_FNC1 (P .N 6 6 []) C0 C0 C0 C0 "HEIGHT (i), log",
  AI "3473" NO_FNC1 (P .N 6 6 []) C0 C0 C0 C0 "HEIGHT (i), log",
  AI "3474" NO_FNC1 (P .N 6 6 []) C0 C0 C0 C0 "HEIGHT (i), log",
  AI "3475" NO_FNC1 (P .N 6 6 []) C0 C0 C0 C0 "HEIGHT (i), log",
  AI "3480" NO_FNC1 (P .N 6 6 []) C0 C0 C0 C0 "HEIGHT (f), log",
  AI "3481" NO_FNC1 (P .N 6 6 []) C0 C0 C0 C0 "HEIGHT (f), log",
  AI "3482" NO_FNC1 (P .N 6 6 []) C0 C0 C0 C0 "HEIGHT (f), log",
  AI "3483" NO_FNC1 (P .N 6 6 []) C0 C0 C0 C0 "HEIGHT (f), log",
  AI "3484" NO_FNC1 (P .N 6 6 []) C0 C0 C0 C0 "HEIGHT (f), log",
  AI "3485" NO_FNC1 (P .N 6 6 []) C0 C0 C0 C0 "HEIGHT (f), log",
  AI "3490" NO_FNC1 (P .N 6 6 []) C0 C0 C0 C0 "HEIGHT (y), log",
  AI "3491" NO_FNC1 (P .N 6 6 []) C0 C0 C0 C0 "HEIGHT (y), log",
  AI "3492" NO_FNC1 (P .N 6 6 []) C0 C0 C0 C0 "HEIGHT (y), log",
  AI "3493" NO_FNC1 (P .N 6 6 []) C0 C0 C0 C0 "HEIGHT (y), log",
  AI "3494" NO_FNC1 (P .N 6 6 []) C0 C0 C0 C0 "HEIGHT (y), log",
  AI "3495" NO_FNC1 (P .N 6 6 []) C0 C0 C0 C0 "HEIGHT (y), log",
  AI "3500" NO_FNC1 (P .N 6 6 []) C0 C0 C0 C0 "AREA (i^2)",
  AI "3501" NO_FNC1 (P .N 6 6 []) C0 C0 C0 C0 "AREA (i^2)",
  AI "3502" NO_FNC1 (P .N 6 6 []) C0 C0 C0 C0 "AREA (i^2)",
  AI "3503" NO_FNC1 (P .N 6 6 []) C0 C0 C0 C0 "AREA (i^2)",
  AI "3504" NO_FNC1 (P .N 6 6 []) C0 C0 C0 C0 "AREA (i^2)",
  AI "3505" NO_FNC1 (P .N 6 6 []) C0 C0 C0 C0 "AREA (i^2)",
  AI "3510" NO_FNC1 (P .N 6 6 []) C0 C0 C0 C0 "AREA (f^2)",
  AI "3511" NO_FNC1 (P .N 6 6 []) C0 C0 C0 C0 "AREA (f^2)",
  AI "3512" NO_FNC1 (P .N 6 6 []) C0 C0 C0 C0 "AREA (f^2)",
  AI "3513" NO_FNC1 (P .N 6 6 []) C0 C0 C0 C0 "AREA (f^2)",
  AI "3514" NO_FNC1 (P .N 6 6 []) C0 C0 C0 C0 "AREA (f^2)",
  AI "3515" NO_FNC1 (P .N 6 6 []) C0 C0 C0 C0 "AREA (f^2)",
  AI "3520" NO_FNC1 (P .N 6 6 []) C0 C0 C0 C0 "AREA (y^2)",
  AI "3521" NO_FNC1 (P .N 6 6 []) C0 C0 C0 C0 "AREA (y^2)",
  AI "3522" NO_FNC1 (P .N 6 6 []) C0 C0 C0 C0 "AREA (y^2)",
  AI "3523" NO_FNC1 (P .N 6 6 []) C0 C0 C0 C0 "AREA (y^2)",
  AI "3524" NO_FNC1 (P .N 6 6 []) C0 C0 C0 C0 "AREA (y^2)",
  AI "3525" NO_FNC1 (P .N 6 6 []) C0 C0 C0 C0 "AREA (y^2)",
  AI "3530" NO_FNC1 (P .N 6 6 []) C0 C0 C0 C0 "AREA (i^2), log",
  AI "3531" NO_FNC1 (P .N 6 6 []) C0 C0 C0 C0 "AREA (i^2), log",
  AI "3532" NO_FNC1 (P .N 6 6 []) C0 C0 C0 C0 "AREA (i^2), log",
  AI "3533" NO_FNC1 (P .N 6 6 []) C0 C0 C0 C0 "AREA (i^2), log",
  AI "3534" NO_FNC1 (P .N 6 6 []) C0 C0 C0 C0 "AREA (i^2), log",
  AI "3535" NO_FNC1 (P .N 6 6 []) C0 C0 C0 C0 "AREA (i^2), log",
  AI "3540" NO_FNC1 (P .N 6 6 []) C0 C0 C0 C0 "AREA (f^2), log",
  AI "3541" NO_FNC1 (P .N 6 6 []) C0 C0 C0 C0 "AREA (f^2), log",
  AI "3542" NO_FNC1 (P .N 6 6 []) C0 C0 C0 C0 "AREA (f^2), log",
  AI "3543" NO_FNC1 (P .N 6 6 []) C0 C0 C0 C0 "AREA (f^2), log",
  AI "3544" NO_FNC1 (P .N 6 6 []) C0 C0 C0 C0 "AREA (f^2), log",
  AI "3545" NO_FNC1 (P .N 6 6 []) C0 C0 C0 C0 "AREA (f^2), log",
  AI "3550" NO_FNC1 (P .N 6 6 []) C0 C0 C0 C0 "AREA (y^2), log",
  AI "3551" NO_FNC1 (P .N 6 6 []) C0 C0 C0 C0 "AREA (y^2), log",
  AI "3552" NO_FNC1 (P .N 6 6 []) C0 C0 C0 C0 "AREA (y^2), log",
  AI "3553" NO_FNC1 (P .N 6 6 []) C0 C0 C0 C0 "AREA (y^2), log",
  AI "3554" NO_FNC1 (P .N 6 6 []) C0 C0 C0 C0 "AREA (y^2), log",
  AI "3555" NO_FNC1 (P .N 6 6 []) C0 C0 C0 C0 "AREA (y^2), log",
  AI "3560" NO_FNC1 (P .N 6 6 []) C0 C0 C0 C0 "NET WEIGHT (t)",
  AI "3561" NO_FNC1 (P .N 6 6 []) C0 C0 C0 C0 "NET WEIGHT (t)",
  AI "3562" NO_FNC1 (P .N 6 6 []) C0 C0 C0 C0 "NET WEIGHT (t)",
  AI "3563" NO_FNC1 (P .N 6 6 []) C0 C0 C0 C0 "NET WEIGHT (t)",
  AI "3564" NO_FNC1 (P .N 6 6 []) C0 C0 C0 C0 "NET WEIGHT (t)",
  AI "3565" NO_FNC1 (P .N 6 6 []) C0 C0 C0 C0 "NET WEIGHT (t)",
  AI "3570" NO_FNC1 (P .N 6 6 []) C0 C0 C0 C0 "NET VOLUME (oz)",
  AI "3571" NO_FNC1 (P .N 6 6 []) C0 C0 C0 C0 "NET VOLUME (oz)",
  AI "3572" NO_FNC1 (P .N 6 6 []) C0 C0 C0 C0 "NET VOLUME (oz)",
  AI "3573" NO_FNC1 (P .N 6 6 []) C0 C0 C0 C0 "NET VOLUME (oz)",
  AI "3574" NO_FNC1 (P .N 6 6 []) C0 C0 C0 C0 "NET VOLUME (oz)",
  AI "3575" NO_FNC1 (P .N 6 6 []) C0 C0 C0 C0 "NET VOLUME (oz)",
  AI "3600" NO_FNC1 (P .N 6 6 []) C0 C0 C0 C0 "NET VOLUME (q)",
  AI "3601" NO_FNC1 (P .N 6 6 []) C0 C0 C0 C0 "NET VOLUME (q)",
  AI "3602" NO_FNC1 (P .N 6 6 []) C0 C0 C0 C0 "NET VOLUME (q)",
  AI "3603" NO_FNC1 (P .N 6 6 []) C0 C0 C0 C0 "NET VOLUME (q)",
  AI "3604" NO_FNC1 (P .N 6 6 []) C0 C0 C0 C0 "NET VOLUME (q)",
  AI "3605" NO_FNC1 (P .N 6 6 []) C0 C0 C0 C0 "NET VOLUME (q)",
  AI "3610" NO_FNC1 (P .N 6 6 []) C0 C0 C0 C0 "NET VOLUME (g)",
  AI "3611" NO_FNC1 (P .N 6 6 []) C0 C0 C0 C0 "NET VOLUME (g)",
  AI "3612" NO_FNC1 (P .N 6 6 []) C0 C0 C0 C0 "NET VOLUME (g)",
  AI "3613" NO_FNC1 (P .N 6 6 []) C0 C0 C0 C0 "NET VOLUME (g)",
  AI "3614" NO_FNC1 (P .N 6 6 []) C0 C0 C0 C0 "NET VOLUME (g)",
  AI "3615" NO_FNC1 (P .N 6 6 []) C0 C0 C0 C0 "NET VOLUME (g)",
  AI "3620" NO_FNC1 (P .N 6 6 []) C0 C0 C0 C0 "VOLUME (q), log",
  AI "3621" NO_FNC1 (P .N 6 6 []) C0 C0 C0 C0 "VOLUME (q), log",
  AI "3622" NO_FNC1 (P .N 6 6 []) C0 C0 C0 C0 "VOLUME (q), log",
  AI "3623" NO_FNC1 (P .N 6 6 []) C0 C0 C0 C0 "VOLUME (q), log",
  AI "3624" NO_FNC1 (P .N 6 6 []) C0 C0 C0 C0 "VOLUME (q), log",
  AI "3625" NO_FNC1 (P .N 6 6 []) C0 C0 C0 C0 "VOLUME (q), log",
  AI "3630" NO_FNC1 (P .N 6 6 []) C0 C0 C0 C0 "VOLUME (g), log",
  AI "3631" NO_FNC1 (P .N 6 6 []) C0 C0 C0 C0 "VOLUME (g), log",
  AI "3632" NO_FNC1 (P .N 6 6 []) C0 C0 C0 C0 "VOLUME (g), log",
  AI "3633" NO_FNC1 (P .N 6 6 []) C0 C0 C0 C0 "VOLUME (g), log",
  AI "3634" NO_FNC1 (P .N 6 6 []) C0 C0 C0 C0 "VOLUME (g), log",
  AI "3635" NO_FNC1 (P .N 6 6 []) C0 C0 C0 C0 "VOLUME (g), log",
  AI "3640" NO_FNC1 (P .N 6 6 []) C0 C0 C0 C0 "VOLUME (i^3)",
  AI "3641" NO_FNC1 (P .N 6 6 []) C0 C0 C0 C0 "VOLUME (i^3)",
  AI "3642" NO_FNC1 (P .N 6 6 []) C0 C0 C0 C0 "VOLUME (i^3)",
  AI "3643" NO_FNC1 (P .N 6 6 []) C0 C0 C0 C0 "VOLUME (i^3)",
  AI "3644" NO_FNC1 (P .N 6 6 []) C0 C0 C0 C0 "VOLUME (i^3)",
  AI "3645" NO_FNC1 (P .N 6 6 []) C0 C0 C0 C0 "VOLUME (i^3)",
  AI "3650" NO_FNC1 (P .N 6 6 []) C0 C0 C0 C0 "VOLUME (f^3)",
  AI "3651" NO_FNC1 (P .N 6 6 []) C0 C0 C0 C0 "VOLUME (f^3)",
  AI "3652" NO_FNC1 (P .N 6 6 []) C0 C0 C0 C0 "VOLUME (f^3)",
  AI "3653" NO_FNC1 (P .N 6 6 []) C0 C0 C0 C0 "VOLUME (f^3)",
  AI "3654" NO_FNC1 (P .N 6 6 []) C0 C0 C0 C0 "VOLUME (f^3)",
  AI "3655" NO_FNC1 (P .N 6 6 []) C0 C0 C0 C0 "VOLUME (f^3)",
  AI "3660" NO_FNC1 (P .N 6 6 []) C0 C0 C0 C0 "VOLUME (y^3)",
  AI "3661" NO_FNC1 (P .N 6 6 []) C0 C0 C0 C0 "VOLUME (y^3)",
  AI "3662" NO_FNC1 (P .N 6 6 []) C0 C0 C0 C0 "VOLUME (y^3)",
  AI "3663" NO_FNC1 (P .N 6 6 []) C0 C0 C0 C0 "VOLUME (y^3)",
  AI "3664" NO_FNC1 (P .N 6 6 []) C0 C0 C0 C0 "VOLUME (y^3)",
  AI "3665" NO_FNC1 (P .N 6 6 []) C0 C0 C0 C0 "VOLUME (y^3)",
  AI "3670" NO_FNC1 (P .N 6 6 []) C0 C0 C0 C0 "VOLUME (i^3), log",
  AI "3671" NO_FNC1 (P .N 6 6 []) C0 C0 C0 C0 "VOLUME (i^3), log",
  AI "3672" NO_FNC1 (P .N 6 6 []) C0 C0 C0 C0 "VOLUME (i^3), log",
  AI "3673" NO_FNC1 (P .N 6 6 []) C0 C0 C0 C0 "VOLUME (i^3), log",
  AI "3674" NO_FNC1 (P .N 6 6 []) C0 C0 C0 C0 "VOLUME (i^3), log",
  AI "3675" NO_FNC1 (P .N 6 6 []) C0 C0 C0 C0 "VOLUME (i^3), log",
  AI "3680" NO_FNC1 (P .N 6 6 []) C0 C0 C0 C0 "VOLUME (f^3), log",
  AI "3681" NO_FNC1 (P .N 6 6 []) C0 C0 C0 C0 "VOLUME (f^3), log",
  AI "3682" NO_FNC1 (P .N 6 6 []) C0 C0 C0 C0 "VOLUME (f^3), log",
  AI "3683" NO_FNC1 (P .N 6 6 []) C0 C0 C0 C0 "VOLUME (f^3), log",
  AI "3684" NO_FNC1 (P .N 6 6 []) C0 C0 C0 C0 "VOLUME (f^3), log",
  AI "3685" NO_FNC1 (P .N 6 6 []) C0 C0 C0 C0 "VOLUME (f^3), log",
  AI "3690" NO_FNC1 (P .N 6 6 []) C0 C0 C0 C0 "VOLUME (y^3), log",
  AI "3691" NO_FNC1 (P .N 6 6 []) C0 C0 C0 C0 "VOLUME (y^3), log",
  AI "3692" NO_FNC1 (P .N 6 6 []) C0 C0 C0 C0 "VOLUME (y^3), log",
  AI "3693" NO_FNC1 (P .N 6 6 []) C0 C0 C0 C0 "VOLUME (y^3), log",
  AI "3694" NO_FNC1 (P .N 6 6 []) C0 C0 C0 C0 "VOLUME (y^3), log",
  AI "3695" NO_FNC1 (P .N 6 6 []) C0 C0 C0 C0 "VOLUME (y^3), log",
  AI "37" FNC1 (P .N 1 8 []) C0 C0 C0 C0 "COUNT",
  AI "3900" FNC1 (P .N 1 15 []) C0 C0 C0 C0 "AMOUNT",
  AI "3901" FNC1 (P .N 1 15 []) C0 C0 C0 C0 "AMOUNT",
  AI "3902" FNC1 (P .N 1 15 []) C0 C0 C0 C0 "AMOUNT",
  AI "3903" FNC1 (P .N 1 15 []) C0 C0 C0 C0 "AMOUNT",
  AI "3904" FNC1 (P .N 1 15 []) C0 C0 C0 C0 "AMOUNT",
  AI "3905" FNC1 (P .N 1 15 []) C0 C0 C0 C0 "AMOUNT",
  AI "3906" FNC1 (P .N 1 15 []) C0 C0 C0 C0 "AMOUNT",
  AI "3907" FNC1 (P .N 1 15 []) C0 C0 C0 C0 "AMOUNT",
  AI "3908" FNC1 (P .N 1 15 []) C0 C0 C0 C0 "AMOUNT",
  AI "3909" FNC1 (P .N 1 15 []) C0 C0 C0 C0 "AMOUNT",
  AI "3910" FNC1 (P .N 3 3 []) (P .N 1 15 []) C0 C0 C0 "AMOUNT",
  AI "3911" FNC1 (P .N 3 3 []) (P .N 1 15 []) C0 C0 C0 "AMOUNT",
  AI "3912" FNC1 (P .N 3 3 []) (P .N 1 15 []) C0 C0 C0 "AMOUNT",
  AI "3913" FNC1 (P .N 3 3 []) (P .N 1 15 []) C0 C0 C0 "AMOUNT",
  AI "3914" FNC1 (P .N 3 3 []) (P .N 1 15 []) C0 C0 C0 "AMOUNT",
  AI "3915" FNC1 (P .N 3 3 []) (P .N 1 15 []) C0 C0 C0 "AMOUNT",
  AI "3916" FNC1 (P .N 3 3 []) (P .N 1 15 []) C0 C0 C0 "AMOUNT",
  AI "3917" FNC1 (P .N 3 3 []) (P .N 1 15 []) C0 C0 C0 "AMOUNT",
  AI "3918" FNC1 (P .N 3 3 []) (P .N 1 15 []) C0 C0 C0 "AMOUNT",
  AI "3919" FNC1 (P .N 3 3 []) (P .N 1 15 []) C0 C0 C0 "AMOUNT",
  AI "3920" FNC1 (P .N 1 15 []) C0 C0 C0 C0 "PRICE",
  AI "3921" FNC1 (P .N 1 15 []) C0 C0 C0 C0 "PRICE",
  AI "3922" FNC1 (P .N 1 15 []) C0 C0 C0 C0 "PRICE",
  AI "3923" FNC1 (P .N 1 15 []) C0 C0 C0 C0 "PRICE",
  AI "3924" FNC1 (P .N 1 15 []) C0 C0 C0 C0 "PRICE",
  AI "3925" FNC1 (P .N 1 15 []) C0 C0 C0 C0 "PRICE",
  AI "3926" FNC1 (P .N 1 15 []) C0 C0 C0 C0 "PRICE",
  AI "3927" FNC1 (P .N 1 15 []) C0 C0 C0 C0 "PRICE",
  AI "3928" FNC1 (P .N 1 15 []) C0 C0 C0 C0 "PRICE",
  AI "3929" FNC1 (P .N 1 15 []) C0 C0 C0 C0 "PRICE",
  AI "3930" FNC1 (P .N 3 3 []) (P .N 1 15 []) C0 C0 C0 "PRICE",
  AI "3931" FNC1 (P .N 3 3 []) (P .N 1 15 []) C0 C0 C0 "PRICE",
  AI "3932" FNC1 (P .N 3 3 []) (P .N 1 15 []) C0 C0 C0 "PRICE",
  AI "3933" FNC1 (P .N 3 3 []) (P .N 1 15 []) C0 C0 C0 "PRICE",
  AI "3934" FNC1 (P .N 3 3 []) (P .N 1 15 []) C0 C0 C0 "PRICE",
  AI "3935" FNC1 (P .N 3 3 []) (P .N 1 15 []) C0 C0 C0 "PRICE",
  AI "3936" FNC1 (P .N 3 3 []) (P .N 1 15 []) C0 C0 C0 "PRICE",
  AI "3937" FNC1 (P .N 3 3 []) (P .N 1 15 []) C0 C0 C0 "PRICE",
  AI "3938" FNC1 (P .N 3 3 []) (P .N 1 15 []) C0 C0 C0 "PRICE",
  AI "3939" FNC1 (P .N 3 3 []) (P .N 1 15 []) C0 C0 C0 "PRICE",
  AI "3940" FNC1 (P .N 4 4 []) C0 C0 C0 C0 "PRCNT OFF",
  AI "3941" FNC1 (P .N 4 4 []) C0 C0 C0 C0 "PRCNT OFF",
  AI "3942" FNC1 (P .N 4 4 []) C0 C0 C0 C0 "PRCNT OFF",
  AI "3943" FNC1 (P .N 4 4 []) C0 C0 C0 C0 "PRCNT OFF",
  AI "3950" FNC1 (P .N 6 6 []) C0 C0 C0 C0 "PRICE/UoM",
  AI "3951" FNC1 (P .N 6 6 []) C0 C0 C0 C0 "PRICE/UoM",
  AI "3952" FNC1 (P .N 6 6 []) C0 C0 C0 C0 "PRICE/UoM",
  AI "3953" FNC1 (P .N 6 6 []) C0 C0 C0 C0 "PRICE/UoM",
  AI "3954" FNC1 (P .N 6 6 []) C0 C0 C0 C0 "PRICE/UoM",
  AI "3955" FNC1 (P .N 6 6 []) C0 C0 C0 C0 "PRICE/UoM",
  AI "400" FNC1 (P .X 1 30 []) C0 C0 C0 C0 "ORDER NUMBER",
  AI "401" FNC1 (P .X 1 30 []) C0 C0 C0 C0 "GINC",
  AI "402" FNC1 (P .N 17 17 [.csum]) C0 C0 C0 C0 "GSIN",
  AI "403" FNC1 (P .X 1 30 []) C0 C0 C0 C0 "ROUTE",
  AI "410" NO_FNC1 (P .N 13 13 [.csum]) C0 C0 C0 C0 "SHIP TO LOC",
  AI "411" NO_FNC1 (P .N 13 13 [.csum]) C0 C0 C0 C0 "BILL TO",
  AI "412" NO_FNC1 (P .N 13 13 [.csum]) C0 C0 C0 C0 "PURCHASE FROM",
  AI "413" NO_FNC1 (P .N 13 13 [.csum]) C0 C0 C0 C0 "SHIP FOR LOC",
  AI "414" NO_FNC1 (P .N 13 13 [.csum]) C0 C0 C0 C0 "LOC NO.",
  AI "415" NO_FNC1 (P .N 13 13 [.csum]) C0 C0 C0 C0 "PAY TO",
  AI "416" NO_FNC1 (P .N 13 13 [.csum]) C0 C0 C0 C0 "PROD/SERV LOC",
  AI "417" NO_FNC1 (P .N 13 13 [.csum]) C0 C0 C0 C0 "PARTY",
  AI "420" FNC1 (P .X 1 20 []) C0 C0 C0 C0 "SHIP TO POST",
  AI "421" FNC1 (P .N 3 3 []) (P .X 1 9 []) C0 C0 C0 "SHIP TO POST",
  AI "422" FNC1 (P .N 3 3 []) C0 C0 C0 C0 "ORIGIN",
  AI "423" FNC1 (P .N 3 15 []) C0 C0 C0 C0 "COUNTRY - INITIAL PROCESS",
  AI "424" FNC1 (P .N 3 3 []) C0 C0 C0 C0 "COUNTRY - PROCESS",
  AI "425" FNC1 (P .N 3 15 []) C0 C0 C0 C0 "COUNTRY - DISASSEMBLY",
  AI "426" FNC1 (P .N 3 3 []) C0 C0 C0 C0 "COUNTRY - FULL PROCESS",
  AI "427" FNC1 (P .X 1 3 []) C0 C0 C0 C0 "ORIGIN SUBDIVISION",
  AI "4300" FNC1 (P .X 1 35 []) C0 C0 C0 C0 "SHIP TO COMP",
  AI "4301" FNC1 (P .X 1 35 []) C0 C0 C0 C0 "SHIP TO NAME",
  AI "4302" FNC1 (P .X 1 70 []) C0 C0 C0 C0 "SHIP TO ADD1",
  AI "4303" FNC1 (P .X 1 70 []) C0 C0 C0 C0 "SHIP TO ADD2",
  AI "4304" FNC1 (P .X 1 70 []) C0 C0 C0 C0 "SHIP TO SUB",
  AI "4305" FNC1 (P .X 1 70 []) C0 C0 C0 C0 "SHIP TO LOC",
  AI "4306" FNC1 (P .X 1 70 []) C0 C0 C0 C0 "SHIP TO REG",
  AI "4307" FNC1 (P .X 2 2 []) C0 C0 C0 C0 "SHIP TO COUNTRY",
  AI "4308" FNC1 (P .X 1 30 []) C0 C0 C0 C0 "SHIP TO PHONE",
  AI "4310" FNC1 (P .X 1 35 []) C0 C0 C0 C0 "RTN TO COMP",
  AI "4311" FNC1 (P .X 1 35 []) C0 C0 C0 C0 "RTN TO NAME",
  AI "4312" FNC1 (P .X 1 70 []) C0 C0 C0 C0 "RTN TO ADD1",
  AI "4313" FNC1 (P .X 1 70 []) C0 C0 C0 C0 "RTN TO ADD2",
  AI "4314" FNC1 (P .X 1 70 []) C0 C0 C0 C0 "RTN TO SUB",
  AI "4315" FNC1 (P .X 1 70 []) C0 C0 C0 C0 "RTN TO LOC",
  AI "4316" FNC1 (P .X 1 70 []) C0 C0 C0 C0 "RTN TO REG",
  AI "4317" FNC1 (P .X 2 2 []) C0 C0 C0 C0 "RTN TO COUNTRY",
  AI "4318" FNC1 (P .X 1 20 []) C0 C0 C0 C0 "RTN TO POST",
  AI "4319" FNC1 (P .X 1 30 []) C0 C0 C0 C0 "RTN TO PHONE",
  AI "4320" FNC1 (P .X 1 35 []) C0 C0 C0 C0 "SRV DESCRIPTION",
  AI "4321" FNC1 (P .N 1 1 []) C0 C0 C0 C0 "DANGEROUS GOODS",
  AI "4322" FNC1 (P .N 1 1 []) C0 C0 C0 C0 "AUTH LEAVE",
  AI "4323" FNC1 (P .N 1 1 []) C0 C0 C0 C0 "SIG REQUIRED",
  AI "4324" FNC1 (P .N 6 6 []) (P .N 4 4 []) C0 C0 C0 "NBEF DEL DT.",
  AI "4325" FNC1 (P .N 6 6 []) (P .N 4 4 []) C0 C0 C0 "NAFT DEL DT.",
  AI "4326" FNC1 (P .N 6 6 []) C0 C0 C0 C0 "REL DATE",
  AI "7001" FNC1 (P .N 13 13 []) C0 C0 C0 C0 "NSN",
  AI "7002" FNC1 (P .X 1 30 []) C0 C0 C0 C0 "MEAT CUT",
  AI "7003" FNC1 (P .N 6 6 []) (P .N 4 4 []) C0 C0 C0 "EXPIRY TIME",
  AI "7004" FNC1 (P .N 1 4 []) C0 C0 C0 C0 "ACTIVE POTENCY",
  AI "7005" FNC1 (P .X 1 12 []) C0 C0 C0 C0 "CATCH AREA",
  AI "7006" FNC1 (P .N 6 6 []) C0 C0 C0 C0 "FIRST FREEZE DATE",
  AI "7007" FNC1 (P .N 6 6 []) (P .N 0 6 []) C0 C0 C0 "HARVEST DATE",
  AI "7008" FNC1 (P .X 1 3 []) C0 C0 C0 C0 "AQUATIC SPECIES",
  AI "7009" FNC1 (P .X 1 10 []) C0 C0 C0 C0 "FISHING GEAR TYPE",
  AI "7010" FNC1 (P .X 1 2 []) C0 C0 C0 C0 "PROD METHOD",
  AI "7020" FNC1 (P .X 1 20 []) C0 C0 C0 C0 "REFURB LOT",
  AI "7021" FNC1 (P .X 1 20 []) C0 C0 C0 C0 "FUNC STAT",
  AI "7022" FNC1 (P .X 1 20 []) C0 C0 C0 C0 "REV STAT",
  AI "7023" FNC1 (P .X 1 30 []) C0 C0 C0 C0 "GIAI - ASSEMBLY",
  AI "7030" FNC1 (P .N 3 3 []) (P .X 1 27 []) C0 C0 C0 "PROCESSOR # s",
  AI "7031" FNC1 (P .N 3 3 []) (P .X 1 27 []) C0 C0 C0 "PROCESSOR # s",
  AI "7032" FNC1 (P .N 3 3 []) (P .X 1 27 []) C0 C0 C0 "PROCESSOR # s",
  AI "7033" FNC1 (P .N 3 3 []) (P .X 1 27 []) C0 C0 C0 "PROCESSOR # s",
  AI "7034" FNC1 (P .N 3 3 []) (P .X 1 27 []) C0 C0 C0 "PROCESSOR # s",
  AI "7035" FNC1 (P .N 3 3 []) (P .X 1 27 []) C0 C0 C0 "PROCESSOR # s",
  AI "7036" FNC1 (P .N 3 3 []) (P .X 1 27 []) C0 C0 C0 "PROCESSOR # s",
  AI "7037" FNC1 (P .N 3 3 []) (P .X 1 27 []) C0 C0 C0 "PROCESSOR # s",
  AI "7038" FNC1 (P .N 3 3 []) (P .X 1 27 []) C0 C0 C0 "PROCESSOR # s",
  AI "7039" FNC1 (P .N 3 3 []) (P .X 1 27 []) C0 C0 C0 "PROCESSOR # s",
  AI "7040" FNC1 (P .N 1 1 []) (P .X 1 1 []) (P .X 1 1 []) (P .X 1 1 []) C0 "UIC+EXT",
  AI "710" FNC1 (P .X 1 20 []) C0 C0 C0 C0 "NHRN PZN",
  AI "711" FNC1 (P .X 1 20 []) C0 C0 C0 C0 "NHRN CIP",
  AI "712" FNC1 (P .X 1 20 []) C0 C0 C0 C0 "NHRN CN",
  AI "713" FNC1 (P .X 1 20 []) C0 C0 C0 C0 "NHRN DRN",
  AI "714" FNC1 (P .X 1 20 []) C0 C0 C0 C0 "NHRN AIM",
  AI "7230" FNC1 (P .X 2 2 []) (P .X 1 28 []) C0 C0 C0 "CERT # s",
  AI "7231" FNC1 (P .X 2 2 []) (P .X 1 28 []) C0 C0 C0 "CERT # s",
  AI "7232" FNC1 (P .X 2 2 []) (P .X 1 28 []) C0 C0 C0 "CERT # s",
  AI "7233" FNC1 (P .X 2 2 []) (P .X 1 28 []) C0 C0 C0 "CERT # s",
  AI "7234" FNC1 (P .X 2 2 []) (P .X 1 28 []) C0 C0 C0 "CERT # s",
  AI "7235" FNC1 (P .X 2 2 []) (P .X 1 28 []) C0 C0 C0 "CERT # s",
  AI "7236" FNC1 (P .X 2 2 []) (P .X 1 28 []) C0 C0 C0 "CERT # s",
  AI "7237" FNC1 (P .X 2 2 []) (P .X 1 28 []) C0 C0 C0 "CERT # s",
  AI "7238" FNC1 (P .X 2 2 []) (P .X 1 28 []) C0 C0 C0 "CERT # s",
  AI "7239" FNC1 (P .X 2 2 []) (P .X 1 28 []) C0 C0 C0 "CERT # s",
  AI "7240" FNC1 (P .X 1 20 []) C0 C0 C0 C0 "PROTOCOL",
  AI "8001" FNC1 (P .N 4 4 []) (P .N 5 5 []) (P .N 3 3 []) (P .N 1 1 []) (P .N 1 1 []) "DIMENSIONS",
  AI "8002" FNC1 (P .X 1 20 []) C0 C0 C0 C0 "CMT NO.",
  AI "8003" FNC1 (P .N 1 1 []) (P .N 13 13 [.csum]) (P .X 0 16 []) C0 C0 "GRAI",
  AI "8004" FNC1 (P .X 1 30 []) C0 C0 C0 C0 "GIAI",
  AI "8005" FNC1 (P .N 6 6 []) C0 C0 C0 C0 "PRICE PER UNIT",
  AI "8006" FNC1 (P .N 14 14 [.csum]) (P .N 4 4 []) C0 C0 C0 "ITIP",
  AI "8007" FNC1 (P .X 1 34 []) C0 C0 C0 C0 "IBAN",
  AI "8008" FNC1 (P .N 8 8 []) (P .N 0 4 []) C0 C0 C0 "PROD TIME",
  AI "8009" FNC1 (P .X 1 50 []) C0 C0 C0 C0 "OPTSEN",
  AI "8010" FNC1 (P .C 1 30 []) C0 C0 C0 C0 "CPID",
  AI "8011" FNC1 (P .N 1 12 []) C0 C0 C0 C0 "CPID SERIAL",
  AI "8012" FNC1 (P .X 1 20 []) C0 C0 C0 C0 "VERSION",
  AI "8013" FNC1 (P .X 1 25 []) C0 C0 C0 C0 "GMN",
  AI "8017" FNC1 (P .N 18 18 [.csum]) C0 C0 C0 C0 "GSRN - PROVIDER",
  AI "8018" FNC1 (P .N 18 18 [.csum]) C0 C0 C0 C0 "GSRN - RECIPIENT",
  AI "8019" FNC1 (P .N 1 10 []) C0 C0 C0 C0 "SRIN",
  AI "8020" FNC1 (P .X 1 25 []) C0 C0 C0 C0 "REF NO.",
  AI "8026" FNC1 (P .N 14 14 [.csum]) (P .N 4 4 []) C0 C0 C0 "ITIP CONTENT",
  AI "8110" FNC1 (P .X 1 70 []) C0 C0 C0 C0 "",
  AI "8111" FNC1 (P .N 4 4 []) C0 C0 C0 C0 "POINTS",
  AI "8112" FNC1 (P .X 1 70 []) C0 C0 C0 C0 "",
  AI "8200" FNC1 (P .X 1 70 []) C0 C0 C0 C0 "PRODUCT URL",
  AI "90" FNC1 (P .X 1 30 []) C0 C0 C0 C0 "INTERNAL",
  AI "91" FNC1 (P .X 1 90 []) C0 C0 C0 C0 "INTERNAL",
  AI "92" FNC1 (P .X 1 90 []) C0 C0 C0 C0 "INTERNAL",
  AI "93" FNC1 (P .X 1 90 []) C0 C0 C0 C0 "INTERNAL",
  AI "94" FNC1 (P .X 1 90 []) C0 C0 C0 C0 "INTERNAL",
  AI "95" FNC1 (P .X 1 90 []) C0 C0 C0 C0 "INTERNAL",
  AI "96" FNC1 (P .X 1 90 []) C0 C0 C0 C0 "INTERNAL",
  AI "97" FNC1 (P .X 1 90 []) C0 C0 C0 C0 "INTERNAL",
  AI "98" FNC1 (P .X 1 90 []) C0 C0 C0 C0 "INTERNAL",
  AI "99" FNC1 (P .X 1 90 []) C0 C0 C0 C0 "INTERNAL"]

end GS1

namespace GS1

/-- `lookupAIentry(p, ailen)`: walk the AI table and return the first
entry that matches; an entry matches when (for `ailen != 0`) its key
length equals `ailen` and the first `ailen` characters of `p` equal the
key, or (for `ailen == 0`) the key is a prefix of `p`
(`strncmp(p, entry->ai, ailen > 0 ? ailen : entrylen) == 0`). -/
def lookupAIentry (p : List Char) (ailen : Nat) : Option AIEntry :=
  ai_table.find? (fun entry =>
    let entrylen := entry.ai.length
    !(ailen != 0 && ailen != entrylen) &&
      p.take (if ailen > 0 then ailen else entrylen) == entry.ai)

/-- The DL primary-key list (source `dl_pkeys`). -/
def dl_pkeys : List (List Char) :=
  (["00", "01", "253", "255", "401", "402", "414", "417",
    "8003", "8004", "8006", "8010", "8013", "8017", "8018"]).map String.data

/-- `isDLpkey(p)`: `strcmp` of `p` against each `dl_pkeys` element. -/
def isDLpkey (p : List Char) : Bool := dl_pkeys.any (fun k => p == k)

/-- Run the declared linters of one component in order, stopping at the
first failure (the C loop over `part->linters[j]`; a null entry ends the
list). -/
def runLinters : List Linter → GS1Encoder → AIEntry → List Char → GS1Encoder × Bool
  | [], ctx, _, _ => (ctx, true)
  | l :: rest, ctx, entry, val =>
      let res := runLinter l ctx entry val
      if res.2 then runLinters rest res.1 entry val else (res.1, false)

/-- The component loop of `validate_ai_val`: for each part (up to the
first `cset none` sentinel) take `min(part.max, remaining)` characters
into a local copy `compval`, require at least `part.min`, run the
character-set linter (`lint_csetNumeric` for `cset N`, otherwise
`lint_cset82`), then the declared linters.  Returns the amount of data
consumed, `0` signalling failure. -/
def validate_parts (entry : AIEntry) :
    GS1Encoder → List AIComponent → List Char → Nat → GS1Encoder × Nat
  | ctx, [], _, consumed => (ctx, consumed)
  | ctx, part :: rest, rem, consumed =>
    if part.cset = Cset.none then (ctx, consumed)
    else
      let complen := if part.max < rem.length then part.max else rem.length
      let compval := rem.take complen
      if complen < part.min then
        (setErr ctx ("AI (" ++ aiStr entry ++ ") data is too short"), 0)
      else
        let cres :=
          if part.cset = Cset.N then lint_csetNumeric ctx entry compval
          else lint_cset82 ctx entry compval
        if !cres.2 then (cres.1, 0)
        else
          let lres := runLinters part.linters cres.1 entry compval
          if !lres.2 then (lres.1, 0)
          else validate_parts entry lres.1 rest (rem.drop complen) (consumed + complen)

/-- `validate_ai_val(ctx, entry, start, end)`: validate the region
`[start, end)` (passed here as the list `v`) against the rules of the
AI; returns the number of characters consumed, `0` on failure. -/
def validate_ai_val (ctx : GS1Encoder) (entry : AIEntry) (v : List Char) :
    GS1Encoder × Nat :=
  if v.length = 0 then
    (setErr ctx ("AI (" ++ aiStr entry ++ ") data is empty"), 0)
  else validate_parts entry ctx entry.parts v 0

/-- `aiValLengthContentCheck(ctx, entry, aiVal, vallen)`: the total value
length must lie between the sums of the component minima and maxima, and
the value must not contain `#`.  The C function writes `ctx->errMsg` and
returns false without setting `errFlag` (its callers `goto fail`); the
message is returned here. -/
def aiValLengthContentCheck (entry : AIEntry) (aiVal : List Char) (vallen : Nat) :
    Option String :=
  let minlen := (entry.parts.map (fun part => part.min)).sum
  let maxlen := (entry.parts.map (fun part => part.max)).sum
  if vallen < minlen then Option.some ("AI (" ++ aiStr entry ++ ") value is too short")
  else if vallen > maxlen then Option.some ("AI (" ++ aiStr entry ++ ") value is too long")
  else if (aiVal.take vallen).contains '#' then
    Option.some ("AI (" ++ aiStr entry ++ ") contains illegal # character")
  else Option.none

/-- The main loop of `gs1_processAIdata`: prefix-match an AI, validate
its value (which extends to the next `#` or the end), append the
extracted AI (capacity permitting), reject missing separators after
FNC1-requiring AIs, and skip one `#` if present.  The loop advances at
least one character per iteration, so the structural fuel
`p.length + 1` supplied by `processAIs` never runs out; the
out-of-fuel branch is unreachable. -/
def processAIsGo : Nat → GS1Encoder → List Char → GS1Encoder × Bool
  | _, ctx, [] => (ctx, true)
  | 0, ctx, _ :: _ => (ctx, false)
  | fuel + 1, ctx, c :: rest =>
    match lookupAIentry (c :: rest) 0 with
    | Option.none =>
        (setErr ctx ("Unrecognised AI: " ++ String.mk ((c :: rest).take 4)), false)
    | Option.some entry =>
      match validate_ai_val ctx entry
          (((c :: rest).drop entry.ai.length).takeWhile (fun ch => ch ≠ '#')) with
      | (ctx1, vallen) =>
        if vallen = 0 then (ctx1, false)
        else
          if ctx1.aiData.length < MAX_AIS then
            let p1 := (c :: rest).drop entry.ai.length
            let ctx2 := { ctx1 with aiData := ctx1.aiData ++ [⟨entry, p1.take vallen⟩] }
            let p2 := p1.drop vallen
            if entry.fnc1 && !(p2.head? == Option.some '#') && !p2.isEmpty then
              (setErr ctx2 ("AI (" ++ aiStr entry ++ ") data is too long"), false)
            else
              processAIsGo fuel ctx2 (if p2.head? == Option.some '#' then p2.drop 1 else p2)
          else (setErr ctx1 "Too many AIs", false)

/-- Entry point of the extraction loop. -/
def processAIs (ctx : GS1Encoder) (p : List Char) : GS1Encoder × Bool :=
  processAIsGo (p.length + 1) ctx p

/-- `gs1_processAIdata(ctx, dataStr)`: clear the error state, require a
leading `#` and non-empty data, then run the extraction loop. -/
def gs1_processAIdata (ctx : GS1Encoder) (dataStr : List Char) :
    GS1Encoder × Bool :=
  let ctx0 : GS1Encoder := { ctx with errMsg := "", errFlag := false }
  match dataStr with
  | [] => (setErr ctx0 "Missing FNC1 in first position", false)
  | c :: rest =>
    if c ≠ '#' then (setErr ctx0 "Missing FNC1 in first position", false)
    else if rest.isEmpty then (setErr ctx0 "The AI data is empty", false)
    else processAIs ctx0 rest

/-- `writeDataStr(v)`: append to the element string, failing (the C
`goto fail`, with no message) if `MAX_DATA` would be exceeded. -/
def writeDataStr (dataStr v : List Char) : Except String (List Char) :=
  if dataStr.length + v.length > MAX_DATA then Except.error ""
  else Except.ok (dataStr ++ v)

/-- `nwriteDataStr(v, l)`: append at most `l` characters; `strncat`
stops at a NUL byte in `v` (relevant only to percent-decoded DL values,
the only place a NUL can arise). -/
def nwriteDataStr (dataStr v : List Char) (l : Nat) : Except String (List Char) :=
  if dataStr.length + l > MAX_DATA then Except.error ""
  else Except.ok (dataStr ++ (v.takeWhile (fun ch => ch ≠ Char.ofNat 0)).take l)

/-- The `again:` loop of `gs1_parseAIdata`, copying one bracketed value
into the element string: find the next `(`; if it is preceded by `\`
(checked through the character before the scan start when the bracket is
first, which in context is `)` or an escaped `(`, never `\`) rewrite the
escape as a literal `(` and continue; otherwise copy up to the bracket
and stop there.  Returns the extended element string and the remaining
input.  When `k = 0` and the preceding character were `\`, the C size_t
write length would wrap and the `MAX_DATA` guard fails.  Each iteration
consumes input, so the fuel `r.length + 1` supplied by `valueScan` never
runs out. -/
def valueScanGo : Nat → List Char → Char → List Char →
    Except String (List Char × List Char)
  | 0, _, _, _ => Except.error ""
  | fuel + 1, dataStr, prev, r =>
    match r.findIdx? (fun ch => ch == '(') with
    | Option.none =>
        match nwriteDataStr dataStr r r.length with
        | Except.error m => Except.error m
        | Except.ok ds => Except.ok (ds, [])
    | Option.some k =>
        if (if k = 0 then prev else r.getD (k - 1) ' ') = '\\' then
          if k = 0 then Except.error ""
          else
            match nwriteDataStr dataStr r (k - 1) with
            | Except.error m => Except.error m
            | Except.ok ds =>
              match writeDataStr ds ['('] with
              | Except.error m => Except.error m
              | Except.ok ds2 => valueScanGo fuel ds2 '(' (r.drop (k + 1))
        else
          match nwriteDataStr dataStr r k with
          | Except.error m => Except.error m
          | Except.ok ds => Except.ok (ds, r.drop k)

/-- Entry point of the value scan. -/
def valueScan (dataStr : List Char) (prev : Char) (r : List Char) :
    Except String (List Char × List Char) :=
  valueScanGo (r.length + 1) dataStr prev r

/-- The value scan never returns more input than it was given. -/
theorem valueScanGo_rem_le :
    ∀ (fuel : Nat) (dataStr : List Char) (prev : Char) (r ds rem : List Char),
    valueScanGo fuel dataStr prev r = Except.ok (ds, rem) →
    rem.length ≤ r.length := by
  intro fuel
  induction fuel with
  | zero =>
      intro dataStr prev r ds rem h
      simp [valueScanGo] at h
  | succ n ih =>
      intro dataStr prev r ds rem h
      unfold valueScanGo at h
      split at h
      · split at h
        · exact absurd h (by simp)
        · rename_i ds2 hw
          simp only [Except.ok.injEq, Prod.mk.injEq] at h
          simp [h.2.symm]
      · rename_i k hfi
        iterate 6 (all_goals try split at h)
        all_goals try (simp at h; done)
        all_goals
          first
          | (simp only [Except.ok.injEq, Prod.mk.injEq] at h
             rw [← h.2]
             simp [List.length_drop])
          | (refine le_trans (ih _ '(' _ ds rem h) ?_
             simp only [List.length_drop]
             omega)

/-- The value scan never returns more input than it was given. -/
theorem valueScan_rem_le {dataStr : List Char} {prev : Char} {r ds rem : List Char}
    (h : valueScan dataStr prev r = Except.ok (ds, rem)) :
    rem.length ≤ r.length :=
  valueScanGo_rem_le (r.length + 1) dataStr prev r ds rem h

/-- The main loop of `gs1_parseAIdata`: expect `(`, find `)`, resolve
the AI by exact lookup, emit `#` when required followed by the AI key,
recompute the FNC1 requirement from `fixedAIprefixes`, require a
non-empty remainder, copy the value via the escape-aware scan, and run
the length/content pre-check on the value just written. -/
def parseAIloopGo : Nat → List Char → List Char → Bool →
    Except String (List Char)
  | 0, _, _, _ => Except.error ""
  | fuel + 1, p, dataStr, fnc1req =>
    match p with
    | [] => Except.ok dataStr
    | c :: p1 =>
      if c ≠ '(' then Except.error ""
      else
        match p1.findIdx? (fun ch => ch == ')') with
        | Option.none => Except.error ""
        | Option.some k =>
          match lookupAIentry p1 k with
          | Option.none => Except.error ("Unrecognised AI: " ++ String.mk (p1.take 4))
          | Option.some entry =>
            match (if fnc1req then writeDataStr dataStr ['#'] else Except.ok dataStr) with
            | Except.error m => Except.error m
            | Except.ok dsA =>
              match writeDataStr dsA entry.ai with
              | Except.error m => Except.error m
              | Except.ok dsB =>
                if (p1.drop (k + 1)).isEmpty then Except.error ""
                else
                  match valueScan dsB ')' (p1.drop (k + 1)) with
                  | Except.error m => Except.error m
                  | Except.ok (dsC, pNext) =>
                    match aiValLengthContentCheck entry (dsC.drop dsB.length)
                        (dsC.drop dsB.length).length with
                    | Option.some m => Except.error m
                    | Option.none =>
                        parseAIloopGo fuel pNext dsC
                          (!(fixedAIprefixes.any (fun f => entry.ai.take 2 == f)))

/-- Entry point of the bracketed parse loop.  Each iteration consumes at
least the `(`, the AI key and the `)` and the value scan returns a
suffix of its input, so the fuel `p.length + 1` never runs out. -/
def parseAIloop (p dataStr : List Char) (fnc1req : Bool) :
    Except String (List Char) :=
  parseAIloopGo (p.length + 1) p dataStr fnc1req

/-- `gs1_parseAIdata(ctx, aiData, dataStr)`: clear the error state and
output, run the bracketed parse loop, and on success validate the built
element string with `gs1_processAIdata` (whose result and the built
string are returned; the output is emptied only by the parse-stage
`fail` path, which defaults the message to "Failed to parse AI data"
when none was set). -/
def gs1_parseAIdata (ctx : GS1Encoder) (aiData : List Char) :
    GS1Encoder × Bool × List Char :=
  let ctx0 : GS1Encoder := { ctx with errMsg := "", errFlag := false }
  match parseAIloop aiData [] true with
  | Except.ok ds =>
      let pr := gs1_processAIdata ctx0 ds
      (pr.1, pr.2, ds)
  | Except.error m =>
      (setErr ctx0 (if m = "" then "Failed to parse AI data" else m), false, [])

end GS1

namespace GS1

/-- `isxdigit` on an ASCII byte. -/
def isxdigitChar (c : Char) : Bool :=
  (48 ≤ c.toNat && c.toNat ≤ 57) || (65 ≤ c.toNat && c.toNat ≤ 70) ||
    (97 ≤ c.toNat && c.toNat ≤ 102)

/-- Value of a hex digit (the C code uses `strtoul(hex, NULL, 16)` on a
two-character buffer). -/
def hexVal (c : Char) : Nat :=
  if c.toNat ≤ 57 then c.toNat - 48
  else if c.toNat ≤ 70 then c.toNat - 55
  else c.toNat - 87

/-- The loop of `URIunescape`: copy input to output, decoding `%HH` when
both `H` are hex digits (which requires at least two characters after
the `%`, the C condition `i < inlen - 2`), stopping once `maxlen` output
characters have been produced.  `j` is the output count. -/
def URIunescapeGo (maxlen : Nat) : Nat → List Char → List Char
  | _, [] => []
  | j, '%' :: h1 :: h2 :: t =>
    if maxlen ≤ j then []
    else
      if isxdigitChar h1 && isxdigitChar h2 then
        Char.ofNat (hexVal h1 * 16 + hexVal h2) :: URIunescapeGo maxlen (j + 1) t
      else '%' :: URIunescapeGo maxlen (j + 1) (h1 :: h2 :: t)
  | j, c :: rest =>
    if maxlen ≤ j then []
    else c :: URIunescapeGo maxlen (j + 1) rest

/-- `URIunescape(out, maxlen, in, inlen)`: returns the decoded output
(whose length is the C return value `j`). -/
def URIunescape (maxlen : Nat) (inp : List Char) : List Char :=
  URIunescapeGo maxlen 0 inp

/-- The "Special handling of AI (01) to pad up to a GTIN-14" block: when
the entry is AI (01) and the decoded length is 13, 12 or 8, the loop
`for (i = 0; i <= 13; i++) aival[13-i] = vallen >= i+1 ? aival[vallen-i-1]
: '0'` right-aligns the value into 14 characters, zero-filling on the
left, and sets `vallen = 14`. -/
def gtinPad (entry : AIEntry) (aival : List Char) (vallen : Nat) :
    List Char × Nat :=
  if entry.ai == String.data "01" && (vallen == 13 || vallen == 12 || vallen == 8) then
    ((List.range 14).map (fun j =>
        if 14 - j ≤ vallen then aival.getD (vallen - (14 - j)) '0' else '0'), 14)
  else (aival, vallen)

/-- The block shared verbatim by the DL path-info and query-parameter
loops: percent-decode the value bounded by `MAX_AI_LEN` (a zero decoded
length is reported with the "Decoded AI (...) too long" message, whose
wording differs between the two call sites, selected by `fromQuery`),
apply the GTIN-14 padding, write `#` when required followed by the AI
key, recompute the FNC1 requirement from `fixedAIprefixes`, write the
value, and run the length/content pre-check.  Returns the extended
element string and the new FNC1 requirement. -/
def dlWriteAIval (fromQuery : Bool) (ds : List Char) (fnc1req : Bool)
    (entry : AIEntry) (rawVal : List Char) : Except String (List Char × Bool) :=
  let aival := URIunescape MAX_AI_LEN rawVal
  if aival.length = 0 then
    Except.error (if fromQuery then
        "Decoded AI (" ++ aiStr entry ++ ") value from DL query params too long"
      else
        "Decoded AI (" ++ aiStr entry ++ ") from DL path info too long")
  else
    let padded := gtinPad entry aival aival.length
    match (if fnc1req then writeDataStr ds ['#'] else Except.ok ds) with
    | Except.error m => Except.error m
    | Except.ok ds1 =>
      match writeDataStr ds1 entry.ai with
      | Except.error m => Except.error m
      | Except.ok ds2 =>
        let fnc1next := !(fixedAIprefixes.any (fun f => entry.ai.take 2 == f))
        match nwriteDataStr ds2 padded.1 padded.2 with
        | Except.error m => Except.error m
        | Except.ok ds3 =>
          match aiValLengthContentCheck entry padded.1 padded.2 with
          | Option.some m => Except.error m
          | Option.none => Except.ok (ds3, fnc1next)

/-- Index of the last occurrence of `c` in `l` (`strrchr`). -/
def strrchrIdx (l : List Char) (c : Char) : Option Nat :=
  match l.reverse.findIdx? (fun ch => ch == c) with
  | Option.none => Option.none
  | Option.some j => Option.some (l.length - 1 - j)

/-- A found `strrchr` index lies within the list. -/
theorem strrchrIdx_lt {l : List Char} {c : Char} {i : Nat}
    (h : strrchrIdx l c = Option.some i) : i < l.length := by
  unfold strrchrIdx at h
  split at h
  · simp at h
  · rename_i j hj
    simp only [Option.some.injEq] at h
    subst h
    cases l with
    | nil => simp [List.findIdx?] at hj
    | cons a t => simp only [List.length_cons]; omega

/-- The backward scan of `gs1_parseDLuri` locating the DL path-info root
("Search backwards from the end of the path info looking for an
/AI/value pair where AI is a DL primary key").  `cutLen` is the current
effective length of the path-info C string: each earlier iteration's
`*p = '\0'` cut is restored before the string is searched again, so the
`strrchr` calls see `pinfo.take cutLen` while `lookupAIentry` sees the
fully restored `pinfo` from `p + 1` onward.  The scan stops with no root
when no separator remains, when no `/AI/` segment precedes the value, or
when the segment does not resolve to a known AI; it stops with root `p`
when the resolved AI is a DL primary key, and otherwise continues with
the string cut at `p`. -/
def dlFindRootGo : Nat → List Char → Nat → Option Nat
  | 0, _, _ => Option.none
  | fuel + 1, pinfo, cutLen =>
    match strrchrIdx (pinfo.take cutLen) '/' with
    | Option.none => Option.none
    | Option.some r =>
      match strrchrIdx (pinfo.take r) '/' with
      | Option.none => Option.none
      | Option.some p =>
        match lookupAIentry (pinfo.drop (p + 1)) (r - p - 1) with
        | Option.none => Option.none
        | Option.some entry =>
            if isDLpkey entry.ai then Option.some p else dlFindRootGo fuel pinfo p

/-- Entry point of the backward root scan.  Each iteration strictly
reduces the cut position, so the fuel `cutLen + 1` never runs out. -/
def dlFindRoot (pinfo : List Char) (cutLen : Nat) : Option Nat :=
  dlFindRootGo (cutLen + 1) pinfo cutLen

/-- Index of the first occurrence of `c` in `l`, or `l.length` when
absent: the `if ((p = strchr(r, c)) == NULL) p = r + strlen(r)` idiom. -/
def strchrLenIdx (l : List Char) (c : Char) : Nat :=
  match l.findIdx? (fun ch => ch == c) with
  | Option.none => l.length
  | Option.some j => j

/-- When the head is not the sought character, `strchrLenIdx` is positive. -/
theorem strchrLenIdx_pos {a : Char} {t : List Char} {c : Char}
    (h : (a == c) = false) : 1 ≤ strchrLenIdx (a :: t) c := by
  unfold strchrLenIdx
  rw [List.findIdx?_cons, h]
  simp only [Bool.false_eq_true, if_false]
  rw [show (1 : Nat) = 0 + 1 from rfl, List.findIdx?_start_succ]
  cases t.findIdx? (fun ch => ch == c) with
  | none => simp
  | some j => simp

/-- The forward loop over the DL path info from the root: each
`/AI/value` pair is known to be well-formed (the source asserts the
separator, the second separator search and the AI lookup; the error
returns here model those unreachable assertions), and its value is
processed by the shared write block. -/
def dlPathLoopGo : Nat → List Char → List Char → Bool →
    Except String (List Char × Bool)
  | 0, _, _, _ => Except.error ""
  | fuel + 1, q, ds, fnc1req =>
    match q with
    | [] => Except.ok (ds, fnc1req)
    | c :: q1 =>
      if c ≠ '/' then Except.error ""
      else
        match q1.findIdx? (fun ch => ch == '/') with
        | Option.none => Except.error ""
        | Option.some k =>
          match lookupAIentry q1 k with
          | Option.none => Except.error ""
          | Option.some entry =>
            match dlWriteAIval false ds fnc1req entry
                ((q1.drop (k + 1)).take (strchrLenIdx (q1.drop (k + 1)) '/')) with
            | Except.error m => Except.error m
            | Except.ok dsf =>
                dlPathLoopGo fuel
                  ((q1.drop (k + 1)).drop (strchrLenIdx (q1.drop (k + 1)) '/'))
                  dsf.1 dsf.2

/-- Entry point of the forward path loop.  Each pair consumes at least
two characters, so the fuel `q.length + 1` never runs out. -/
def dlPathLoop (q ds : List Char) (fnc1req : Bool) :
    Except String (List Char × Bool) :=
  dlPathLoopGo (q.length + 1) q ds fnc1req

/-- `dropWhile` only returns a head that fails the predicate. -/
theorem dropWhile_head_not {p : Char → Bool} {l : List Char} {a : Char}
    {t : List Char} (h : l.dropWhile p = a :: t) : p a = false := by
  induction l with
  | nil => simp [List.dropWhile] at h
  | cons b l ih =>
      by_cases hb : p b
      · rw [List.dropWhile_cons_of_pos hb] at h
        exact ih h
      · rw [List.dropWhile_cons_of_neg hb] at h
        cases h
        simpa using hb

/-- The query-parameter loop of `gs1_parseDLuri`: `&` separators are
skipped; a token without `=` is a skipped singleton; an all-digit key
(`gs1_allDigits(p, e - p)`, which for a token starting with `=` falls
back to scanning the whole remaining query region) that resolves to no
AI is an error; a known AI key's value is processed by the shared write
block; other tokens are skipped. -/
def dlQueryLoopGo : Nat → List Char → List Char → Bool →
    Except String (List Char)
  | 0, _, _, _ => Except.error ""
  | fuel + 1, q, ds, fnc1req =>
    match q.dropWhile (fun ch => ch == '&') with
    | [] => Except.ok ds
    | a :: q2 =>
      match ((a :: q2).take (strchrLenIdx (a :: q2) '&')).findIdx? (fun ch => ch == '=') with
      | Option.none =>
          dlQueryLoopGo fuel ((a :: q2).drop (strchrLenIdx (a :: q2) '&')) ds fnc1req
      | Option.some e =>
        if gs1_allDigits (a :: q2) e then
          match lookupAIentry (a :: q2) e with
          | Option.none =>
              Except.error ("Unknown AI (" ++ String.mk ((a :: q2).take e) ++
                ") in query parameters")
          | Option.some entry =>
            match dlWriteAIval true ds fnc1req entry
                (((a :: q2).take (strchrLenIdx (a :: q2) '&')).drop (e + 1)) with
            | Except.error m => Except.error m
            | Except.ok dsf =>
                dlQueryLoopGo fuel ((a :: q2).drop (strchrLenIdx (a :: q2) '&'))
                  dsf.1 dsf.2
        else dlQueryLoopGo fuel ((a :: q2).drop (strchrLenIdx (a :: q2) '&')) ds fnc1req

/-- Entry point of the query-parameter loop.  Each iteration consumes at
least one character past the skipped separators, so the fuel
`q.length + 1` never runs out. -/
def dlQueryLoop (q ds : List Char) (fnc1req : Bool) :
    Except String (List Char) :=
  dlQueryLoopGo (q.length + 1) q ds fnc1req

/-- Strip the URI scheme: `https://` or `http://` (checked by length and
`strncmp`); `none` means the scheme error. -/
def dlAfterScheme (dlData : List Char) : Option (List Char) :=
  if (String.data "https://").isPrefixOf dlData then Option.some (dlData.drop 8)
  else if (String.data "http://").isPrefixOf dlData then Option.some (dlData.drop 7)
  else Option.none

/-- Find the end of the domain: the next `/` must exist and be at least
one character away; the result starts at that `/` (the path info with
any query part still attached). -/
def dlDomainSplit (p : List Char) : Option (List Char) :=
  match p.findIdx? (fun ch => ch == '/') with
  | Option.none => Option.none
  | Option.some i => if i < 1 then Option.none else Option.some (p.drop i)

/-- Split the path info from the query parameters at the first `?`
(`*qp++ = '\0'`). -/
def dlPathQuerySplit (rest : List Char) : List Char × Option (List Char) :=
  match rest.findIdx? (fun ch => ch == '?') with
  | Option.none => (rest, Option.none)
  | Option.some k => (rest.take k, Option.some (rest.drop (k + 1)))

/-- The fragment character delimits the end of the query parameters
(`if (qp && ((fr = strchr(qp, '#')) != NULL)) *fr++ = '\0'`). -/
def dlStripFragment (qp : List Char) : List Char :=
  match qp.findIdx? (fun ch => ch == '#') with
  | Option.none => qp
  | Option.some f => qp.take f

/-- The pure element-string construction of `gs1_parseDLuri`: URI
character check, scheme, domain, path/query split, backward root scan,
forward path processing, fragment strip and query processing.  The C
function's final restoration of the `?` and `#` separator bytes only
undoes its in-place mutation of the caller's input buffer, which this
functional model never mutates. -/
def dlBuild (dlData : List Char) : Except String (List Char) :=
  if !(dlData.all (fun ch => uriCharacters.contains ch)) then
    Except.error "URI contains illegal characters"
  else
    match dlAfterScheme dlData with
    | Option.none => Except.error "Scheme must be http:// or https://"
    | Option.some p =>
      match dlDomainSplit p with
      | Option.none => Except.error "URI must contain a domain and path info"
      | Option.some rest =>
        match dlFindRoot (dlPathQuerySplit rest).1 (dlPathQuerySplit rest).1.length with
        | Option.none => Except.error "No GS1 DL keys found in path info"
        | Option.some dp =>
          match dlPathLoop ((dlPathQuerySplit rest).1.drop dp) [] true with
          | Except.error m => Except.error m
          | Except.ok dsf =>
            match (dlPathQuerySplit rest).2 with
            | Option.none => Except.ok dsf.1
            | Option.some qp => dlQueryLoop (dlStripFragment qp) dsf.1 dsf.2

/-- `gs1_parseDLuri(ctx, dlData, dataStr)`: clear the error state and
output, build the element string, and on success validate it with
`gs1_processAIdata` (whose result and the built string are returned; the
output is emptied only by the build-stage `fail` path, which defaults
the message to "Failed to parse DL data" when none was set). -/
def gs1_parseDLuri (ctx : GS1Encoder) (dlData : List Char) :
    GS1Encoder × Bool × List Char :=
  let ctx0 : GS1Encoder := { ctx with errMsg := "", errFlag := false }
  match dlBuild dlData with
  | Except.ok ds =>
      let pr := gs1_processAIdata ctx0 ds
      (pr.1, pr.2, ds)
  | Except.error m =>
      (setErr ctx0 (if m = "" then "Failed to parse DL data" else m), false, [])

end GS1

namespace GS1

/-! ### Facts about the AI registry table -/

/-- Boolean strict lexicographic order on character lists. -/
def lexLtB : List Char → List Char → Bool
  | [], [] => false
  | [], _ :: _ => true
  | _ :: _, [] => false
  | a :: as, b :: bs => if a < b then true else if b < a then false else lexLtB as bs

/-- Adjacent-pair check: strictly ascending and no key a prefix of its
successor. -/
def chainPF : List (List Char) → Bool
  | [] => true
  | [_] => true
  | a :: b :: t => lexLtB a b && !(a.isPrefixOf b) && chainPF (b :: t)

/-- Sum of component minima up to the first `cset none` sentinel (the
range walked by `validate_ai_val`). -/
def activeMinSum : List AIComponent → Nat
  | [] => 0
  | part :: rest => if part.cset = Cset.none then 0 else part.min + activeMinSum rest

/-- Sum of component maxima up to the first `cset none` sentinel. -/
def activeMaxSum : List AIComponent → Nat
  | [] => 0
  | part :: rest => if part.cset = Cset.none then 0 else part.max + activeMaxSum rest

/-- Sum of all five component minima (the range walked by
`aiValLengthContentCheck`). -/
def partsMinSum (e : AIEntry) : Nat := (e.parts.map (fun part => part.min)).sum

/-- Sum of all five component maxima. -/
def partsMaxSum (e : AIEntry) : Nat := (e.parts.map (fun part => part.max)).sum

/-- Structural well-formedness of one registry entry: non-empty all-digit
key; positive minimum total length; the component list is left-packed, so
the sentinel-bounded sums agree with the all-five sums; the `fnc1` flag
agrees with membership of the key's two-digit prefix in
`fixedAIprefixes`; and fixed-length (`NO_FNC1`) entries have equal
minimum and maximum total lengths. -/
def entryWF (e : AIEntry) : Bool :=
  !e.ai.isEmpty &&
  e.ai.all (fun c => 48 ≤ c.toNat && c.toNat ≤ 57) &&
  decide (1 ≤ partsMinSum e) &&
  (activeMinSum e.parts == partsMinSum e) &&
  (activeMaxSum e.parts == partsMaxSum e) &&
  (e.fnc1 == !(fixedAIprefixes.any (fun f => e.ai.take 2 == f))) &&
  (e.fnc1 || (partsMinSum e == partsMaxSum e))

set_option maxRecDepth 4000 in
/-- Every registry entry is structurally well formed. -/
theorem ai_table_wf : ai_table.all entryWF = true := by decide

set_option maxRecDepth 4000 in
/-- The registry keys are strictly ascending with no key a prefix of its
immediate successor. -/
theorem ai_table_chain : chainPF (ai_table.map (fun e => e.ai)) = true := by decide

/-- `lexLtB` is transitive. -/
theorem lexLtB_trans :
    ∀ {a b c : List Char}, lexLtB a b = true → lexLtB b c = true → lexLtB a c = true := by
  intro a
  induction a with
  | nil =>
      intro b c hab hbc
      cases b with
      | nil => simp [lexLtB] at hab
      | cons y bs =>
          cases c with
          | nil => simp [lexLtB] at hbc
          | cons z cs => simp [lexLtB]
  | cons x as ih =>
      intro b c hab hbc
      cases b with
      | nil => simp [lexLtB] at hab
      | cons y bs =>
          cases c with
          | nil => simp [lexLtB] at hbc
          | cons z cs =>
              simp only [lexLtB] at hab hbc ⊢
              by_cases hxy : x < y
              · by_cases hyz : y < z
                · rw [if_pos (lt_trans hxy hyz)]
                · rw [if_neg hyz] at hbc
                  by_cases hzy : z < y
                  · simp [hzy] at hbc
                  · have : y = z := le_antisymm (not_lt.mp hzy) (not_lt.mp hyz)
                    subst this
                    rw [if_pos hxy]
              · rw [if_neg hxy] at hab
                by_cases hyx : y < x
                · simp [hyx] at hab
                · have hxey : x = y := le_antisymm (not_lt.mp hyx) (not_lt.mp hxy)
                  subst hxey
                  by_cases hxz : x < z
                  · rw [if_pos hxz]
                  · rw [if_neg hxz] at hbc ⊢
                    by_cases hzx : z < x
                    · simp [hzx] at hbc
                    · rw [if_neg hzx] at hbc ⊢
                      rw [if_neg hxy] at hab
                      exact ih hab hbc

/-- A list lexicographically between a list and an extension of its
prefix shares that prefix: if `a` is a prefix of `c` and
`a < b < c`, then `a` is a prefix of `b`. -/
theorem isPrefixOf_of_between :
    ∀ {a b c : List Char}, a.isPrefixOf c = true →
      lexLtB a b = true → lexLtB b c = true → a.isPrefixOf b = true := by
  intro a
  induction a with
  | nil => intro b c _ _ _; simp [List.isPrefixOf]
  | cons x as ih =>
      intro b c hac hab hbc
      cases c with
      | nil => simp [List.isPrefixOf] at hac
      | cons z cs =>
          simp only [List.isPrefixOf, Bool.and_eq_true, beq_iff_eq] at hac
          obtain ⟨hxz, hac⟩ := hac
          subst hxz
          cases b with
          | nil => simp [lexLtB] at hab
          | cons y bs =>
              simp only [lexLtB] at hab hbc
              by_cases hxy : x < y
              · rw [if_neg (asymm hxy), if_pos hxy] at hbc
                exact absurd hbc (by simp)
              · by_cases hyx : y < x
                · rw [if_neg hxy, if_pos hyx] at hab
                  exact absurd hab (by simp)
                · have hxey : x = y := le_antisymm (not_lt.mp hyx) (not_lt.mp hxy)
                  subst hxey
                  rw [if_neg hxy, if_neg hyx] at hab hbc
                  simp only [List.isPrefixOf, Bool.and_eq_true, beq_self_eq_true, true_and]
                  exact ih hac hab hbc

/-- A prefix is never lexicographically greater: if `b` is a prefix of
`a` then `lexLtB a b` is false. -/
theorem lexLtB_eq_false_of_isPrefixOf :
    ∀ {b a : List Char}, b.isPrefixOf a = true → lexLtB a b = false := by
  intro b
  induction b with
  | nil =>
      intro a _
      cases a <;> simp [lexLtB]
  | cons y bs ih =>
      intro a hpre
      cases a with
      | nil => simp [List.isPrefixOf] at hpre
      | cons x as =>
          simp only [List.isPrefixOf, Bool.and_eq_true, beq_iff_eq] at hpre
          obtain ⟨hyx, hpre⟩ := hpre
          subst hyx
          simp only [lexLtB, lt_irrefl, if_false]
          exact ih hpre

end GS1

namespace GS1

/-- The adjacent-pair check yields a `Chain'`. -/
theorem chainPF_chain' :
    ∀ {l : List (List Char)}, chainPF l = true →
      List.Chain' (fun a b => lexLtB a b = true ∧ a.isPrefixOf b = false) l
  | [], _ => by simp
  | [a], _ => by simp
  | a :: b :: t, h => by
      simp only [chainPF, Bool.and_eq_true] at h
      obtain ⟨⟨h1, h2⟩, h3⟩ := h
      exact List.chain'_cons.mpr ⟨⟨h1, by simpa using h2⟩, chainPF_chain' h3⟩

/-- The combined relation of the chain check is transitive (using the
betweenness property of lexicographic order and prefixes). -/
theorem keysR_trans :
    Transitive (fun a b : List Char => lexLtB a b = true ∧ a.isPrefixOf b = false) := by
  intro a b c hab hbc
  refine ⟨lexLtB_trans hab.1 hbc.1, ?_⟩
  cases hac : a.isPrefixOf c with
  | false => rfl
  | true => exact absurd (isPrefixOf_of_between hac hab.1 hbc.1) (by simp [hab.2])

/-- No registry key is a prefix of any other (in either direction). -/
theorem ai_table_keys_pairwise :
    (ai_table.map (fun e => e.ai)).Pairwise
      (fun a b => a.isPrefixOf b = false ∧ b.isPrefixOf a = false) := by
  have hch := chainPF_chain' ai_table_chain
  haveI : IsTrans (List Char)
      (fun a b => lexLtB a b = true ∧ a.isPrefixOf b = false) := ⟨keysR_trans⟩
  have hp := List.chain'_iff_pairwise.mp hch
  refine hp.imp ?_
  intro a b hab
  refine ⟨hab.2, ?_⟩
  cases hba : b.isPrefixOf a with
  | false => rfl
  | true => exact absurd hab.1 (by rw [lexLtB_eq_false_of_isPrefixOf hba]; simp)

/-- Entry-level pairwise non-overlap. -/
theorem ai_table_entry_pairwise :
    ai_table.Pairwise
      (fun e1 e2 => e1.ai.isPrefixOf e2.ai = false ∧ e2.ai.isPrefixOf e1.ai = false) :=
  List.pairwise_map.mp ai_table_keys_pairwise

/-- For any two distinct registry entries, neither key is a prefix of
the other. -/
theorem ai_table_nonoverlap :
    ∀ e1 ∈ ai_table, ∀ e2 ∈ ai_table, e1 ≠ e2 →
      e1.ai.isPrefixOf e2.ai = false := by
  have hsym : Symmetric (fun e1 e2 : AIEntry =>
      e1.ai.isPrefixOf e2.ai = false ∧ e2.ai.isPrefixOf e1.ai = false) :=
    fun a b h => ⟨h.2, h.1⟩
  have hfa := ai_table_entry_pairwise.forall hsym
  intro e1 h1 e2 h2 hne
  exact (hfa h1 h2 hne).1

/-- `find?` returns the unique satisfying element. -/
theorem find?_eq_some_of_unique {α : Type} {p : α → Bool} :
    ∀ {l : List α} {x : α}, x ∈ l → p x = true →
      (∀ y ∈ l, p y = true → y = x) → l.find? p = Option.some x := by
  intro l
  induction l with
  | nil => simp
  | cons a t ih =>
      intro x hx hpx huni
      by_cases hpa : p a = true
      · have : a = x := huni a (by simp) hpa
        subst this
        simp [List.find?_cons_of_pos _ hpa]
      · cases List.mem_cons.mp hx with
        | inl h =>
            subst h
            exact absurd hpx hpa
        | inr h =>
            rw [List.find?_cons_of_neg _ (by simpa using hpa)]
            exact ih h hpx (fun y hy hpy => huni y (List.mem_cons_of_mem _ hy) hpy)

/-- The prefix-match form of the lookup (`ailen == 0`) is a `find?` for
a key prefixing the data. -/
theorem lookupAIentry_prefix_eq (p : List Char) :
    lookupAIentry p 0 = ai_table.find? (fun e => e.ai.isPrefixOf p) := by
  unfold lookupAIentry
  congr 1
  funext e
  simp only [bne_self_eq_false, Bool.false_and, Bool.not_false, Bool.true_and]
  rw [if_neg (by omega : ¬ 0 > 0)]
  cases hb : e.ai.isPrefixOf p with
  | true =>
      have := List.isPrefixOf_iff_prefix.mp hb
      rw [List.prefix_iff_eq_take] at this
      simp [← this]
  | false =>
      cases hq : (p.take e.ai.length == e.ai) with
      | false => rfl
      | true =>
          have : e.ai <+: p := by
            rw [List.prefix_iff_eq_take]
            exact (beq_iff_eq.mp hq).symm
          rw [← List.isPrefixOf_iff_prefix] at this
          rw [this] at hb
          cases hb

/-- Looking up data that starts with a registry key finds exactly that
entry, regardless of what follows. -/
theorem lookupAIentry_self_prefix {e : AIEntry} (he : e ∈ ai_table) (t : List Char) :
    lookupAIentry (e.ai ++ t) 0 = Option.some e := by
  rw [lookupAIentry_prefix_eq]
  apply find?_eq_some_of_unique he
  · rw [List.isPrefixOf_iff_prefix]
    exact List.prefix_append _ _
  · intro y hy hpy
    by_contra hne
    have hpre : y.ai <+: e.ai ++ t := List.isPrefixOf_iff_prefix.mp hpy
    by_cases hlen : y.ai.length ≤ e.ai.length
    · have hyx : y.ai <+: e.ai :=
        List.prefix_of_prefix_length_le hpre (List.prefix_append _ _) hlen
      have hno := ai_table_nonoverlap y hy e he hne
      rw [← List.isPrefixOf_iff_prefix] at hyx
      rw [hyx] at hno
      cases hno
    · have hxy : e.ai <+: y.ai :=
        List.prefix_of_prefix_length_le (List.prefix_append _ _) hpre
          (le_of_lt (not_le.mp hlen))
      have hno := ai_table_nonoverlap e he y hy (fun h => hne h.symm)
      rw [← List.isPrefixOf_iff_prefix] at hxy
      rw [hxy] at hno
      cases hno

/-- Unpack the per-entry well-formedness facts. -/
theorem entryWF_of_mem {e : AIEntry} (he : e ∈ ai_table) : entryWF e = true := by
  have h := ai_table_wf
  rw [List.all_eq_true] at h
  exact h e he

/-- A registry key is non-empty. -/
theorem entry_ai_ne_nil {e : AIEntry} (he : e ∈ ai_table) : e.ai ≠ [] := by
  have h := entryWF_of_mem he
  simp only [entryWF, Bool.and_eq_true] at h
  simpa using h.1.1.1.1.1.1

/-- A registry key consists of ASCII digits. -/
theorem entry_ai_digits {e : AIEntry} (he : e ∈ ai_table) :
    ∀ c ∈ e.ai, 48 ≤ c.toNat ∧ c.toNat ≤ 57 := by
  have h := entryWF_of_mem he
  simp only [entryWF, Bool.and_eq_true] at h
  have := h.1.1.1.1.1.2
  rw [List.all_eq_true] at this
  intro c hc
  simpa using this c hc

/-- The minimum total value length of a registry entry is positive. -/
theorem entry_minSum_pos {e : AIEntry} (he : e ∈ ai_table) : 1 ≤ partsMinSum e := by
  have h := entryWF_of_mem he
  simp only [entryWF, Bool.and_eq_true] at h
  simpa using h.1.1.1.1.2

/-- The sentinel-bounded minima sum agrees with the all-parts sum. -/
theorem entry_activeMin {e : AIEntry} (he : e ∈ ai_table) :
    activeMinSum e.parts = partsMinSum e := by
  have h := entryWF_of_mem he
  simp only [entryWF, Bool.and_eq_true] at h
  simpa using h.1.1.1.2

/-- The sentinel-bounded maxima sum agrees with the all-parts sum. -/
theorem entry_activeMax {e : AIEntry} (he : e ∈ ai_table) :
    activeMaxSum e.parts = partsMaxSum e := by
  have h := entryWF_of_mem he
  simp only [entryWF, Bool.and_eq_true] at h
  simpa using h.1.1.2

/-- The `fnc1` field equals the recomputed FNC1 requirement
(`fixedAIprefixes` non-membership of the key's two-digit prefix). -/
theorem entry_fnc1_eq {e : AIEntry} (he : e ∈ ai_table) :
    e.fnc1 = !(fixedAIprefixes.any (fun f => e.ai.take 2 == f)) := by
  have h := entryWF_of_mem he
  simp only [entryWF, Bool.and_eq_true] at h
  simpa using h.1.2

/-- Fixed-length entries have equal minimum and maximum total lengths. -/
theorem entry_fixed_minmax {e : AIEntry} (he : e ∈ ai_table) (hf : e.fnc1 = false) :
    partsMinSum e = partsMaxSum e := by
  have h := entryWF_of_mem he
  simp only [entryWF, Bool.and_eq_true] at h
  have := h.2
  rw [hf] at this
  simpa using this

/-- A registry key never contains `#` (its characters are digits). -/
theorem entry_ai_no_hash {e : AIEntry} (he : e ∈ ai_table) : '#' ∉ e.ai := by
  intro hc
  have := entry_ai_digits he '#' hc
  simp at this

end GS1

namespace GS1

/-! ### C3: the mod-10 check-digit routine -/

/-- Weight of position `i` in the claim's description: 3 and 1
alternate, with the leftmost digit (position 0) weighted 3 when the
string length is even and 1 when it is odd. -/
def c3Weight (n i : Nat) : Nat := if i % 2 == n % 2 then 3 else 1

/-- The claim's weighted sum over the digits preceding the check
digit. -/
def c3Sum (s : List Char) : Nat :=
  ((List.range (s.length - 1)).map
    (fun i => c3Weight s.length i * ((s.getD i '0').toNat - 48))).sum

/-- The claim's check digit: `(10 - (sum mod 10)) mod 10`. -/
def c3CheckDigit (s : List Char) : Nat := (10 - c3Sum s % 10) % 10

/-- Alternating-weight sum, starting with weight `w`. -/
def natAltSum : Nat → List Nat → Nat
  | _, [] => 0
  | w, d :: t => w * d + natAltSum (4 - w) t

/-- The parity loop computes the alternating sum of the digit values of
all but the last character. -/
theorem parityLoop_eq_natAltSum :
    ∀ (s : List Char) (p : Int) (w : Nat), (w = 3 ∨ w = 1) →
      (∀ c ∈ s, 48 ≤ c.toNat ∧ c.toNat ≤ 57) →
      parityLoop p (w : Int) s =
        p + (natAltSum w (s.dropLast.map (fun c => c.toNat - 48)) : Int) := by
  intro s
  induction s with
  | nil => intro p w _ _; simp [parityLoop, natAltSum]
  | cons c t ih =>
      intro p w hw hd
      cases t with
      | nil => simp [parityLoop, natAltSum]
      | cons d t2 =>
          have hc : 48 ≤ c.toNat ∧ c.toNat ≤ 57 := hd c (by simp)
          have hrec := ih (p + (w : Int) * ((c.toNat : Int) - 48)) (4 - w)
            (by omega) (fun x hx => hd x (List.mem_cons_of_mem _ hx))
          have hcast : ((4 - w : Nat) : Int) = 4 - (w : Int) := by omega
          rw [show parityLoop p (w : Int) (c :: d :: t2) =
              parityLoop (p + (w : Int) * ((c.toNat : Int) - 48)) (4 - (w : Int))
                (d :: t2) from rfl, ← hcast, hrec]
          have hdig : ((c.toNat : Int) - 48) = ((c.toNat - 48 : Nat) : Int) := by omega
          simp only [List.dropLast_cons_of_ne_nil (List.cons_ne_nil d t2),
            List.map_cons, natAltSum]
          push_cast
          rw [hdig]
          push_cast
          ring

/-- Indexed-sum decomposition of a mapped range. -/
theorem range_map_sum_succ (n : Nat) (f : Nat → Nat) :
    ((List.range (n + 1)).map f).sum = f 0 + ((List.range n).map (fun i => f (i + 1))).sum := by
  rw [List.range_succ_eq_map, List.map_cons, List.sum_cons, List.map_map]
  rfl

/-- The alternating sum as an indexed sum over positions (for weights
that stay below 4, as 3 and 1 do). -/
theorem natAltSum_eq_range :
    ∀ (l : List Nat) (w : Nat), w ≤ 4 →
      natAltSum w l =
        ((List.range l.length).map
          (fun i => (if i % 2 == 0 then w else 4 - w) * l.getD i 0)).sum := by
  intro l
  induction l with
  | nil => intro w _; simp [natAltSum]
  | cons d t ih =>
      intro w hw
      rw [natAltSum, ih (4 - w) (by omega), List.length_cons, range_map_sum_succ]
      congr 1
      refine congrArg List.sum (List.map_congr_left fun i _ => ?_)
      have h4 : 4 - (4 - w) = w := by omega
      rcases Nat.mod_two_eq_zero_or_one i with h | h
      · have h1 : (i + 1) % 2 = 1 := by omega
        simp [h, h1, h4]
      · have h1 : (i + 1) % 2 = 0 := by omega
        simp [h, h1, h4]

/-- The parity loop of `gs1_validateParity` computes exactly the claim's
weighted sum. -/
theorem parityLoop_eq_c3Sum (s : List Char) (hne : s ≠ [])
    (hd : ∀ c ∈ s, 48 ≤ c.toNat ∧ c.toNat ≤ 57) :
    parityLoop 0 (if s.length % 2 == 0 then (3 : Int) else 1) s = (c3Sum s : Int) := by
  have hw : (if s.length % 2 == 0 then (3 : Int) else 1) =
      ((if s.length % 2 == 0 then (3 : Nat) else 1 : Nat) : Int) := by
    split <;> simp
  rw [hw, parityLoop_eq_natAltSum s 0 _ (by split <;> omega) hd,
    natAltSum_eq_range _ _ (by split <;> omega)]
  rw [Int.zero_add, Int.ofNat_inj]
  unfold c3Sum
  rw [List.length_map, List.length_dropLast]
  congr 1
  apply List.map_congr_left
  intro i hi
  rw [List.mem_range] at hi
  have hgd : (s.dropLast.map (fun c => c.toNat - 48)).getD i 0 =
      (s.getD i '0').toNat - 48 := by
    have hilt : i < s.dropLast.length := by simp; omega
    rw [List.getD_eq_getElem _ _ (by simpa using hilt)]
    rw [List.getElem_map]
    rw [List.getElem_dropLast]
    rw [List.getD_eq_getElem _ _ (by omega)]
  rw [hgd]
  rcases Nat.mod_two_eq_zero_or_one i with hi2 | hi2 <;>
    rcases Nat.mod_two_eq_zero_or_one s.length with hs2 | hs2 <;>
      simp [c3Weight, hi2, hs2]

end GS1

namespace GS1

/-- C3: For every non-empty digit string `s`, `gs1_validateParity s`
returns true iff the last character of `s` equals the GS1 mod-10 check
digit computed over the preceding digits with weights alternating 3 and
1 (leftmost weighted 3 when the length is even, 1 when odd) and check
digit `(10 - (sum mod 10)) mod 10`; when it returns true the buffer is
unchanged, and whenever it returns false it has overwritten the final
byte with the computed digit. -/
theorem C3_validateParity (s : List Char) (hne : s ≠ [])
    (hd : ∀ c ∈ s, 48 ≤ c.toNat ∧ c.toNat ≤ 57) :
    ((gs1_validateParity s).1 = true ↔ (s.getLast hne).toNat = c3CheckDigit s + 48)
    ∧ ((gs1_validateParity s).1 = true → (gs1_validateParity s).2 = s)
    ∧ ((gs1_validateParity s).1 = false →
        (gs1_validateParity s).2 = s.dropLast ++ [Char.ofNat (c3CheckDigit s + 48)]) := by
  have hsum := parityLoop_eq_c3Sum s hne hd
  have htm1 : (c3Sum s : Int).tmod 10 = (c3Sum s : Int) % 10 :=
    Int.tmod_eq_emod (Int.ofNat_nonneg _) (by norm_num)
  have hcastmod : (c3Sum s : Int) % 10 = ((c3Sum s % 10 : Nat) : Int) := by
    push_cast
    rfl
  have hkey : ((10 : Int) - (c3Sum s : Int).tmod 10).tmod 10 = (c3CheckDigit s : Int) := by
    rw [htm1]
    have h2 : ((10 : Int) - (c3Sum s : Int) % 10).tmod 10 =
        ((10 : Int) - (c3Sum s : Int) % 10) % 10 := by
      refine Int.tmod_eq_emod ?_ (by norm_num)
      rw [hcastmod]
      have := Nat.mod_lt (c3Sum s) (y := 10) (by omega)
      omega
    rw [h2, hcastmod]
    unfold c3CheckDigit
    omega
  have hlast : s.getLast? = Option.some (s.getLast hne) := List.getLast?_eq_getLast s hne
  simp only [gs1_validateParity]
  rw [hsum, hkey, hlast]
  have hiff : ((c3CheckDigit s : Int) + 48 == (((s.getLast hne).toNat : Nat) : Int)) = true ↔
      (s.getLast hne).toNat = c3CheckDigit s + 48 := by
    rw [beq_iff_eq]
    omega
  split
  case h_1 hc => simp at hc
  case h_2 last hc =>
    rw [Option.some.injEq] at hc
    subst hc
    split
    case isTrue hc2 =>
      try simp only [beq_iff_eq] at hc2
      have hp2 : (s.getLast hne).toNat = c3CheckDigit s + 48 := by omega
      exact ⟨⟨fun _ => hp2, fun _ => rfl⟩, fun _ => rfl, fun h => by simp at h⟩
    case isFalse hc2 =>
      try simp only [beq_iff_eq] at hc2
      have hp : ¬ (s.getLast hne).toNat = c3CheckDigit s + 48 := by omega
      refine ⟨⟨fun h => by simp at h, fun hp2 => absurd hp2 hp⟩,
        fun h => by simp at h, fun _ => ?_⟩
      have heq : ((c3CheckDigit s : Int) + 48).toNat = c3CheckDigit s + 48 := by omega
      simp only [heq]

/-- Witness for C3 at the concrete failing GTIN-14 from the unit tests:
the check digit of "2401234567890" context is 5, the final byte 9 is
wrong and gets overwritten. -/
theorem C3_validateParity_witness :
    (gs1_validateParity (String.data "24012345678909")).1 = false ∧
    (gs1_validateParity (String.data "24012345678909")).2 =
      (String.data "24012345678909").dropLast ++
        [Char.ofNat (c3CheckDigit (String.data "24012345678909") + 48)] :=
  ⟨by decide,
    (C3_validateParity (String.data "24012345678909") (by decide) (by decide)).2.2
      (by decide)⟩

end GS1

namespace GS1

/-- C8: for every two distinct entries of the AI registry, neither key
is a prefix of the other; consequently the entry returned by
`lookupAIentry` (exact-length match when `ailen > 0`, prefix match when
`ailen == 0`) is uniquely determined by its input: any entry matching
the input is the one returned, independently of the table order. -/
theorem C8_registry_prefix_free :
    (∀ e1 ∈ ai_table, ∀ e2 ∈ ai_table, e1 ≠ e2 →
        ¬ e1.ai <+: e2.ai ∧ ¬ e2.ai <+: e1.ai)
    ∧ (∀ (p : List Char) (ailen : Nat) (e : AIEntry), e ∈ ai_table →
        (ailen = 0 ∨ ailen = e.ai.length) → p.take e.ai.length = e.ai →
        lookupAIentry p ailen = Option.some e) := by
  constructor
  · intro e1 h1 e2 h2 hne
    constructor
    · intro hpre
      have hno := ai_table_nonoverlap e1 h1 e2 h2 hne
      rw [← List.isPrefixOf_iff_prefix] at hpre
      rw [hpre] at hno
      cases hno
    · intro hpre
      have hno := ai_table_nonoverlap e2 h2 e1 h1 (fun h => hne h.symm)
      rw [← List.isPrefixOf_iff_prefix] at hpre
      rw [hpre] at hno
      cases hno
  · intro p ailen e he halen htake
    rcases halen with rfl | rfl
    · have hpre : e.ai <+: p := List.prefix_iff_eq_take.mpr htake.symm
      obtain ⟨t, rfl⟩ := hpre
      exact lookupAIentry_self_prefix he t
    · have hne0 : e.ai.length ≠ 0 := by
        intro h0
        exact entry_ai_ne_nil he (List.length_eq_zero.mp h0)
      unfold lookupAIentry
      apply find?_eq_some_of_unique he
      · simp only [bne_self_eq_false, Bool.and_false, Bool.not_false, Bool.true_and]
        rw [if_pos (Nat.pos_of_ne_zero hne0)]
        exact beq_iff_eq.mpr htake
      · intro y hy hpy
        simp only [Bool.and_eq_true, Bool.not_eq_eq_eq_not, Bool.not_true,
          Bool.and_eq_false_iff, bne_eq_false_iff_eq] at hpy
        obtain ⟨hlen, htk⟩ := hpy
        have hylen : y.ai.length = e.ai.length := by
          rcases hlen with h | h
          · exact absurd h hne0
          · exact h.symm
        rw [if_pos (Nat.pos_of_ne_zero hne0)] at htk
        have hyai : y.ai = e.ai := by
          have h1 : p.take e.ai.length = y.ai := beq_iff_eq.mp htk
          rw [htake] at h1
          exact h1.symm
        by_contra hne
        have hno := ai_table_nonoverlap y hy e he hne
        have : y.ai.isPrefixOf e.ai = true := by
          rw [List.isPrefixOf_iff_prefix, hyai]
        rw [this] at hno
        cases hno

end GS1

namespace GS1

/-- The registry entry for AI (37). -/
def aiEntry37 : AIEntry := AI "37" FNC1 (P .N 1 8 []) C0 C0 C0 C0 "COUNT"

/-- The registry entry for AI (3910). -/
def aiEntry3910 : AIEntry :=
  AI "3910" FNC1 (P .N 3 3 []) (P .N 1 15 []) C0 C0 C0 "AMOUNT"

/-- Witness for C8: "37" and "3910" do not overlap, and prefix lookup on
data starting with "37" returns the (37) entry. -/
theorem C8_registry_prefix_free_witness :
    (¬ aiEntry37.ai <+: aiEntry3910.ai ∧ ¬ aiEntry3910.ai <+: aiEntry37.ai) ∧
    lookupAIentry (String.data "3712345") 0 = Option.some aiEntry37 :=
  ⟨C8_registry_prefix_free.1 aiEntry37 (by decide) aiEntry3910 (by decide) (by decide),
   C8_registry_prefix_free.2 (String.data "3712345") 0 aiEntry37 (by decide)
     (Or.inl rfl) (by decide)⟩

end GS1

namespace GS1

/-- The registry entry for AI (01). -/
def aiEntryGTIN : AIEntry := AI "01" NO_FNC1 (P .N 14 14 [.csum]) C0 C0 C0 C0 "GTIN"

/-- C7: in `gs1_processAIdata`, after consuming an AI\x27s validated value,
(i) if the AI requires FNC1 and the next character is neither `#` nor
end-of-string the parse fails with "AI (...) data is too long";
(ii) a single `#` immediately following the value is consumed and the
parse continues — for any AI, also a fixed-length one; and
(iii) in particular the element string "#0112345678901231#" is
accepted. -/
theorem C7_fnc1_separator :
    (∀ (fuel : Nat) (ctx : GS1Encoder) (c : Char) (rest : List Char) (entry : AIEntry)
        (ctx1 : GS1Encoder) (vallen : Nat) (d : Char) (rest2 : List Char),
        lookupAIentry (c :: rest) 0 = Option.some entry →
        validate_ai_val ctx entry
            (((c :: rest).drop entry.ai.length).takeWhile (fun ch => ch ≠ '#')) =
          (ctx1, vallen) →
        vallen ≠ 0 →
        ctx1.aiData.length < MAX_AIS →
        entry.fnc1 = true →
        ((c :: rest).drop entry.ai.length).drop vallen = d :: rest2 →
        d ≠ '#' →
        processAIsGo (fuel + 1) ctx (c :: rest) =
          (setErr { ctx1 with aiData := ctx1.aiData ++
              [⟨entry, ((c :: rest).drop entry.ai.length).take vallen⟩] }
            ("AI (" ++ aiStr entry ++ ") data is too long"), false))
    ∧ (∀ (fuel : Nat) (ctx : GS1Encoder) (c : Char) (rest : List Char) (entry : AIEntry)
        (ctx1 : GS1Encoder) (vallen : Nat) (rest2 : List Char),
        lookupAIentry (c :: rest) 0 = Option.some entry →
        validate_ai_val ctx entry
            (((c :: rest).drop entry.ai.length).takeWhile (fun ch => ch ≠ '#')) =
          (ctx1, vallen) →
        vallen ≠ 0 →
        ctx1.aiData.length < MAX_AIS →
        ((c :: rest).drop entry.ai.length).drop vallen = '#' :: rest2 →
        processAIsGo (fuel + 1) ctx (c :: rest) =
          processAIsGo fuel { ctx1 with aiData := ctx1.aiData ++
              [⟨entry, ((c :: rest).drop entry.ai.length).take vallen⟩] } rest2)
    ∧ gs1_processAIdata ⟨"", false, []⟩ (String.data "#0112345678901231#") =
        (⟨"", false, [⟨aiEntryGTIN, String.data "12345678901231"⟩]⟩, true) := by
  refine ⟨?_, ?_, by decide⟩
  · intro fuel ctx c rest entry ctx1 vallen d rest2 hlook hval hv0 hcap hf hdrop hd
    simp only [processAIsGo, hlook, hval]
    rw [if_neg hv0, if_pos hcap, hdrop]
    have hcond : (entry.fnc1 && !((d :: rest2).head? == Option.some '#')
        && !(d :: rest2).isEmpty) = true := by
      simp [hf, hd]
    rw [if_pos hcond]
  · intro fuel ctx c rest entry ctx1 vallen rest2 hlook hval hv0 hcap hdrop
    simp only [processAIsGo, hlook, hval]
    rw [if_neg hv0, if_pos hcap, hdrop]
    rw [if_neg (by simp)]
    simp

/-- The registry entry for AI (10). -/
def aiEntry10 : AIEntry := AI "10" FNC1 (P .X 1 20 []) C0 C0 C0 C0 "BATCH/LOT"

/-- Witness for C7: on "10ABC#991234" the separator after the (10) value
is consumed and processing continues on the remainder. -/
theorem C7_fnc1_separator_witness :
    processAIsGo 13 ⟨"", false, []⟩ (String.data "10ABC#991234") =
      processAIsGo 12 ⟨"", false, [⟨aiEntry10, String.data "ABC"⟩]⟩
        (String.data "991234") :=
  C7_fnc1_separator.2.1 12 ⟨"", false, []⟩ '1' (String.data "0ABC#991234")
    aiEntry10 ⟨"", false, []⟩ 3 (String.data "991234")
    (by decide) (by decide) (by decide) (by decide) (by decide)

/-- A successful bounded append returns the concatenation. -/
theorem writeDataStr_ok {ds v ds1 : List Char}
    (h : writeDataStr ds v = Except.ok ds1) : ds1 = ds ++ v := by
  unfold writeDataStr at h
  split at h
  · simp at h
  · simpa using h.symm

/-- A successful length-bounded append returns the concatenation of the
NUL-truncated prefix. -/
theorem nwriteDataStr_ok {ds v : List Char} {l : Nat} {ds1 : List Char}
    (h : nwriteDataStr ds v l = Except.ok ds1) :
    ds1 = ds ++ (v.takeWhile (fun ch => ch ≠ Char.ofNat 0)).take l := by
  unfold nwriteDataStr at h
  split at h
  · simp at h
  · simpa using h.symm

/-- `takeWhile` keeps a list all of whose elements satisfy the predicate. -/
theorem takeWhile_of_all {p : Char → Bool} :
    ∀ {l : List Char}, (∀ c ∈ l, p c = true) → l.takeWhile p = l
  | [], _ => rfl
  | a :: t, h => by
    rw [List.takeWhile_cons, if_pos (h a (List.mem_cons_self a t))]
    rw [takeWhile_of_all (fun c hc => h c (List.mem_cons_of_mem a hc))]

/-- The GTIN padding loop produces the zero-left-padded value. -/
theorem gtinPad_eq_pad {aival : List Char} {n : Nat} (hlen : aival.length = n)
    (hle : n ≤ 14) :
    (List.range 14).map (fun j =>
        if 14 - j ≤ n then aival.getD (n - (14 - j)) '0' else '0') =
      List.replicate (14 - n) '0' ++ aival := by
  apply List.ext_getElem
  · simp only [List.length_map, List.length_range, List.length_append,
      List.length_replicate, hlen]
    omega
  · intro i h1 h2
    simp only [List.length_map, List.length_range] at h1
    simp only [List.getElem_map, List.getElem_range, List.getElem_append,
      List.length_replicate]
    by_cases hc : 14 - i ≤ n
    · rw [if_pos hc, dif_neg (by omega)]
      rw [List.getD_eq_getElem _ _ (by omega)]
      congr 1
      omega
    · rw [if_neg hc, dif_pos (by omega), List.getElem_replicate]

/-- C5: in the shared DL value-writing block, a percent-decoded AI (01)
value of length 8, 12 or 13 is left-padded with zeros to exactly 14
digits in the output element string; a value of length 14 is passed
through unchanged; a value of length 9, 10, 11 or of length at least 15
is rejected; and concretely the DL URI "https://a/01/02345673" parses to
"#0100000002345673" while "https://a/01/123456789" fails. -/
theorem C5_gtin_padding :
    (∀ (fromQuery : Bool) (ds : List Char) (fnc1req : Bool)
        (rawVal ds2 : List Char) (f : Bool),
      (URIunescape MAX_AI_LEN rawVal).contains (Char.ofNat 0) = false →
      ((URIunescape MAX_AI_LEN rawVal).length = 8 ∨
       (URIunescape MAX_AI_LEN rawVal).length = 12 ∨
       (URIunescape MAX_AI_LEN rawVal).length = 13) →
      dlWriteAIval fromQuery ds fnc1req aiEntryGTIN rawVal = Except.ok (ds2, f) →
      ds2 = ds ++ (if fnc1req then ['#'] else []) ++ String.data "01" ++
        (List.replicate (14 - (URIunescape MAX_AI_LEN rawVal).length) '0' ++
          URIunescape MAX_AI_LEN rawVal))
    ∧ (∀ (fromQuery : Bool) (ds : List Char) (fnc1req : Bool)
        (rawVal ds2 : List Char) (f : Bool),
      (URIunescape MAX_AI_LEN rawVal).contains (Char.ofNat 0) = false →
      (URIunescape MAX_AI_LEN rawVal).length = 14 →
      dlWriteAIval fromQuery ds fnc1req aiEntryGTIN rawVal = Except.ok (ds2, f) →
      ds2 = ds ++ (if fnc1req then ['#'] else []) ++ String.data "01" ++
        URIunescape MAX_AI_LEN rawVal)
    ∧ (∀ (fromQuery : Bool) (ds : List Char) (fnc1req : Bool) (rawVal : List Char),
      ((URIunescape MAX_AI_LEN rawVal).length = 9 ∨
       (URIunescape MAX_AI_LEN rawVal).length = 10 ∨
       (URIunescape MAX_AI_LEN rawVal).length = 11 ∨
       15 ≤ (URIunescape MAX_AI_LEN rawVal).length) →
      ∃ m, dlWriteAIval fromQuery ds fnc1req aiEntryGTIN rawVal = Except.error m)
    ∧ gs1_parseDLuri ⟨"", false, []⟩ (String.data "https://a/01/02345673") =
        (⟨"", false, [⟨aiEntryGTIN, String.data "00000002345673"⟩]⟩, true,
          String.data "#0100000002345673")
    ∧ gs1_parseDLuri ⟨"", false, []⟩ (String.data "https://a/01/123456789") =
        (⟨"AI (01) value is too short", true, []⟩, false, []) := by
  refine ⟨?_, ?_, ?_, by decide, by decide⟩
  · intro fromQuery ds fnc1req rawVal ds2 f hnul hn hok
    have hn0 : ¬ (URIunescape MAX_AI_LEN rawVal).length = 0 := by rcases hn with h | h | h <;> omega
    simp only [dlWriteAIval] at hok
    rw [if_neg hn0] at hok
    have hpad : gtinPad aiEntryGTIN (URIunescape MAX_AI_LEN rawVal)
        (URIunescape MAX_AI_LEN rawVal).length =
        (List.replicate (14 - (URIunescape MAX_AI_LEN rawVal).length) '0' ++
          URIunescape MAX_AI_LEN rawVal, 14) := by
      unfold gtinPad
      rw [if_pos]
      · rw [gtinPad_eq_pad rfl (by omega)]
      · rcases hn with h | h | h <;> simp [h] <;> rfl
    rw [hpad] at hok
    split at hok
    · simp at hok
    · rename_i ds1 heq1
      split at hok
      · simp at hok
      · rename_i ds2a heq2
        split at hok
        · simp at hok
        · rename_i ds3 heq3
          split at hok
          · simp at hok
          · simp only [Except.ok.injEq, Prod.mk.injEq] at hok
            obtain ⟨h2, -⟩ := hok
            subst h2
            have e1 : ds1 = ds ++ (if fnc1req then ['#'] else []) := by
              cases fnc1req
              · simpa using heq1.symm
              · simpa using (writeDataStr_ok heq1)
            have e2 : ds2a = ds1 ++ String.data "01" := writeDataStr_ok heq2
            have e3 := nwriteDataStr_ok heq3
            rw [takeWhile_of_all] at e3
            · rw [List.take_of_length_le (by simp; omega)] at e3
              rw [e3, e2, e1]
            · intro c hc
              rcases List.mem_append.mp hc with h | h
              · rw [List.eq_of_mem_replicate h]; decide
              · simp only [ne_eq, decide_eq_true_eq]
                intro hcn
                rw [hcn] at h
                rw [List.contains_eq_any_beq] at hnul
                simp only [List.any_eq_false] at hnul
                exact hnul _ h (by simp)
  · intro fromQuery ds fnc1req rawVal ds2 f hnul hn hok
    simp only [dlWriteAIval] at hok
    rw [if_neg (by omega)] at hok
    have hpad : gtinPad aiEntryGTIN (URIunescape MAX_AI_LEN rawVal)
        (URIunescape MAX_AI_LEN rawVal).length =
        (URIunescape MAX_AI_LEN rawVal, 14) := by
      unfold gtinPad
      rw [if_neg, hn]
      simp [hn]
    rw [hpad] at hok
    split at hok
    · simp at hok
    · rename_i ds1 heq1
      split at hok
      · simp at hok
      · rename_i ds2a heq2
        split at hok
        · simp at hok
        · rename_i ds3 heq3
          split at hok
          · simp at hok
          · simp only [Except.ok.injEq, Prod.mk.injEq] at hok
            obtain ⟨h2, -⟩ := hok
            subst h2
            have e1 : ds1 = ds ++ (if fnc1req then ['#'] else []) := by
              cases fnc1req
              · simpa using heq1.symm
              · simpa using (writeDataStr_ok heq1)
            have e2 : ds2a = ds1 ++ String.data "01" := writeDataStr_ok heq2
            have e3 := nwriteDataStr_ok heq3
            rw [takeWhile_of_all] at e3
            · rw [List.take_of_length_le (by simpa using hn.le)] at e3
              rw [e3, e2, e1]
            · intro c hc
              simp only [ne_eq, decide_eq_true_eq]
              intro hcn
              rw [hcn] at hc
              rw [List.contains_eq_any_beq] at hnul
              simp only [List.any_eq_false] at hnul
              exact hnul _ hc (by simp)
  · intro fromQuery ds fnc1req rawVal hn
    simp only [dlWriteAIval]
    rw [if_neg (by omega)]
    have hpad : gtinPad aiEntryGTIN (URIunescape MAX_AI_LEN rawVal)
        (URIunescape MAX_AI_LEN rawVal).length =
        (URIunescape MAX_AI_LEN rawVal, (URIunescape MAX_AI_LEN rawVal).length) := by
      unfold gtinPad
      rw [if_neg]
      rcases hn with h | h | h | h <;> simp [h] <;> omega
    rw [hpad]
    split
    · exact ⟨_, rfl⟩
    · split
      · exact ⟨_, rfl⟩
      · split
        · exact ⟨_, rfl⟩
        · have hchk : ∃ msg, aiValLengthContentCheck aiEntryGTIN
              (URIunescape MAX_AI_LEN rawVal)
              (URIunescape MAX_AI_LEN rawVal).length = Option.some msg := by
            simp only [aiValLengthContentCheck]
            have hmin : ((aiEntryGTIN.parts.map (fun part => part.min)).sum) = 14 := by decide
            have hmax : ((aiEntryGTIN.parts.map (fun part => part.max)).sum) = 14 := by decide
            rw [hmin, hmax]
            rcases hn with h | h | h | h
            · rw [if_pos (by omega)]; exact ⟨_, rfl⟩
            · rw [if_pos (by omega)]; exact ⟨_, rfl⟩
            · rw [if_pos (by omega)]; exact ⟨_, rfl⟩
            · rw [if_neg (by omega), if_pos (by omega)]; exact ⟨_, rfl⟩
          obtain ⟨msg, hmsg⟩ := hchk
          rw [hmsg]
          exact ⟨_, rfl⟩

/-- Witness for C5: the 8-digit value "02345673" is padded to 14 digits
when written for AI (01). -/
theorem C5_gtin_padding_witness :
    (URIunescape MAX_AI_LEN (String.data "02345673")).length = 8 ∧
    String.data "#0100000002345673" =
      String.data "#" ++ (if false then ['#'] else []) ++ String.data "01" ++
        (List.replicate (14 - (URIunescape MAX_AI_LEN (String.data "02345673")).length) '0' ++
          URIunescape MAX_AI_LEN (String.data "02345673")) :=
  ⟨by decide,
   C5_gtin_padding.1 false (String.data "#") false (String.data "02345673")
     (String.data "#0100000002345673") false (by decide) (Or.inl (by decide))
     (by rfl)⟩

/-- The registry entry for AI (91). -/
def aiEntry91 : AIEntry := AI "91" FNC1 (P .X 1 90 []) C0 C0 C0 C0 "INTERNAL"

set_option maxRecDepth 8000 in
/-- C6: refuted — `URIunescape` silently truncates its output at
`MAX_AI_LEN` (= 90) characters and returns the truncated length, which
is non-zero for any non-empty value; the caller\x27s `vallen == 0` test
therefore never fires for an overlong value.  A query-parameter value of
101 characters is decoded to 90 characters and `gs1_parseDLuri`
succeeds with no error message, instead of failing with
"Decoded AI (...) too long". -/
theorem C6_decode_truncates_without_error :
    (URIunescape MAX_AI_LEN (List.replicate 101 'A')).length = MAX_AI_LEN ∧
    gs1_parseDLuri ⟨"", false, []⟩
        (String.data "https://a/01/12312312312333?91=" ++ List.replicate 101 'A') =
      (⟨"", false, [⟨aiEntryGTIN, String.data "12312312312333"⟩,
          ⟨aiEntry91, List.replicate 90 'A'⟩]⟩, true,
        String.data "#011231231231233391" ++ List.replicate 90 'A') :=
  ⟨by decide, by decide⟩

/-- `setErr` touches only the error fields. -/
theorem setErr_aiData (ctx : GS1Encoder) (m : String) :
    (setErr ctx m).aiData = ctx.aiData := rfl

/-- A linter never changes the extracted-AI list. -/
theorem runLinter_aiData (l : Linter) (ctx : GS1Encoder) (entry : AIEntry)
    (val : List Char) : (runLinter l ctx entry val).1.aiData = ctx.aiData := by
  cases l
  simp only [runLinter]
  split <;> rfl

/-- Running a linter list never changes the extracted-AI list. -/
theorem runLinters_aiData :
    ∀ (ls : List Linter) (ctx : GS1Encoder) (entry : AIEntry) (val : List Char),
      (runLinters ls ctx entry val).1.aiData = ctx.aiData
  | [], _, _, _ => rfl
  | l :: rest, ctx, entry, val => by
    simp only [runLinters]
    split
    · exact (runLinters_aiData rest _ entry val).trans (runLinter_aiData l ctx entry val)
    · exact runLinter_aiData l ctx entry val

/-- The numeric character-set linter never changes the extracted-AI list. -/
theorem lint_csetNumeric_aiData (ctx : GS1Encoder) (entry : AIEntry)
    (val : List Char) : (lint_csetNumeric ctx entry val).1.aiData = ctx.aiData := by
  unfold lint_csetNumeric
  split <;> rfl

/-- The CSET 82 linter never changes the extracted-AI list. -/
theorem lint_cset82_aiData (ctx : GS1Encoder) (entry : AIEntry)
    (val : List Char) : (lint_cset82 ctx entry val).1.aiData = ctx.aiData := by
  unfold lint_cset82
  split <;> rfl

/-- The component-validation loop never changes the extracted-AI list. -/
theorem validate_parts_aiData (entry : AIEntry) :
    ∀ (parts : List AIComponent) (ctx : GS1Encoder) (rem : List Char) (consumed : Nat),
      (validate_parts entry ctx parts rem consumed).1.aiData = ctx.aiData
  | [], _, _, _ => rfl
  | part :: rest, ctx, rem, consumed => by
    simp only [validate_parts]
    iterate 8 (all_goals try split)
    all_goals
      first
      | rfl
      | exact lint_csetNumeric_aiData _ _ _
      | exact lint_cset82_aiData _ _ _
      | exact (runLinters_aiData _ _ _ _).trans (lint_csetNumeric_aiData _ _ _)
      | exact (runLinters_aiData _ _ _ _).trans (lint_cset82_aiData _ _ _)
      | exact (validate_parts_aiData entry rest _ _ _).trans
          ((runLinters_aiData _ _ _ _).trans (lint_csetNumeric_aiData _ _ _))
      | exact (validate_parts_aiData entry rest _ _ _).trans
          ((runLinters_aiData _ _ _ _).trans (lint_cset82_aiData _ _ _))

/-- Value validation never changes the extracted-AI list. -/
theorem validate_ai_val_aiData (ctx : GS1Encoder) (entry : AIEntry) (v : List Char) :
    (validate_ai_val ctx entry v).1.aiData = ctx.aiData := by
  unfold validate_ai_val
  split
  · rfl
  · exact validate_parts_aiData entry entry.parts ctx v 0

/-- The extraction loop only appends to the extracted-AI list. -/
theorem processAIsGo_aiData :
    ∀ (fuel : Nat) (ctx : GS1Encoder) (p : List Char),
      ∃ L, (processAIsGo fuel ctx p).1.aiData = ctx.aiData ++ L := by
  intro fuel
  induction fuel with
  | zero =>
    intro ctx p
    cases p <;> exact ⟨[], by simp [processAIsGo]⟩
  | succ fuel ih =>
    intro ctx p
    cases p with
    | nil => exact ⟨[], by simp [processAIsGo]⟩
    | cons c rest =>
      simp only [processAIsGo]
      split
      · exact ⟨[], by simp [setErr_aiData]⟩
      · rename_i entry hlook
        generalize hV : validate_ai_val ctx entry
            (((c :: rest).drop entry.ai.length).takeWhile (fun ch => ch ≠ '#')) = V
        have hctx1 : V.1.aiData = ctx.aiData := by
          rw [← hV]
          exact validate_ai_val_aiData ctx entry _
        split
        · exact ⟨[], by simp [hctx1]⟩
        · split
          · split
            · exact ⟨[⟨entry, ((c :: rest).drop entry.ai.length).take V.2⟩],
                by simp [setErr_aiData, hctx1]⟩
            · obtain ⟨L, hL⟩ := ih _ _
              exact ⟨⟨entry, ((c :: rest).drop entry.ai.length).take V.2⟩ :: L,
                by rw [hL]; simp [hctx1]⟩
          · exact ⟨[], by simp [setErr_aiData, hctx1]⟩

/-- `gs1_processAIdata` clears only the error state and appends to the
extracted-AI list. -/
theorem gs1_processAIdata_aiData (ctx : GS1Encoder) (p : List Char) :
    ∃ L, (gs1_processAIdata ctx p).1.aiData = ctx.aiData ++ L := by
  unfold gs1_processAIdata
  cases p with
  | nil => exact ⟨[], by simp [setErr_aiData]⟩
  | cons c rest =>
    dsimp only
    split
    · exact ⟨[], by simp [setErr_aiData]⟩
    · split
      · exact ⟨[], by simp [setErr_aiData]⟩
      · exact processAIsGo_aiData _ _ rest

/-- `gs1_parseAIdata` appends to the extracted-AI list. -/
theorem gs1_parseAIdata_aiData (ctx : GS1Encoder) (s : List Char) :
    ∃ L, (gs1_parseAIdata ctx s).1.aiData = ctx.aiData ++ L := by
  unfold gs1_parseAIdata
  dsimp only
  split
  · exact gs1_processAIdata_aiData _ _
  · exact ⟨[], by simp [setErr_aiData]⟩

/-- `gs1_parseDLuri` appends to the extracted-AI list. -/
theorem gs1_parseDLuri_aiData (ctx : GS1Encoder) (u : List Char) :
    ∃ L, (gs1_parseDLuri ctx u).1.aiData = ctx.aiData ++ L := by
  unfold gs1_parseDLuri
  dsimp only
  split
  · exact gs1_processAIdata_aiData _ _
  · exact ⟨[], by simp [setErr_aiData]⟩

/-- C9: no core parse operation resets the extracted-AI list on entry:
`gs1_processAIdata`, `gs1_parseAIdata` and `gs1_parseDLuri` each leave
the incoming list as a prefix and only append to it, so two successive
parses on the same context accumulate the entries of both — concretely,
parsing "(01)12345678901231" and then "(10)12345" on the same context
yields the two extracted AIs in order. -/
theorem C9_no_aiData_reset :
    (∀ (ctx : GS1Encoder) (p : List Char),
      ∃ L, (gs1_processAIdata ctx p).1.aiData = ctx.aiData ++ L)
    ∧ (∀ (ctx : GS1Encoder) (s : List Char),
      ∃ L, (gs1_parseAIdata ctx s).1.aiData = ctx.aiData ++ L)
    ∧ (∀ (ctx : GS1Encoder) (u : List Char),
      ∃ L, (gs1_parseDLuri ctx u).1.aiData = ctx.aiData ++ L)
    ∧ (∀ (ctx : GS1Encoder) (s1 s2 : List Char),
      ∃ L1 L2, (gs1_parseAIdata ctx s1).1.aiData = ctx.aiData ++ L1 ∧
        (gs1_parseAIdata (gs1_parseAIdata ctx s1).1 s2).1.aiData =
          ctx.aiData ++ L1 ++ L2)
    ∧ gs1_parseAIdata (gs1_parseAIdata ⟨"", false, []⟩
          (String.data "(01)12345678901231")).1 (String.data "(10)12345") =
        (⟨"", false, [⟨aiEntryGTIN, String.data "12345678901231"⟩,
            ⟨aiEntry10, String.data "12345"⟩]⟩, true, String.data "#1012345") := by
  refine ⟨gs1_processAIdata_aiData, gs1_parseAIdata_aiData, gs1_parseDLuri_aiData,
    ?_, by decide⟩
  intro ctx s1 s2
  obtain ⟨L1, h1⟩ := gs1_parseAIdata_aiData ctx s1
  obtain ⟨L2, h2⟩ := gs1_parseAIdata_aiData (gs1_parseAIdata ctx s1).1 s2
  exact ⟨L1, L2, h1, by rw [h2, h1, List.append_assoc]⟩

/-- Memory-explicit `lint_csum`: the linter receives a pointer to a
byte buffer (in the source, always the local `compval` copy) and
`gs1_validateParity` may overwrite its final byte; the possibly-updated
buffer is returned alongside the result. -/
def runLinter_mem : Linter → GS1Encoder → AIEntry → List Char →
    GS1Encoder × Bool × List Char
  | Linter.csum, ctx, entry, val =>
    match gs1_validateParity val with
    | (true, val2) => (ctx, true, val2)
    | (false, val2) =>
        (setErr ctx ("AI (" ++ aiStr entry ++ "): Incorrect check digit"), false, val2)

/-- Memory-explicit linter loop: successive linters see the buffer as
left by their predecessors. -/
def runLinters_mem : List Linter → GS1Encoder → AIEntry → List Char →
    GS1Encoder × Bool × List Char
  | [], ctx, _, val => (ctx, true, val)
  | l :: rest, ctx, entry, val =>
    let res := runLinter_mem l ctx entry val
    if res.2.1 then runLinters_mem rest res.1 entry res.2.2 else res

/-- Memory-explicit component loop of `validate_ai_val`: `buf` is the
caller\x27s element string and the component occupies `[pos, fin)`.  Each
component is `strncpy`-copied into the fresh local buffer `compval` and
the linters run on that copy; the copy (with any linter writes) goes out
of scope at the end of the iteration, and the element string is
returned as the final component of the result. -/
def validate_parts_mem (entry : AIEntry) :
    GS1Encoder → List AIComponent → List Char → Nat → Nat → Nat →
      GS1Encoder × Nat × List Char
  | ctx, [], buf, _, _, consumed => (ctx, consumed, buf)
  | ctx, part :: rest, buf, pos, fin, consumed =>
    if part.cset = Cset.none then (ctx, consumed, buf)
    else
      let complen := if part.max < fin - pos then part.max else fin - pos
      let compval := (buf.drop pos).take complen
      if complen < part.min then
        (setErr ctx ("AI (" ++ aiStr entry ++ ") data is too short"), 0, buf)
      else
        let cres :=
          if part.cset = Cset.N then lint_csetNumeric ctx entry compval
          else lint_cset82 ctx entry compval
        if !cres.2 then (cres.1, 0, buf)
        else
          let lres := runLinters_mem part.linters cres.1 entry compval
          if !lres.2.1 then (lres.1, 0, buf)
          else validate_parts_mem entry lres.1 rest buf (pos + complen) fin (consumed + complen)

/-- Memory-explicit `validate_ai_val` on the region `[start, fin)` of
the element string `buf`. -/
def validate_ai_val_mem (ctx : GS1Encoder) (entry : AIEntry) (buf : List Char)
    (start fin : Nat) : GS1Encoder × Nat × List Char :=
  if fin - start = 0 then
    (setErr ctx ("AI (" ++ aiStr entry ++ ") data is empty"), 0, buf)
  else validate_parts_mem entry ctx entry.parts buf start fin 0

/-- Memory-explicit extraction loop: the element string `buf` stays in
place and `pos` plays the role of the cursor `p`; validation is invoked
on a region of `buf` and all later reads go through the buffer it
returns. -/
def processAIsGo_mem : Nat → GS1Encoder → List Char → Nat →
    GS1Encoder × Bool × List Char
  | 0, ctx, buf, pos => if buf.length ≤ pos then (ctx, true, buf) else (ctx, false, buf)
  | fuel + 1, ctx, buf, pos =>
    if buf.length ≤ pos then (ctx, true, buf)
    else
      match lookupAIentry (buf.drop pos) 0 with
      | Option.none =>
          (setErr ctx ("Unrecognised AI: " ++ String.mk ((buf.drop pos).take 4)),
            false, buf)
      | Option.some entry =>
        match validate_ai_val_mem ctx entry buf (pos + entry.ai.length)
            (pos + entry.ai.length +
              ((buf.drop (pos + entry.ai.length)).takeWhile (fun ch => ch ≠ '#')).length) with
        | (ctx1, vallen, buf1) =>
          if vallen = 0 then (ctx1, false, buf1)
          else
            if ctx1.aiData.length < MAX_AIS then
              let ctx2 := { ctx1 with aiData := ctx1.aiData ++
                [⟨entry, (buf1.drop (pos + entry.ai.length)).take vallen⟩] }
              if entry.fnc1 &&
                  !((buf1.drop (pos + entry.ai.length + vallen)).head? == Option.some '#') &&
                  !(buf1.drop (pos + entry.ai.length + vallen)).isEmpty then
                (setErr ctx2 ("AI (" ++ aiStr entry ++ ") data is too long"), false, buf1)
              else
                processAIsGo_mem fuel ctx2 buf1
                  (if (buf1.drop (pos + entry.ai.length + vallen)).head? == Option.some '#'
                    then pos + entry.ai.length + vallen + 1
                    else pos + entry.ai.length + vallen)
            else (setErr ctx1 "Too many AIs", false, buf1)

/-- Memory-explicit `gs1_processAIdata`: takes the element string as a
buffer and returns it (possibly modified) alongside the result. -/
def gs1_processAIdata_mem (ctx : GS1Encoder) (buf : List Char) :
    GS1Encoder × Bool × List Char :=
  let ctx0 : GS1Encoder := { ctx with errMsg := "", errFlag := false }
  match buf with
  | [] => (setErr ctx0 "Missing FNC1 in first position", false, buf)
  | c :: rest =>
    if c ≠ '#' then (setErr ctx0 "Missing FNC1 in first position", false, c :: rest)
    else if rest.isEmpty then (setErr ctx0 "The AI data is empty", false, c :: rest)
    else processAIsGo_mem (rest.length + 1) ctx0 (c :: rest) 1

/-- When the parity check succeeds the string is returned unchanged. -/
theorem gs1_validateParity_true {s v : List Char}
    (h : gs1_validateParity s = (true, v)) : v = s := by
  unfold gs1_validateParity at h
  split at h
  all_goals split at h
  all_goals try rw [ite_eq_iff] at h
  all_goals first
    | (simpa using h.symm)
    | (rcases h with ⟨-, h⟩ | ⟨-, h⟩ <;> simpa using h.symm)

/-- The memory-explicit linter loop computes the same context and
verdict as the pure one. -/
theorem runLinters_mem_agree :
    ∀ (ls : List Linter) (ctx : GS1Encoder) (entry : AIEntry) (val : List Char),
      (runLinters_mem ls ctx entry val).1 = (runLinters ls ctx entry val).1 ∧
      (runLinters_mem ls ctx entry val).2.1 = (runLinters ls ctx entry val).2
  | [], _, _, _ => ⟨rfl, rfl⟩
  | l :: rest, ctx, entry, val => by
    cases l
    simp only [runLinters_mem, runLinters, runLinter_mem, runLinter]
    cases hv : gs1_validateParity val with
    | mk b v2 =>
      cases b
      · simp
      · have hval : v2 = val := gs1_validateParity_true hv
        subst hval
        simpa using runLinters_mem_agree rest ctx entry v2

/-- The memory-explicit component loop never modifies the element
string. -/
theorem validate_parts_mem_buf (entry : AIEntry) (buf : List Char) (fin : Nat) :
    ∀ (parts : List AIComponent) (ctx : GS1Encoder) (pos consumed : Nat),
      (validate_parts_mem entry ctx parts buf pos fin consumed).2.2 = buf
  | [], _, _, _ => rfl
  | part :: rest, ctx, pos, consumed => by
    simp only [validate_parts_mem]
    iterate 6 (all_goals try split)
    all_goals first
      | rfl
      | exact validate_parts_mem_buf entry buf fin rest _ _ _

/-- Memory-explicit value validation never modifies the element
string. -/
theorem validate_ai_val_mem_buf (ctx : GS1Encoder) (entry : AIEntry)
    (buf : List Char) (start fin : Nat) :
    (validate_ai_val_mem ctx entry buf start fin).2.2 = buf := by
  unfold validate_ai_val_mem
  split
  · rfl
  · exact validate_parts_mem_buf entry buf fin entry.parts ctx start 0

/-- The memory-explicit component loop computes the same context and
consumed count as the pure one run on the region slice. -/
theorem validate_parts_mem_agree (entry : AIEntry) (buf : List Char) (fin : Nat)
    (hfin : fin ≤ buf.length) :
    ∀ (parts : List AIComponent) (ctx : GS1Encoder) (pos consumed : Nat),
      (validate_parts_mem entry ctx parts buf pos fin consumed).1 =
        (validate_parts entry ctx parts ((buf.drop pos).take (fin - pos)) consumed).1 ∧
      (validate_parts_mem entry ctx parts buf pos fin consumed).2.1 =
        (validate_parts entry ctx parts ((buf.drop pos).take (fin - pos)) consumed).2
  | [], _, _, _ => ⟨rfl, rfl⟩
  | part :: rest, ctx, pos, consumed => by
    have hlen : ((buf.drop pos).take (fin - pos)).length = fin - pos := by
      simp only [List.length_take, List.length_drop]
      omega
    simp only [validate_parts_mem, validate_parts, hlen]
    by_cases hnone : part.cset = Cset.none
    · rw [if_pos hnone, if_pos hnone]
      exact ⟨rfl, rfl⟩
    · rw [if_neg hnone, if_neg hnone]
      generalize hc : (if part.max < fin - pos then part.max else fin - pos) = complen
      have hcle : complen ≤ fin - pos := by
        rw [← hc]
        split <;> omega
      have hcompval : ((buf.drop pos).take (fin - pos)).take complen =
          (buf.drop pos).take complen := by
        rw [List.take_take]
        congr 1
        omega
      have hdrop : ((buf.drop pos).take (fin - pos)).drop complen =
          (buf.drop (pos + complen)).take (fin - (pos + complen)) := by
        rw [List.drop_take, List.drop_drop,
          (by omega : fin - pos - complen = fin - (pos + complen))]
      rw [hcompval, hdrop]
      by_cases hmin : complen < part.min
      · simp [if_pos hmin]
      · simp only [if_neg hmin]
        by_cases hN : part.cset = Cset.N
        · simp only [if_pos hN]
          cases hcres : (lint_csetNumeric ctx entry ((buf.drop pos).take complen)).2 with
          | false => simp [hcres]
          | true =>
            simp only [hcres, Bool.not_true, Bool.false_eq_true, if_false]
            obtain ⟨ha, hb⟩ := runLinters_mem_agree part.linters
              (lint_csetNumeric ctx entry ((buf.drop pos).take complen)).1
              entry ((buf.drop pos).take complen)
            rw [← hb, ← ha]
            cases hl : (runLinters_mem part.linters
                (lint_csetNumeric ctx entry ((buf.drop pos).take complen)).1
                entry ((buf.drop pos).take complen)).2.1 with
            | false => simp [hl]
            | true =>
              simp only [hl, Bool.not_true, Bool.false_eq_true, if_false]
              exact validate_parts_mem_agree entry buf fin hfin rest _ _ _
        · simp only [if_neg hN]
          cases hcres : (lint_cset82 ctx entry ((buf.drop pos).take complen)).2 with
          | false => simp [hcres]
          | true =>
            simp only [hcres, Bool.not_true, Bool.false_eq_true, if_false]
            obtain ⟨ha, hb⟩ := runLinters_mem_agree part.linters
              (lint_cset82 ctx entry ((buf.drop pos).take complen)).1
              entry ((buf.drop pos).take complen)
            rw [← hb, ← ha]
            cases hl : (runLinters_mem part.linters
                (lint_cset82 ctx entry ((buf.drop pos).take complen)).1
                entry ((buf.drop pos).take complen)).2.1 with
            | false => simp [hl]
            | true =>
              simp only [hl, Bool.not_true, Bool.false_eq_true, if_false]
              exact validate_parts_mem_agree entry buf fin hfin rest _ _ _

/-- Memory-explicit value validation computes the same context and
consumed count as the pure one run on the region slice. -/
theorem validate_ai_val_mem_agree (ctx : GS1Encoder) (entry : AIEntry)
    (buf : List Char) (start fin : Nat) (hfin : fin ≤ buf.length) :
    (validate_ai_val_mem ctx entry buf start fin).1 =
      (validate_ai_val ctx entry ((buf.drop start).take (fin - start))).1 ∧
    (validate_ai_val_mem ctx entry buf start fin).2.1 =
      (validate_ai_val ctx entry ((buf.drop start).take (fin - start))).2 := by
  unfold validate_ai_val_mem validate_ai_val
  have hlen : ((buf.drop start).take (fin - start)).length = fin - start := by
    simp only [List.length_take, List.length_drop]
    omega
  rw [hlen]
  by_cases h0 : fin - start = 0
  · rw [if_pos h0, if_pos h0]
    exact ⟨rfl, rfl⟩
  · rw [if_neg h0, if_neg h0]
    exact validate_parts_mem_agree entry buf fin hfin entry.parts ctx start 0

/-- The memory-explicit extraction loop never modifies the element
string. -/
theorem processAIsGo_mem_buf :
    ∀ (fuel : Nat) (ctx : GS1Encoder) (buf : List Char) (pos : Nat),
      (processAIsGo_mem fuel ctx buf pos).2.2 = buf := by
  intro fuel
  induction fuel with
  | zero =>
    intro ctx buf pos
    simp only [processAIsGo_mem]
    split <;> rfl
  | succ fuel ih =>
    intro ctx buf pos
    simp only [processAIsGo_mem]
    split
    · rfl
    · split
      · rfl
      · rename_i entry hlook
        simp only [validate_ai_val_mem_buf]
        split
        · rfl
        · split
          · split
            · rfl
            · exact ih _ _ _
          · rfl

/-- A successful prefix lookup returns a registry entry whose key starts
the data. -/
theorem lookupAIentry_entry_of_eq {p : List Char} {e : AIEntry}
    (h : lookupAIentry p 0 = Option.some e) : e ∈ ai_table ∧ e.ai <+: p := by
  rw [lookupAIentry_prefix_eq] at h
  refine ⟨List.mem_of_find?_eq_some h, ?_⟩
  have hp := List.find?_some h
  rw [← List.isPrefixOf_iff_prefix]
  simpa using hp

/-- The memory-explicit extraction loop computes the same context and
verdict as the pure loop run on the buffer suffix at the cursor. -/
theorem processAIsGo_mem_agree :
    ∀ (fuel : Nat) (ctx : GS1Encoder) (buf : List Char) (pos : Nat),
      (processAIsGo_mem fuel ctx buf pos).1 =
        (processAIsGo fuel ctx (buf.drop pos)).1 ∧
      (processAIsGo_mem fuel ctx buf pos).2.1 =
        (processAIsGo fuel ctx (buf.drop pos)).2 := by
  intro fuel
  induction fuel with
  | zero =>
    intro ctx buf pos
    simp only [processAIsGo_mem]
    by_cases hle : buf.length ≤ pos
    · rw [if_pos hle, List.drop_eq_nil_iff_le.mpr hle]
      exact ⟨rfl, rfl⟩
    · rw [if_neg hle]
      obtain ⟨c, rest, hd⟩ := List.exists_cons_of_ne_nil
        (by rw [ne_eq, List.drop_eq_nil_iff_le]; omega : buf.drop pos ≠ [])
      rw [hd]
      exact ⟨rfl, rfl⟩
  | succ fuel ih =>
    intro ctx buf pos
    simp only [processAIsGo_mem]
    by_cases hle : buf.length ≤ pos
    · rw [if_pos hle, List.drop_eq_nil_iff_le.mpr hle]
      exact ⟨rfl, rfl⟩
    · rw [if_neg hle]
      obtain ⟨c, rest, hd⟩ := List.exists_cons_of_ne_nil
        (by rw [ne_eq, List.drop_eq_nil_iff_le]; omega : buf.drop pos ≠ [])
      have hdk : ∀ k, buf.drop (pos + k) = (c :: rest).drop k := by
        intro k
        rw [← List.drop_drop, hd]
      rw [hd]
      simp only [processAIsGo]
      cases hlook : lookupAIentry (c :: rest) 0 with
      | none => exact ⟨rfl, rfl⟩
      | some entry =>
        dsimp only
        obtain ⟨hmem, hpre⟩ := lookupAIentry_entry_of_eq hlook
        have hlenc : (c :: rest).length = buf.length - pos := by
          rw [← hd, List.length_drop]
        have halen : entry.ai.length ≤ (c :: rest).length := hpre.length_le
        have htw : (((c :: rest).drop entry.ai.length).takeWhile
            (fun ch => ch ≠ '#')).length ≤ (c :: rest).length - entry.ai.length := by
          have h := (List.takeWhile_prefix
            (p := fun ch => decide (ch ≠ '#'))
            (l := (c :: rest).drop entry.ai.length)).length_le
          simpa using h
        have hfin : pos + entry.ai.length +
            (((c :: rest).drop entry.ai.length).takeWhile (fun ch => ch ≠ '#')).length ≤
            buf.length := by omega
        obtain ⟨hv1, hv2⟩ := validate_ai_val_mem_agree ctx entry buf
          (pos + entry.ai.length)
          (pos + entry.ai.length +
            (((c :: rest).drop entry.ai.length).takeWhile (fun ch => ch ≠ '#')).length)
          hfin
        have hslice : (buf.drop (pos + entry.ai.length)).take
            (pos + entry.ai.length +
              (((c :: rest).drop entry.ai.length).takeWhile (fun ch => ch ≠ '#')).length -
              (pos + entry.ai.length)) =
            ((c :: rest).drop entry.ai.length).takeWhile (fun ch => ch ≠ '#') := by
          rw [(by omega : pos + entry.ai.length +
              (((c :: rest).drop entry.ai.length).takeWhile (fun ch => ch ≠ '#')).length -
              (pos + entry.ai.length) =
              (((c :: rest).drop entry.ai.length).takeWhile (fun ch => ch ≠ '#')).length),
            hdk entry.ai.length]
          exact (List.prefix_iff_eq_take.mp (List.takeWhile_prefix _)).symm
        rw [hslice] at hv1 hv2
        have hbuf1 := validate_ai_val_mem_buf ctx entry buf (pos + entry.ai.length)
          (pos + entry.ai.length +
            (((c :: rest).drop entry.ai.length).takeWhile (fun ch => ch ≠ '#')).length)
        rw [hdk entry.ai.length]
        rw [hv1, hv2, hbuf1]
        try rw [hdk entry.ai.length]
        have hdk2 : buf.drop (pos + entry.ai.length +
            (validate_ai_val ctx entry
              (((c :: rest).drop entry.ai.length).takeWhile (fun ch => ch ≠ '#'))).2) =
            ((c :: rest).drop entry.ai.length).drop
              (validate_ai_val ctx entry
                (((c :: rest).drop entry.ai.length).takeWhile (fun ch => ch ≠ '#'))).2 := by
          rw [Nat.add_assoc, hdk, List.drop_drop]
        rw [hdk2]
        split
        · exact ⟨rfl, rfl⟩
        · split
          · split
            · exact ⟨rfl, rfl⟩
            · split
              · have h3 : (((c :: rest).drop entry.ai.length).drop
                    (validate_ai_val ctx entry
                      (((c :: rest).drop entry.ai.length).takeWhile
                        (fun ch => ch ≠ '#'))).2).drop 1 =
                    buf.drop (pos + entry.ai.length +
                      (validate_ai_val ctx entry
                        (((c :: rest).drop entry.ai.length).takeWhile
                          (fun ch => ch ≠ '#'))).2 + 1) := by
                  rw [← hdk2, List.drop_drop]
                rw [h3]
                exact ih _ _ _
              · rw [← hdk2]
                exact ih _ _ _
          · exact ⟨rfl, rfl⟩

/-- Memory-explicit `gs1_processAIdata` never modifies the element
string. -/
theorem gs1_processAIdata_mem_buf (ctx : GS1Encoder) (buf : List Char) :
    (gs1_processAIdata_mem ctx buf).2.2 = buf := by
  unfold gs1_processAIdata_mem
  cases buf with
  | nil => rfl
  | cons c rest =>
    dsimp only
    split
    · rfl
    · split
      · rfl
      · exact processAIsGo_mem_buf _ _ _ _

/-- Memory-explicit `gs1_processAIdata` computes the same context and
verdict as the pure embedding. -/
theorem gs1_processAIdata_mem_agree (ctx : GS1Encoder) (buf : List Char) :
    (gs1_processAIdata_mem ctx buf).1 = (gs1_processAIdata ctx buf).1 ∧
    (gs1_processAIdata_mem ctx buf).2.1 = (gs1_processAIdata ctx buf).2 := by
  unfold gs1_processAIdata_mem gs1_processAIdata
  cases buf with
  | nil => exact ⟨rfl, rfl⟩
  | cons c rest =>
    dsimp only
    split
    · exact ⟨rfl, rfl⟩
    · split
      · exact ⟨rfl, rfl⟩
      · have h := processAIsGo_mem_agree (rest.length + 1)
          { ctx with errMsg := "", errFlag := false } (c :: rest) 1
        simpa [processAIs] using h

/-- C10: validation never modifies the element string being processed.
`validate_ai_val` works on a `strncpy` copy of each component, so in
the memory-explicit model (which agrees with the pure embedding on the
context and verdict) both `validate_ai_val` and the whole
`gs1_processAIdata` return the element-string buffer byte-for-byte
unchanged — even on "#0112345678901234", where the mod-10 check-digit
linter fails and `gs1_validateParity` overwrites the final byte of the
copied component "12345678901234" it was given. -/
theorem C10_validation_copies :
    (∀ (ctx : GS1Encoder) (entry : AIEntry) (buf : List Char) (start fin : Nat),
      (validate_ai_val_mem ctx entry buf start fin).2.2 = buf)
    ∧ (∀ (ctx : GS1Encoder) (buf : List Char),
      (gs1_processAIdata_mem ctx buf).2.2 = buf)
    ∧ (∀ (ctx : GS1Encoder) (buf : List Char),
      (gs1_processAIdata_mem ctx buf).1 = (gs1_processAIdata ctx buf).1 ∧
      (gs1_processAIdata_mem ctx buf).2.1 = (gs1_processAIdata ctx buf).2)
    ∧ gs1_validateParity (String.data "12345678901234") =
        (false, String.data "12345678901231")
    ∧ gs1_processAIdata_mem ⟨"", false, []⟩ (String.data "#0112345678901234") =
        (⟨"AI (01): Incorrect check digit", true, []⟩, false,
          String.data "#0112345678901234") :=
  ⟨validate_ai_val_mem_buf, gs1_processAIdata_mem_buf, gs1_processAIdata_mem_agree,
    by decide, by decide⟩

/-- Modelled from the spec: the backward root scan as the spec words it
— peel the trailing `/value` pair and resolve the segment before it; if
the resolved AI is a DL primary key that pair is the root, and
*otherwise continue peeling* (also when the segment resolves to no AI
at all). -/
def dlFindRootSpecGo : Nat → List Char → Nat → Option Nat
  | 0, _, _ => Option.none
  | fuel + 1, pinfo, cutLen =>
    match strrchrIdx (pinfo.take cutLen) '/' with
    | Option.none => Option.none
    | Option.some r =>
      match strrchrIdx (pinfo.take r) '/' with
      | Option.none => Option.none
      | Option.some p =>
        match lookupAIentry (pinfo.drop (p + 1)) (r - p - 1) with
        | Option.none => dlFindRootSpecGo fuel pinfo p
        | Option.some entry =>
            if isDLpkey entry.ai then Option.some p else dlFindRootSpecGo fuel pinfo p

/-- Modelled from the spec: entry point of the spec-worded scan. -/
def dlFindRootSpec (pinfo : List Char) (cutLen : Nat) : Option Nat :=
  dlFindRootSpecGo (cutLen + 1) pinfo cutLen

set_option maxRecDepth 8000 in
/-- Counterexample for C4: in the path "/01/12312312312333/faux/ABC"
the code\x27s scan hits the unresolvable segment "faux" and stops (the C
`if (!entry) break;`), finding no root although the path contains the
DL-primary-key pair /01/12312312312333 further left — which the
spec-worded scan (continue peeling) does find; the whole DL parse
consequently fails. -/
theorem C4_root_scan_counterexample :
    dlFindRoot (String.data "/01/12312312312333/faux/ABC") 27 = Option.none ∧
    dlFindRootSpec (String.data "/01/12312312312333/faux/ABC") 27 = Option.some 0 ∧
    lookupAIentry ((String.data "/01/12312312312333/faux/ABC").drop 1) 2 =
      Option.some aiEntryGTIN ∧
    isDLpkey aiEntryGTIN.ai = true ∧
    gs1_parseDLuri ⟨"", false, []⟩
        (String.data "https://a/01/12312312312333/faux/ABC") =
      (⟨"No GS1 DL keys found in path info", true, []⟩, false, []) :=
  ⟨by decide, by decide, by decide, by decide, by decide⟩

/-- C4 (amended): the backward scan takes the trailing pair at `p` as
the root exactly when the segment before the peeled value resolves to a
DL primary key; it continues peeling only when the segment resolves to
an AI that is not a primary key; when the segment resolves to *no* AI
the scan stops without a root (the C `break`); every root it returns
resolves to a primary key; and whenever the scan finds no root the
build fails with "No GS1 DL keys found in path info". -/
theorem C4_dl_root_scan :
    (∀ (fuel : Nat) (pinfo : List Char) (cutLen r p : Nat) (entry : AIEntry),
      strrchrIdx (pinfo.take cutLen) '/' = Option.some r →
      strrchrIdx (pinfo.take r) '/' = Option.some p →
      lookupAIentry (pinfo.drop (p + 1)) (r - p - 1) = Option.some entry →
      (isDLpkey entry.ai = true →
        dlFindRootGo (fuel + 1) pinfo cutLen = Option.some p) ∧
      (isDLpkey entry.ai = false →
        dlFindRootGo (fuel + 1) pinfo cutLen = dlFindRootGo fuel pinfo p))
    ∧ (∀ (fuel : Nat) (pinfo : List Char) (cutLen r p : Nat),
      strrchrIdx (pinfo.take cutLen) '/' = Option.some r →
      strrchrIdx (pinfo.take r) '/' = Option.some p →
      lookupAIentry (pinfo.drop (p + 1)) (r - p - 1) = Option.none →
      dlFindRootGo (fuel + 1) pinfo cutLen = Option.none)
    ∧ (∀ (fuel : Nat) (pinfo : List Char) (cutLen dp : Nat),
      dlFindRootGo fuel pinfo cutLen = Option.some dp →
      ∃ (r : Nat) (entry : AIEntry),
        strrchrIdx (pinfo.take r) '/' = Option.some dp ∧
        lookupAIentry (pinfo.drop (dp + 1)) (r - dp - 1) = Option.some entry ∧
        isDLpkey entry.ai = true)
    ∧ (∀ (dlData p rest : List Char),
      dlData.all (fun ch => uriCharacters.contains ch) = true →
      dlAfterScheme dlData = Option.some p →
      dlDomainSplit p = Option.some rest →
      dlFindRoot (dlPathQuerySplit rest).1 (dlPathQuerySplit rest).1.length =
        Option.none →
      dlBuild dlData = Except.error "No GS1 DL keys found in path info") := by
  refine ⟨?_, ?_, ?_, ?_⟩
  · intro fuel pinfo cutLen r p entry h1 h2 h3
    constructor
    · intro hk
      simp only [dlFindRootGo, h1, h2, h3, hk, if_true]
    · intro hk
      simp only [dlFindRootGo, h1, h2, h3, hk, Bool.false_eq_true, if_false]
  · intro fuel pinfo cutLen r p h1 h2 h3
    simp only [dlFindRootGo, h1, h2, h3]
  · intro fuel
    induction fuel with
    | zero =>
      intro pinfo cutLen dp h
      simp [dlFindRootGo] at h
    | succ fuel ih =>
      intro pinfo cutLen dp h
      simp only [dlFindRootGo] at h
      split at h
      · simp at h
      · rename_i r h1
        split at h
        · simp at h
        · rename_i p h2
          split at h
          · simp at h
          · rename_i entry h3
            split at h
            · rename_i hk
              simp only [Option.some.injEq] at h
              subst h
              exact ⟨r, entry, h2, h3, hk⟩
            · exact ih pinfo p dp h
  · intro dlData p rest hall hsch hdom hroot
    unfold dlBuild
    rw [hall]
    simp only [Bool.not_true, Bool.false_eq_true, if_false, hsch, hdom, hroot]

/-- Witness for C4: on the path "/01/12312312312333" the pair at
position 0 resolves to AI (01), a DL primary key, and the scan returns
it as the root. -/
theorem C4_dl_root_scan_witness :
    dlFindRootGo 19 (String.data "/01/12312312312333") 18 = Option.some 0 :=
  (C4_dl_root_scan.1 18 (String.data "/01/12312312312333") 18 3 0 aiEntryGTIN
    (by decide) (by decide) (by decide)).1 (by decide)

/-- A string starting with a non-empty literal is non-empty. -/
theorem append_left_ne_empty {a : String} (ha : a.data ≠ []) (b : String) :
    a ++ b ≠ "" := by
  intro hab
  have hd := congrArg String.data hab
  simp only [String.data_append] at hd
  exact ha (List.append_eq_nil.mp hd).1

/-- Error messages of the form "AI (...)..." are non-empty. -/
theorem aiMsg_ne (s t : String) : "AI (" ++ s ++ t ≠ "" := by
  apply append_left_ne_empty
  simp only [String.data_append]
  intro h
  exact absurd (List.append_eq_nil.mp h).1 (by decide)

/-- A failed numeric character-set lint reports an error. -/
theorem lint_csetNumeric_fail {ctx : GS1Encoder} {entry : AIEntry} {v : List Char}
    (h : (lint_csetNumeric ctx entry v).2 = false) :
    (lint_csetNumeric ctx entry v).1.errMsg ≠ "" ∧
    (lint_csetNumeric ctx entry v).1.errFlag = true := by
  unfold lint_csetNumeric at h ⊢
  split at h
  · simp at h
  · rename_i hall
    rw [if_neg hall]
    exact ⟨aiMsg_ne _ _, rfl⟩

/-- A failed CSET 82 lint reports an error. -/
theorem lint_cset82_fail {ctx : GS1Encoder} {entry : AIEntry} {v : List Char}
    (h : (lint_cset82 ctx entry v).2 = false) :
    (lint_cset82 ctx entry v).1.errMsg ≠ "" ∧
    (lint_cset82 ctx entry v).1.errFlag = true := by
  unfold lint_cset82 at h ⊢
  split at h
  · simp at h
  · rename_i hall
    rw [if_neg hall]
    exact ⟨aiMsg_ne _ _, rfl⟩

/-- A successful numeric character-set lint leaves the context
untouched. -/
theorem lint_csetNumeric_ok {ctx : GS1Encoder} {entry : AIEntry} {v : List Char}
    (h : (lint_csetNumeric ctx entry v).2 = true) :
    (lint_csetNumeric ctx entry v).1 = ctx := by
  unfold lint_csetNumeric at h ⊢
  split at h
  · rename_i hall
    rw [if_pos hall]
  · simp at h

/-- A successful CSET 82 lint leaves the context untouched. -/
theorem lint_cset82_ok {ctx : GS1Encoder} {entry : AIEntry} {v : List Char}
    (h : (lint_cset82 ctx entry v).2 = true) :
    (lint_cset82 ctx entry v).1 = ctx := by
  unfold lint_cset82 at h ⊢
  split at h
  · rename_i hall
    rw [if_pos hall]
  · simp at h

/-- A failed linter reports an error. -/
theorem runLinter_fail {l : Linter} {ctx : GS1Encoder} {entry : AIEntry}
    {v : List Char} (h : (runLinter l ctx entry v).2 = false) :
    (runLinter l ctx entry v).1.errMsg ≠ "" ∧
    (runLinter l ctx entry v).1.errFlag = true := by
  cases l
  simp only [runLinter] at h ⊢
  by_cases hpar : (gs1_validateParity v).1 = true
  · rw [if_pos hpar] at h
    simp at h
  · rw [if_neg hpar]
    exact ⟨aiMsg_ne _ _, rfl⟩

/-- A successful linter leaves the context untouched. -/
theorem runLinter_ok {l : Linter} {ctx : GS1Encoder} {entry : AIEntry}
    {v : List Char} (h : (runLinter l ctx entry v).2 = true) :
    (runLinter l ctx entry v).1 = ctx := by
  cases l
  simp only [runLinter] at h ⊢
  by_cases hpar : (gs1_validateParity v).1 = true
  · rw [if_pos hpar]
  · rw [if_neg hpar] at h
    simp at h

/-- A successful linter chain leaves the context untouched. -/
theorem runLinters_ok :
    ∀ {ls : List Linter} {ctx : GS1Encoder} {entry : AIEntry} {v : List Char},
      (runLinters ls ctx entry v).2 = true → (runLinters ls ctx entry v).1 = ctx
  | [], _, _, _, _ => rfl
  | l :: rest, ctx, entry, v, h => by
    simp only [runLinters] at h ⊢
    by_cases hres : (runLinter l ctx entry v).2 = true
    · rw [if_pos hres] at h ⊢
      rw [runLinters_ok h, runLinter_ok hres]
    · rw [if_neg hres] at h
      simp at h

/-- A failed linter chain reports an error. -/
theorem runLinters_fail :
    ∀ {ls : List Linter} {ctx : GS1Encoder} {entry : AIEntry} {v : List Char},
      (runLinters ls ctx entry v).2 = false →
      (runLinters ls ctx entry v).1.errMsg ≠ "" ∧
      (runLinters ls ctx entry v).1.errFlag = true
  | [], _, _, _, h => by simp [runLinters] at h
  | l :: rest, ctx, entry, v, h => by
    simp only [runLinters] at h ⊢
    by_cases hres : (runLinter l ctx entry v).2 = true
    · rw [if_pos hres] at h ⊢
      exact runLinters_fail h
    · rw [if_neg hres]
      exact runLinter_fail (by simpa using hres)

/-- A zero result from the component loop is either a reported error or
the degenerate all-minima-zero pass. -/
theorem validate_parts_zero (entry : AIEntry) :
    ∀ (parts : List AIComponent) (ctx : GS1Encoder) (rem : List Char)
      (consumed : Nat) (ctxr : GS1Encoder),
      validate_parts entry ctx parts rem consumed = (ctxr, 0) →
      (ctxr.errMsg ≠ "" ∧ ctxr.errFlag = true) ∨
      (ctxr = ctx ∧ consumed = 0 ∧ activeMinSum parts = 0)
  | [], ctx, rem, consumed, ctxr, hv => by
    simp only [validate_parts, Prod.mk.injEq] at hv
    obtain ⟨h1, h2⟩ := hv
    subst h1
    exact Or.inr ⟨rfl, h2, rfl⟩
  | part :: rest, ctx, rem, consumed, ctxr, hv => by
    simp only [validate_parts] at hv
    split at hv
    · rename_i hnone
      simp only [Prod.mk.injEq] at hv
      obtain ⟨h1, h2⟩ := hv
      subst h1
      exact Or.inr ⟨rfl, h2, by rw [activeMinSum, if_pos hnone]⟩
    · rename_i hnone
      generalize hX : (if part.max < rem.length then part.max else rem.length) = X at hv
      by_cases hN : part.cset = Cset.N
      · rw [if_pos hN] at hv
        split at hv
        · simp only [Prod.mk.injEq] at hv
          obtain ⟨h1, -⟩ := hv
          subst h1
          exact Or.inl ⟨aiMsg_ne _ _, rfl⟩
        · rename_i hshort
          split at hv
          · rename_i hcres
            simp only [Prod.mk.injEq] at hv
            obtain ⟨h1, -⟩ := hv
            subst h1
            have hc2 : (lint_csetNumeric ctx entry (rem.take X)).2 = false := by
              first
              | exact hcres
              | simpa using hcres
            exact Or.inl (lint_csetNumeric_fail hc2)
          · rename_i hcres
            split at hv
            · rename_i hlin
              simp only [Prod.mk.injEq] at hv
              obtain ⟨h1, -⟩ := hv
              subst h1
              refine Or.inl (runLinters_fail ?_)
              first
              | exact hlin
              | simpa using hlin
            · rename_i hlin
              rcases validate_parts_zero entry rest _ _ _ _ hv with hL | ⟨hctx, hcons, hmins⟩
              · exact Or.inl hL
              · right
                have hl2 : (runLinters part.linters (lint_csetNumeric ctx entry (rem.take X)).1
                    entry (rem.take X)).2 = true := by
                  first
                  | exact hlin
                  | simpa using hlin
                have hc2 : (lint_csetNumeric ctx entry (rem.take X)).2 = true := by
                  first
                  | exact hcres
                  | simpa using hcres
                refine ⟨?_, by omega, ?_⟩
                · rw [hctx, runLinters_ok hl2, lint_csetNumeric_ok hc2]
                · rw [activeMinSum, if_neg hnone, hmins]
                  have := not_lt.mp hshort
                  omega
      · rw [if_neg hN] at hv
        split at hv
        · simp only [Prod.mk.injEq] at hv
          obtain ⟨h1, -⟩ := hv
          subst h1
          exact Or.inl ⟨aiMsg_ne _ _, rfl⟩
        · rename_i hshort
          split at hv
          · rename_i hcres
            simp only [Prod.mk.injEq] at hv
            obtain ⟨h1, -⟩ := hv
            subst h1
            have hc2 : (lint_cset82 ctx entry (rem.take X)).2 = false := by
              first
              | exact hcres
              | simpa using hcres
            exact Or.inl (lint_cset82_fail hc2)
          · rename_i hcres
            split at hv
            · rename_i hlin
              simp only [Prod.mk.injEq] at hv
              obtain ⟨h1, -⟩ := hv
              subst h1
              refine Or.inl (runLinters_fail ?_)
              first
              | exact hlin
              | simpa using hlin
            · rename_i hlin
              rcases validate_parts_zero entry rest _ _ _ _ hv with hL | ⟨hctx, hcons, hmins⟩
              · exact Or.inl hL
              · right
                have hl2 : (runLinters part.linters (lint_cset82 ctx entry (rem.take X)).1
                    entry (rem.take X)).2 = true := by
                  first
                  | exact hlin
                  | simpa using hlin
                have hc2 : (lint_cset82 ctx entry (rem.take X)).2 = true := by
                  first
                  | exact hcres
                  | simpa using hcres
                refine ⟨?_, by omega, ?_⟩
                · rw [hctx, runLinters_ok hl2, lint_cset82_ok hc2]
                · rw [activeMinSum, if_neg hnone, hmins]
                  have := not_lt.mp hshort
                  omega

/-- A zero result from value validation of a registry entry always
reports an error. -/
theorem validate_ai_val_zero {ctx : GS1Encoder} {entry : AIEntry} {v : List Char}
    {ctxr : GS1Encoder} (hmem : entry ∈ ai_table)
    (h : validate_ai_val ctx entry v = (ctxr, 0)) :
    ctxr.errMsg ≠ "" ∧ ctxr.errFlag = true := by
  unfold validate_ai_val at h
  split at h
  · simp only [Prod.mk.injEq] at h
    obtain ⟨h1, -⟩ := h
    subst h1
    exact ⟨aiMsg_ne _ _, rfl⟩
  · rcases validate_parts_zero entry entry.parts ctx v 0 ctxr h with hL | ⟨-, -, hmins⟩
    · exact hL
    · exfalso
      have h1 := entry_activeMin hmem
      have h2 := entry_minSum_pos hmem
      omega

/-- A failed run of the extraction loop always reports an error. -/
theorem processAIsGo_fail :
    ∀ (fuel : Nat) (ctx : GS1Encoder) (p : List Char) (ctxr : GS1Encoder),
      p.length < fuel →
      processAIsGo fuel ctx p = (ctxr, false) →
      ctxr.errMsg ≠ "" ∧ ctxr.errFlag = true
  | 0, _, _, _, hlen, _ => absurd hlen (by omega)
  | fuel + 1, ctx, p, ctxr, hlen, h => by
    cases p with
    | nil => simp [processAIsGo] at h
    | cons c rest =>
      simp only [processAIsGo] at h
      split at h
      · simp only [Prod.mk.injEq] at h
        obtain ⟨h1, -⟩ := h
        subst h1
        exact ⟨append_left_ne_empty (by decide) _, rfl⟩
      · rename_i entry hlook
        obtain ⟨hmem, hpre⟩ := lookupAIentry_entry_of_eq hlook
        split at h
        · rename_i hz
          simp only [Prod.mk.injEq] at h
          obtain ⟨h1, -⟩ := h
          subst h1
          exact validate_ai_val_zero hmem (by rw [← hz])
        · rename_i hz
          split at h
          · split at h
            · simp only [Prod.mk.injEq] at h
              obtain ⟨h1, -⟩ := h
              subst h1
              exact ⟨aiMsg_ne _ _, rfl⟩
            · have hai : 1 ≤ entry.ai.length :=
                List.length_pos.mpr (entry_ai_ne_nil hmem)
              refine processAIsGo_fail fuel _ _ _ ?_ h
              split <;> simp only [List.length_drop, List.length_cons] <;>
                simp only [List.length_cons] at hlen <;> omega
          · simp only [Prod.mk.injEq] at h
            obtain ⟨h1, -⟩ := h
            subst h1
            exact ⟨by dsimp only [setErr]; decide, rfl⟩

/-- A failed `gs1_processAIdata` always reports an error. -/
theorem gs1_processAIdata_fail {ctx : GS1Encoder} {p : List Char}
    {ctxr : GS1Encoder} (h : gs1_processAIdata ctx p = (ctxr, false)) :
    ctxr.errMsg ≠ "" ∧ ctxr.errFlag = true := by
  unfold gs1_processAIdata at h
  cases p with
  | nil =>
    simp only [Prod.mk.injEq] at h
    obtain ⟨h1, -⟩ := h
    subst h1
    exact ⟨by dsimp only [setErr]; decide, rfl⟩
  | cons c rest =>
    dsimp only at h
    split at h
    · simp only [Prod.mk.injEq] at h
      obtain ⟨h1, -⟩ := h
      subst h1
      exact ⟨by dsimp only [setErr]; decide, rfl⟩
    · split at h
      · simp only [Prod.mk.injEq] at h
        obtain ⟨h1, -⟩ := h
        subst h1
        exact ⟨by dsimp only [setErr]; decide, rfl⟩
      · rw [processAIs] at h
        exact processAIsGo_fail _ _ _ _ (by omega) h

/-- Clearing the error state before processing is idempotent. -/
theorem gs1_processAIdata_clear (ctx : GS1Encoder) (p : List Char) :
    gs1_processAIdata { ctx with errMsg := "", errFlag := false } p =
      gs1_processAIdata ctx p := rfl

/-- Counterexample for C2: on "(01)12345678901231(10)~A" the parse
fails in the processing stage, yet the extracted-AI list keeps the
already-extracted (01) entry and the output element string keeps the
built data — the failure is not all-or-nothing. -/
theorem C2_partial_failure_counterexample :
    gs1_parseAIdata ⟨"", false, []⟩ (String.data "(01)12345678901231(10)~A") =
      (⟨"AI (10): Incorrect CSET 82 character", true,
        [⟨aiEntryGTIN, String.data "12345678901231"⟩]⟩, false,
        String.data "#011234567890123110~A") ∧
    [⟨aiEntryGTIN, String.data "12345678901231"⟩] ≠ ([] : List ExtractedAI) ∧
    String.data "#011234567890123110~A" ≠ [] :=
  ⟨by decide, by decide, by decide⟩

/-- C2 (amended): every failing core parse operation sets `errFlag`,
leaves a non-empty diagnostic in `errMsg`, and leaves the incoming
extracted-AI list as a prefix of the final one (it may genuinely extend
it — the operations are not all-or-nothing); for the two string parsers
the output element string is either empty (build-stage failure) or the
fully built string that the processing stage then rejects. -/
theorem C2_failure_postconditions :
    (∀ (ctx : GS1Encoder) (p : List Char) (ctxr : GS1Encoder),
      gs1_processAIdata ctx p = (ctxr, false) →
      ctxr.errFlag = true ∧ ctxr.errMsg ≠ "" ∧
      ∃ L, ctxr.aiData = ctx.aiData ++ L)
    ∧ (∀ (ctx : GS1Encoder) (s : List Char) (ctxr : GS1Encoder) (out : List Char),
      gs1_parseAIdata ctx s = (ctxr, false, out) →
      ctxr.errFlag = true ∧ ctxr.errMsg ≠ "" ∧
      (∃ L, ctxr.aiData = ctx.aiData ++ L) ∧
      (out = [] ∨ (gs1_processAIdata ctx out).2 = false))
    ∧ (∀ (ctx : GS1Encoder) (u : List Char) (ctxr : GS1Encoder) (out : List Char),
      gs1_parseDLuri ctx u = (ctxr, false, out) →
      ctxr.errFlag = true ∧ ctxr.errMsg ≠ "" ∧
      (∃ L, ctxr.aiData = ctx.aiData ++ L) ∧
      (out = [] ∨ (gs1_processAIdata ctx out).2 = false)) := by
  refine ⟨?_, ?_, ?_⟩
  · intro ctx p ctxr h
    obtain ⟨hm, hf⟩ := gs1_processAIdata_fail h
    obtain ⟨L, hL⟩ := gs1_processAIdata_aiData ctx p
    rw [h] at hL
    exact ⟨hf, hm, L, hL⟩
  · intro ctx s ctxr out h
    unfold gs1_parseAIdata at h
    split at h
    · rename_i ds hds
      dsimp only at h
      simp only [Prod.mk.injEq] at h
      obtain ⟨h1, h2, h3⟩ := h
      subst h1
      subst h3
      have hpr : gs1_processAIdata { ctx with errMsg := "", errFlag := false } ds =
          ((gs1_processAIdata { ctx with errMsg := "", errFlag := false } ds).1,
            false) := by
        rw [Prod.ext_iff]
        exact ⟨rfl, h2⟩
      obtain ⟨hm, hf⟩ := gs1_processAIdata_fail hpr
      obtain ⟨L, hL⟩ := gs1_processAIdata_aiData
        { ctx with errMsg := "", errFlag := false } ds
      refine ⟨hf, hm, ⟨L, hL⟩, Or.inr ?_⟩
      rw [← gs1_processAIdata_clear ctx ds]
      exact h2
    · rename_i m hm
      dsimp only at h
      simp only [Prod.mk.injEq] at h
      obtain ⟨h1, -, h3⟩ := h
      subst h1
      subst h3
      refine ⟨rfl, ?_, ⟨[], by simp [setErr]⟩, Or.inl rfl⟩
      by_cases hm0 : m = ""
      · rw [if_pos hm0]
        dsimp only [setErr]
        decide
      · rw [if_neg hm0]
        exact hm0
  · intro ctx u ctxr out h
    unfold gs1_parseDLuri at h
    split at h
    · rename_i ds hds
      dsimp only at h
      simp only [Prod.mk.injEq] at h
      obtain ⟨h1, h2, h3⟩ := h
      subst h1
      subst h3
      have hpr : gs1_processAIdata { ctx with errMsg := "", errFlag := false } ds =
          ((gs1_processAIdata { ctx with errMsg := "", errFlag := false } ds).1,
            false) := by
        rw [Prod.ext_iff]
        exact ⟨rfl, h2⟩
      obtain ⟨hm, hf⟩ := gs1_processAIdata_fail hpr
      obtain ⟨L, hL⟩ := gs1_processAIdata_aiData
        { ctx with errMsg := "", errFlag := false } ds
      refine ⟨hf, hm, ⟨L, hL⟩, Or.inr ?_⟩
      rw [← gs1_processAIdata_clear ctx ds]
      exact h2
    · rename_i m hm
      dsimp only at h
      simp only [Prod.mk.injEq] at h
      obtain ⟨h1, -, h3⟩ := h
      subst h1
      subst h3
      refine ⟨rfl, ?_, ⟨[], by simp [setErr]⟩, Or.inl rfl⟩
      by_cases hm0 : m = ""
      · rw [if_pos hm0]
        dsimp only [setErr]
        decide
      · rw [if_neg hm0]
        exact hm0

/-- Witness for C2: the failing parse of "(01)12345678901231(10)~A"
satisfies the amended postconditions with a genuinely extended
extracted-AI list and a non-empty rejected output. -/
theorem C2_failure_postconditions_witness :
    (⟨"AI (10): Incorrect CSET 82 character", true,
        [⟨aiEntryGTIN, String.data "12345678901231"⟩]⟩ : GS1Encoder).errFlag = true ∧
    (⟨"AI (10): Incorrect CSET 82 character", true,
        [⟨aiEntryGTIN, String.data "12345678901231"⟩]⟩ : GS1Encoder).errMsg ≠ "" ∧
    (∃ L, (⟨"AI (10): Incorrect CSET 82 character", true,
        [⟨aiEntryGTIN, String.data "12345678901231"⟩]⟩ : GS1Encoder).aiData =
      ([] : List ExtractedAI) ++ L) ∧
    (String.data "#011234567890123110~A" = [] ∨
      (gs1_processAIdata ⟨"", false, []⟩
        (String.data "#011234567890123110~A")).2 = false) :=
  C2_failure_postconditions.2.1 ⟨"", false, []⟩
    (String.data "(01)12345678901231(10)~A")
    ⟨"AI (10): Incorrect CSET 82 character", true,
      [⟨aiEntryGTIN, String.data "12345678901231"⟩]⟩
    (String.data "#011234567890123110~A") (by decide)

/-- Any successful lookup returns a table entry. -/
theorem lookupAIentry_mem {p : List Char} {n : Nat} {e : AIEntry}
    (h : lookupAIentry p n = Option.some e) : e ∈ ai_table := by
  unfold lookupAIentry at h
  exact List.mem_of_find?_eq_some h

/-- The value scan only appends to the element string. -/
theorem valueScanGo_append :
    ∀ (fuel : Nat) (ds0 : List Char) (prev : Char) (r dsC pNext : List Char),
      valueScanGo fuel ds0 prev r = Except.ok (dsC, pNext) →
      ∃ v, dsC = ds0 ++ v
  | 0, _, _, _, _, _, h => by simp [valueScanGo] at h
  | fuel + 1, ds0, prev, r, dsC, pNext, h => by
    simp only [valueScanGo] at h
    split at h
    · split at h
      · simp at h
      · rename_i ds hw
        simp only [Except.ok.injEq, Prod.mk.injEq] at h
        obtain ⟨h1, -⟩ := h
        subst h1
        exact ⟨_, nwriteDataStr_ok hw⟩
    · rename_i k hk
      by_cases hesc : (if k = 0 then prev else r.getD (k - 1) ' ') = '\\'
      · rw [if_pos hesc] at h
        by_cases hk0 : k = 0
        · rw [if_pos hk0] at h
          simp at h
        · rw [if_neg hk0] at h
          split at h
          · simp at h
          · rename_i ds hw
            split at h
            · simp at h
            · rename_i ds2 hw2
              obtain ⟨v, hv⟩ := valueScanGo_append fuel ds2 '(' _ _ _ h
              refine ⟨(r.takeWhile (fun ch => ch ≠ Char.ofNat 0)).take (k - 1) ++
                ['('] ++ v, ?_⟩
              rw [hv, writeDataStr_ok hw2, nwriteDataStr_ok hw]
              simp [List.append_assoc]
      · rw [if_neg hesc] at h
        split at h
        · simp at h
        · rename_i ds hw
          simp only [Except.ok.injEq, Prod.mk.injEq] at h
          obtain ⟨h1, -⟩ := h
          subst h1
          exact ⟨_, nwriteDataStr_ok hw⟩

/-- `takeWhile` passes over a block of satisfying elements. -/
theorem takeWhile_append_all {p : Char → Bool} :
    ∀ {u : List Char} (w : List Char), (∀ a ∈ u, p a = true) →
      (u ++ w).takeWhile p = u ++ w.takeWhile p
  | [], w, _ => rfl
  | a :: u, w, h => by
    simp only [List.cons_append, List.takeWhile_cons,
      h a (List.mem_cons_self a u), if_true]
    rw [takeWhile_append_all w (fun b hb => h b (List.mem_cons_of_mem a hb))]

/-- On any non-failing path the component loop consumes
`min(remaining, activeMaxSum)`. -/
theorem validate_parts_consumed (entry : AIEntry) :
    ∀ (parts : List AIComponent) (ctx : GS1Encoder) (rem : List Char)
      (consumed : Nat) (ctxr : GS1Encoder) (v : Nat),
      validate_parts entry ctx parts rem consumed = (ctxr, v) →
      v = 0 ∨ v = consumed + min rem.length (activeMaxSum parts)
  | [], ctx, rem, consumed, ctxr, v, h => by
    simp only [validate_parts, Prod.mk.injEq] at h
    right
    rw [← h.2, activeMaxSum]
    simp
  | part :: rest, ctx, rem, consumed, ctxr, v, h => by
    simp only [validate_parts] at h
    split at h
    · rename_i hnone
      simp only [Prod.mk.injEq] at h
      right
      rw [← h.2, activeMaxSum, if_pos hnone]
      simp
    · rename_i hnone
      generalize hX : (if part.max < rem.length then part.max else rem.length) = X at h
      have hXfact : (part.max < rem.length ∧ X = part.max) ∨
          (¬ part.max < rem.length ∧ X = rem.length) := by
        by_cases hm : part.max < rem.length
        · rw [if_pos hm] at hX
          exact Or.inl ⟨hm, hX.symm⟩
        · rw [if_neg hm] at hX
          exact Or.inr ⟨hm, hX.symm⟩
      by_cases hN : part.cset = Cset.N
      · rw [if_pos hN] at h
        split at h
        · simp only [Prod.mk.injEq] at h
          exact Or.inl h.2.symm
        · split at h
          · simp only [Prod.mk.injEq] at h
            exact Or.inl h.2.symm
          · split at h
            · simp only [Prod.mk.injEq] at h
              exact Or.inl h.2.symm
            · rcases validate_parts_consumed entry rest _ _ _ _ _ h with h0 | hsum
              · exact Or.inl h0
              · right
                rw [hsum, activeMaxSum, if_neg hnone]
                simp only [List.length_drop]
                rcases hXfact with ⟨hm, hXe⟩ | ⟨hm, hXe⟩ <;> omega
      · rw [if_neg hN] at h
        split at h
        · simp only [Prod.mk.injEq] at h
          exact Or.inl h.2.symm
        · split at h
          · simp only [Prod.mk.injEq] at h
            exact Or.inl h.2.symm
          · split at h
            · simp only [Prod.mk.injEq] at h
              exact Or.inl h.2.symm
            · rcases validate_parts_consumed entry rest _ _ _ _ _ h with h0 | hsum
              · exact Or.inl h0
              · right
                rw [hsum, activeMaxSum, if_neg hnone]
                simp only [List.length_drop]
                rcases hXfact with ⟨hm, hXe⟩ | ⟨hm, hXe⟩ <;> omega

/-- A non-zero validation result leaves the context untouched. -/
theorem validate_parts_success_ctx (entry : AIEntry) :
    ∀ (parts : List AIComponent) (ctx : GS1Encoder) (rem : List Char)
      (consumed : Nat) (ctxr : GS1Encoder) (v : Nat),
      validate_parts entry ctx parts rem consumed = (ctxr, v) → v ≠ 0 →
      ctxr = ctx
  | [], ctx, rem, consumed, ctxr, v, h, _ => by
    simp only [validate_parts, Prod.mk.injEq] at h
    exact h.1.symm
  | part :: rest, ctx, rem, consumed, ctxr, v, h, hv => by
    simp only [validate_parts] at h
    split at h
    · simp only [Prod.mk.injEq] at h
      exact h.1.symm
    · rename_i hnone
      generalize hX : (if part.max < rem.length then part.max else rem.length) = X at h
      split at h
      · simp only [Prod.mk.injEq] at h
        exact absurd h.2.symm hv
      · by_cases hN : part.cset = Cset.N
        · rw [if_pos hN] at h
          split at h
          · simp only [Prod.mk.injEq] at h
            exact absurd h.2.symm hv
          · rename_i hcres
            split at h
            · simp only [Prod.mk.injEq] at h
              exact absurd h.2.symm hv
            · rename_i hlin
              have h1 := validate_parts_success_ctx entry rest _ _ _ _ _ h hv
              rw [h1]
              have hl2 : (runLinters part.linters
                  (lint_csetNumeric ctx entry (rem.take X)).1 entry (rem.take X)).2 = true := by
                first
                | exact hlin
                | simpa using hlin
              have hc2 : (lint_csetNumeric ctx entry (rem.take X)).2 = true := by
                first
                | exact hcres
                | simpa using hcres
              rw [runLinters_ok hl2]
              exact lint_csetNumeric_ok hc2
        · rw [if_neg hN] at h
          split at h
          · simp only [Prod.mk.injEq] at h
            exact absurd h.2.symm hv
          · rename_i hcres
            split at h
            · simp only [Prod.mk.injEq] at h
              exact absurd h.2.symm hv
            · rename_i hlin
              have h1 := validate_parts_success_ctx entry rest _ _ _ _ _ h hv
              rw [h1]
              have hl2 : (runLinters part.linters
                  (lint_cset82 ctx entry (rem.take X)).1 entry (rem.take X)).2 = true := by
                first
                | exact hlin
                | simpa using hlin
              have hc2 : (lint_cset82 ctx entry (rem.take X)).2 = true := by
                first
                | exact hcres
                | simpa using hcres
              rw [runLinters_ok hl2]
              exact lint_cset82_ok hc2

/-- A non-zero `validate_ai_val` result leaves the context untouched and
consumes `min(region, activeMaxSum)` characters. -/
theorem validate_ai_val_success {ctx : GS1Encoder} {e : AIEntry} {reg : List Char}
    {ctxr : GS1Encoder} {v : Nat}
    (h : validate_ai_val ctx e reg = (ctxr, v)) (hv : v ≠ 0) :
    ctxr = ctx ∧ v = min reg.length (activeMaxSum e.parts) := by
  unfold validate_ai_val at h
  split at h
  · simp only [Prod.mk.injEq] at h
    exact absurd h.2.symm hv
  · refine ⟨validate_parts_success_ctx e e.parts ctx reg 0 ctxr v h hv, ?_⟩
    rcases validate_parts_consumed e e.parts ctx reg 0 ctxr v h with h0 | hsum
    · exact absurd h0 hv
    · simpa using hsum

/-- Re-serialise an extracted-AI list: each entry\x27s AI key followed by
its value, with `#` inserted before an entry exactly when the preceding
entry\x27s AI definition requires FNC1 (`fnc1req` says whether one is due
before the first entry). -/
def serialFrom (fnc1req : Bool) : List ExtractedAI → List Char
  | [] => []
  | x :: rest =>
      (if fnc1req then ['#'] else []) ++ x.aiEntry.ai ++ x.value ++
        serialFrom x.aiEntry.fnc1 rest

/-- A due separator becomes a leading `#`. -/
theorem serialFrom_true (x : ExtractedAI) (l : List ExtractedAI) :
    serialFrom true (x :: l) = '#' :: serialFrom false (x :: l) := by
  simp [serialFrom]

/-- The extraction loop accepts a re-serialised list only by extracting
exactly that list. -/
theorem processAIs_serial :
    ∀ (l : List ExtractedAI) (fuel : Nat) (ctx ctxr : GS1Encoder),
      (∀ x ∈ l, x.aiEntry ∈ ai_table ∧ x.value ≠ [] ∧ '#' ∉ x.value ∧
        partsMinSum x.aiEntry ≤ x.value.length ∧
        x.value.length ≤ partsMaxSum x.aiEntry) →
      processAIsGo fuel ctx (serialFrom false l) = (ctxr, true) →
      ctxr = { ctx with aiData := ctx.aiData ++ l }
  | [], fuel, ctx, ctxr, _, h => by
    simp only [serialFrom, processAIsGo, Prod.mk.injEq] at h
    obtain ⟨h1, -⟩ := h
    subst h1
    simp
  | x :: rest, fuel, ctx, ctxr, hfacts, h => by
    obtain ⟨hmem, hvne, hnh, hmin, hmax⟩ := hfacts x (List.mem_cons_self x rest)
    have haine := entry_ai_ne_nil hmem
    have hser : serialFrom false (x :: rest) =
        x.aiEntry.ai ++ (x.value ++ serialFrom x.aiEntry.fnc1 rest) := by
      simp [serialFrom, List.append_assoc]
    rw [hser] at h
    obtain ⟨a0, at0, hA⟩ := List.exists_cons_of_ne_nil haine
    cases fuel with
    | zero =>
      rw [hA, List.cons_append] at h
      simp only [processAIsGo, Prod.mk.injEq] at h
      exact absurd h.2 (by decide)
    | succ fuel =>
      rw [hA, List.cons_append] at h
      simp only [processAIsGo] at h
      have hlook : lookupAIentry
          (a0 :: (at0 ++ (x.value ++ serialFrom x.aiEntry.fnc1 rest))) 0 =
          Option.some x.aiEntry := by
        rw [← List.cons_append, ← hA]
        exact lookupAIentry_self_prefix hmem _
      rw [hlook] at h
      dsimp only at h
      have hdrop : (a0 :: (at0 ++ (x.value ++ serialFrom x.aiEntry.fnc1 rest))).drop
          x.aiEntry.ai.length = x.value ++ serialFrom x.aiEntry.fnc1 rest := by
        rw [← List.cons_append, ← hA, List.drop_left]
      rw [hdrop] at h
      have hregion : (x.value ++ serialFrom x.aiEntry.fnc1 rest).takeWhile
          (fun ch => ch ≠ '#') =
          x.value ++ (serialFrom x.aiEntry.fnc1 rest).takeWhile (fun ch => ch ≠ '#') := by
        refine takeWhile_append_all _ ?_
        intro c hc
        simp only [ne_eq, decide_eq_true_eq]
        intro hcc
        exact hnh (hcc ▸ hc)
      rw [hregion] at h
      split at h
      · simp at h
      · rename_i hz
        have hvs := validate_ai_val_success
          (show validate_ai_val ctx x.aiEntry (x.value ++
              (serialFrom x.aiEntry.fnc1 rest).takeWhile (fun ch => ch ≠ '#')) =
            ((validate_ai_val ctx x.aiEntry (x.value ++
              (serialFrom x.aiEntry.fnc1 rest).takeWhile (fun ch => ch ≠ '#'))).1,
             (validate_ai_val ctx x.aiEntry (x.value ++
              (serialFrom x.aiEntry.fnc1 rest).takeWhile (fun ch => ch ≠ '#'))).2)
            from Prod.mk.eta.symm) hz
        have hveq : (validate_ai_val ctx x.aiEntry
            (x.value ++
              (serialFrom x.aiEntry.fnc1 rest).takeWhile (fun ch => ch ≠ '#'))).2 =
            x.value.length := by
          rw [hvs.2, entry_activeMax hmem, List.length_append]
          cases hf : x.aiEntry.fnc1 with
          | true =>
            have htw0 : ((serialFrom true rest).takeWhile
                (fun ch => ch ≠ '#')).length = 0 := by
              cases rest with
              | nil => simp [serialFrom]
              | cons y r2 =>
                rw [serialFrom_true]
                simp [List.takeWhile_cons]
            rw [htw0]
            omega
          | false =>
            have heq1 := entry_fixed_minmax hmem hf
            omega
        rw [hvs.1, hveq] at h
        have htake : (x.value ++ serialFrom x.aiEntry.fnc1 rest).take x.value.length =
            x.value := List.take_left _ _
        have hdropv : (x.value ++ serialFrom x.aiEntry.fnc1 rest).drop x.value.length =
            serialFrom x.aiEntry.fnc1 rest := List.drop_left _ _
        rw [htake, hdropv] at h
        split at h
        · split at h
          · simp at h
          · cases rest with
            | nil =>
              simp only [serialFrom] at h
              rw [if_neg (by simp)] at h
              simp only [processAIsGo, Prod.mk.injEq] at h
              obtain ⟨h1, -⟩ := h
              exact h1.symm
            | cons y rest2 =>
              have hfr : ∀ z ∈ y :: rest2, z.aiEntry ∈ ai_table ∧ z.value ≠ [] ∧
                  '#' ∉ z.value ∧ partsMinSum z.aiEntry ≤ z.value.length ∧
                  z.value.length ≤ partsMaxSum z.aiEntry :=
                fun z hzz => hfacts z (List.mem_cons_of_mem x hzz)
              obtain ⟨hmemy, -, -, -, -⟩ := hfr y (List.mem_cons_self y rest2)
              cases hf : x.aiEntry.fnc1 with
              | true =>
                rw [hf, serialFrom_true] at h
                rw [if_pos (by simp)] at h
                simp only [List.drop_succ_cons, List.drop_zero] at h
                have hrec := processAIs_serial (y :: rest2) fuel _ _ hfr h
                refine hrec.trans ?_
                congr 1
                simp [List.append_assoc]
              | false =>
                rw [hf] at h
                obtain ⟨b0, bt, hB⟩ := List.exists_cons_of_ne_nil
                  (entry_ai_ne_nil hmemy)
                have hdig := entry_ai_digits hmemy b0
                  (by rw [hB]; exact List.mem_cons_self _ _)
                have hb : b0 ≠ '#' := by
                  intro hq
                  rw [hq] at hdig
                  exact absurd hdig (by decide)
                have hcond : ((serialFrom false (y :: rest2)).head? ==
                    Option.some '#') = false := by
                  have hserY : serialFrom false (y :: rest2) =
                      b0 :: (bt ++ (y.value ++ serialFrom y.aiEntry.fnc1 rest2)) := by
                    simp [serialFrom, hB, List.append_assoc]
                  rw [hserY]
                  simp [hb]
                rw [if_neg (by simp [hcond])] at h
                have hrec := processAIs_serial (y :: rest2) fuel _ _ hfr h
                refine hrec.trans ?_
                congr 1
                simp [List.append_assoc]
        · simp at h

/-- The bracketed parse loop only ever appends the serialisation of a
list of registry entries with length- and content-checked values. -/
theorem parseAIloopGo_shape :
    ∀ (fuel : Nat) (p ds0 : List Char) (f : Bool) (ds : List Char),
      parseAIloopGo fuel p ds0 f = Except.ok ds →
      ∃ l : List ExtractedAI, ds = ds0 ++ serialFrom f l ∧
        ∀ x ∈ l, x.aiEntry ∈ ai_table ∧ x.value ≠ [] ∧ '#' ∉ x.value ∧
          partsMinSum x.aiEntry ≤ x.value.length ∧
          x.value.length ≤ partsMaxSum x.aiEntry
  | 0, _, _, _, _, h => by simp [parseAIloopGo] at h
  | fuel + 1, p, ds0, f, ds, h => by
    cases p with
    | nil =>
      simp only [parseAIloopGo, Except.ok.injEq] at h
      exact ⟨[], by simp [serialFrom, ← h], by simp⟩
    | cons c p1 =>
      simp only [parseAIloopGo] at h
      split at h
      · simp at h
      · split at h
        · simp at h
        · rename_i k hk
          split at h
          · simp at h
          · rename_i entry hlook
            have hmem := lookupAIentry_mem hlook
            split at h
            · simp at h
            · rename_i dsA hwA
              split at h
              · simp at h
              · rename_i dsB hwB
                split at h
                · simp at h
                · rename_i hne
                  split at h
                  · simp at h
                  · rename_i dsC2 pNext2 hvs
                    split at h
                    · simp at h
                    · rename_i hchk
                      obtain ⟨l2, hds, hl2⟩ := parseAIloopGo_shape fuel _ _ _ _ h
                      rw [valueScan] at hvs
                      obtain ⟨v, hv⟩ := valueScanGo_append _ _ _ _ _ _ hvs
                      have hvdrop : dsC2.drop dsB.length = v := by
                        rw [hv, List.drop_left]
                      refine ⟨⟨entry, v⟩ :: l2, ?_, ?_⟩
                      · rw [hds, hv, writeDataStr_ok hwB]
                        have hA : dsA = ds0 ++ (if f then ['#'] else []) := by
                          cases f
                          · simpa using hwA.symm
                          · simpa using (writeDataStr_ok hwA)
                        rw [hA]
                        have hf2 : (!(fixedAIprefixes.any
                            (fun q => entry.ai.take 2 == q))) = entry.fnc1 :=
                          (entry_fnc1_eq hmem).symm
                        simp only [serialFrom, hf2]
                        simp [List.append_assoc]
                      · intro z hz
                        rcases List.mem_cons.mp hz with hz1 | hz2
                        · subst hz1
                          rw [hvdrop] at hchk
                          unfold aiValLengthContentCheck at hchk
                          by_cases h1 : v.length <
                              (entry.parts.map (fun part => part.min)).sum
                          · rw [if_pos h1] at hchk
                            simp at hchk
                          · rw [if_neg h1] at hchk
                            by_cases h2 : (entry.parts.map (fun part => part.max)).sum <
                                v.length
                            · rw [if_pos h2] at hchk
                              simp at hchk
                            · rw [if_neg h2] at hchk
                              by_cases h3 : (v.take v.length).contains '#' = true
                              · rw [if_pos h3] at hchk
                                simp at hchk
                              · refine ⟨hmem, ?_, ?_, not_lt.mp h1, not_lt.mp h2⟩
                                · intro hnil
                                  have hnil2 : v = [] := hnil
                                  have hp := entry_minSum_pos hmem
                                  have hle := not_lt.mp h1
                                  rw [hnil2] at hle
                                  unfold partsMinSum at hp
                                  simp only [List.length_nil] at hle
                                  omega
                                · intro hin
                                  have hin2 : '#' ∈ v := hin
                                  refine absurd ?_ h3
                                  rw [List.take_length, List.contains_eq_any_beq,
                                    List.any_eq_true]
                                  exact ⟨'#', hin2, by simp⟩
                        · exact hl2 z hz2

/-- C1: a successful bracketed parse yields an element string that the
processor also accepts, and re-serialising the extracted-AI entries it
appends (AI key then value, `#` inserted exactly before entries whose
predecessor requires FNC1, the whole prefixed by `#`) reproduces that
element string exactly. -/
theorem C1_parse_process_roundtrip :
    ∀ (ctx : GS1Encoder) (s : List Char) (ctxr : GS1Encoder) (e : List Char),
      gs1_parseAIdata ctx s = (ctxr, true, e) →
      gs1_processAIdata ctx e = (ctxr, true) ∧
      serialFrom true (ctxr.aiData.drop ctx.aiData.length) = e := by
  intro ctx s ctxr e h
  unfold gs1_parseAIdata at h
  split at h
  · rename_i ds hds
    dsimp only at h
    simp only [Prod.mk.injEq] at h
    obtain ⟨h1, h2, h3⟩ := h
    subst h3
    rw [parseAIloop] at hds
    obtain ⟨l, hl, hfacts⟩ := parseAIloopGo_shape _ _ _ _ _ hds
    simp only [List.nil_append] at hl
    constructor
    · rw [← gs1_processAIdata_clear ctx ds, Prod.ext_iff]
      exact ⟨h1, h2⟩
    · cases l with
      | nil =>
        rw [hl] at h2
        simp only [serialFrom] at h2
        simp [gs1_processAIdata] at h2
      | cons x l2 =>
        subst hl
        rw [serialFrom_true] at h1 h2
        have hSne : serialFrom false (x :: l2) ≠ [] := by
          obtain ⟨hmx, -, -, -, -⟩ := hfacts x (List.mem_cons_self _ _)
          have hane := entry_ai_ne_nil hmx
          intro hq
          rw [serialFrom] at hq
          simp only [List.append_eq_nil] at hq
          exact hane hq.1.1.2
        unfold gs1_processAIdata at h1 h2
        dsimp only at h1 h2
        rw [if_neg (by simp)] at h1 h2
        rw [if_neg (by simpa [List.isEmpty_iff] using hSne)] at h1 h2
        rw [processAIs] at h1 h2
        have hrun : processAIsGo ((serialFrom false (x :: l2)).length + 1)
            { ctx with errMsg := "", errFlag := false }
            (serialFrom false (x :: l2)) = (ctxr, true) := by
          rw [Prod.ext_iff]
          exact ⟨h1, h2⟩
        have hres := processAIs_serial (x :: l2) _ _ _ hfacts hrun
        rw [hres]
        congr 1
        exact List.drop_left _ _
  · dsimp only at h
    simp only [Prod.mk.injEq] at h
    exact absurd h.2.1 (by decide)

/-- Witness for C1: parsing "(01)12345678901231(10)12345" and
re-serialising the two extracted AIs round-trips through
"#01123456789012311012345". -/
theorem C1_parse_process_roundtrip_witness :
    gs1_processAIdata ⟨"", false, []⟩ (String.data "#01123456789012311012345") =
      (⟨"", false, [⟨aiEntryGTIN, String.data "12345678901231"⟩,
        ⟨aiEntry10, String.data "12345"⟩]⟩, true) ∧
    serialFrom true ((⟨"", false, [⟨aiEntryGTIN, String.data "12345678901231"⟩,
        ⟨aiEntry10, String.data "12345"⟩]⟩ : GS1Encoder).aiData.drop
      ((⟨"", false, []⟩ : GS1Encoder).aiData.length)) =
      String.data "#01123456789012311012345" :=
  C1_parse_process_roundtrip ⟨"", false, []⟩
    (String.data "(01)12345678901231(10)12345")
    ⟨"", false, [⟨aiEntryGTIN, String.data "12345678901231"⟩,
      ⟨aiEntry10, String.data "12345"⟩]⟩
    (String.data "#01123456789012311012345") (by decide)

end GS1
